import Mathlib

/-!
# NEMU riscv64 privileged state: CSR access gate, CSR read/write effects, privileged instructions

Shallow embedding of `src/isa/riscv64/system/priv.c`.

* Machine words (`word_t`, `rtlreg_t`, `uint64_t`) are natural numbers below `2^64`;
  every arithmetic operation that can wrap is reduced modulo `2^64` explicitly.
* The global `csr_array[4096]` is a function from addresses to words, `csr_exist[4096]`
  a function from addresses to booleans.
* `longjmp_exception` and `panic` leave the enclosing function abruptly; the global state
  keeps whatever had been stored before the jump, so an abrupt result carries the state
  reached at the jump.
* Preprocessor switches (`CONFIG_*`) are fields of a build configuration record.
* Calls into the rest of the simulator (`update_mmu_state`, `mmu_tlb_flush`,
  `fp_set_dirty`, ...) are appended to a call log in program order;
  `set_sys_state_flag` raises a pending flag.
-/

namespace NEMU

/-! ## Machine words -/

/-- Number of values of a 64-bit word. -/
def WORD : Nat := 2 ^ 64

/-- C `~x` on a 64-bit word. -/
def wnot (x : Nat) : Nat := 2 ^ 64 - (x % 2 ^ 64 + 1)

/-- C `x + y` on 64-bit words. -/
def wadd (x y : Nat) : Nat := (x + y) % 2 ^ 64

/-- C `x - y` on 64-bit words. -/
def wsub (x y : Nat) : Nat := (x % 2 ^ 64 + (2 ^ 64 - y % 2 ^ 64)) % 2 ^ 64

/-- C `x << k` on a 64-bit word. -/
def wshl (x k : Nat) : Nat := (x <<< k) % 2 ^ 64

/-- Conversion of a 32-bit `int` to a 64-bit word (sign extension), as done by the usual
arithmetic conversions when an `int` meets a `uint64_t` operand. -/
def sext32 (x : Nat) : Nat :=
  if x % 2 ^ 32 < 2 ^ 31 then x % 2 ^ 32 else x % 2 ^ 32 + (2 ^ 64 - 2 ^ 32)

/-- Read of a bit-field of `len` bits starting at bit `lo`. -/
def getf (w lo len : Nat) : Nat := (w >>> lo) % 2 ^ len

/-- Assignment of `x` to a bit-field of `len` bits starting at bit `lo` of a 64-bit word
(the value is truncated to the width of the field, the other bits are kept). -/
def setf (w lo len x : Nat) : Nat :=
  (w &&& wnot ((2 ^ len - 1) <<< lo)) ||| ((x % 2 ^ len) <<< lo)

/-- The macro `mask_bitset(old, mask, new)`: `((old) & ~(mask)) | ((new) & (mask))`. -/
def mask_bitset (old mask new : Nat) : Nat := (old &&& wnot mask) ||| (new &&& mask)

/-- C truth value of a Boolean, as stored into a bit-field. -/
def b2n (b : Bool) : Nat := if b then 1 else 0

/-! ## Build configuration -/

/-- One entry of `cpu.TM->triggers`. -/
structure Trigger where
  /-- The field `tdata1.val`. -/
  tdata1 : Nat
  /-- The field `tdata2.val`. -/
  tdata2 : Nat
  /-- The field `tdata3.val`. -/
  tdata3 : Nat

/-- The preprocessor configuration of one build: every `CONFIG_*` switch and constant that
`priv.c` tests, and the macros of `csr.h` whose definition is not part of `priv.c`. -/
structure Config where
  /-- `CONFIG_RVH`: hypervisor extension. -/
  RVH : Bool
  /-- `CONFIG_PANIC_ON_UNIMP_CSR`. -/
  PANIC_ON_UNIMP_CSR : Bool
  /-- `CONFIG_FPU_NONE`. -/
  FPU_NONE : Bool
  /-- `CONFIG_RV_MSTATUS_FS_WRITABLE`. -/
  RV_MSTATUS_FS_WRITABLE : Bool
  /-- `CONFIG_RVV`. -/
  RVV : Bool
  /-- `CONFIG_RV_Zicntr`. -/
  RV_Zicntr : Bool
  /-- `CONFIG_RV_Zihpm`. -/
  RV_Zihpm : Bool
  /-- `CONFIG_RV_CSR_TIME`. -/
  RV_CSR_TIME : Bool
  /-- `CONFIG_RV_CSR_MCOUNTINHIBIT`. -/
  RV_CSR_MCOUNTINHIBIT : Bool
  /-- `CONFIG_RV_CSR_MCOUNTINHIBIT_CNTR`. -/
  RV_CSR_MCOUNTINHIBIT_CNTR : Bool
  /-- `CONFIG_RV_CSR_MCOUNTINHIBIT_HPM`. -/
  RV_CSR_MCOUNTINHIBIT_HPM : Bool
  /-- `CONFIG_XTVEC_VECTORED_MODE`. -/
  XTVEC_VECTORED_MODE : Bool
  /-- `CONFIG_MISA_UNCHANGEABLE`. -/
  MISA_UNCHANGEABLE : Bool
  /-- `CONFIG_RV_PMP_CSR`. -/
  RV_PMP_CSR : Bool
  /-- `CONFIG_PMPTABLE_EXTENSION`. -/
  PMPTABLE_EXTENSION : Bool
  /-- `CONFIG_RVSDTRIG`. -/
  RVSDTRIG : Bool
  /-- `CONFIG_RV_SVINVAL`. -/
  RV_SVINVAL : Bool
  /-- `CONFIG_MODE_USER`. -/
  MODE_USER : Bool
  /-- `CONFIG_SHARE`. -/
  SHARE : Bool
  /-- `CONFIG_DIFFTEST_REF_QEMU`. -/
  DIFFTEST_REF_QEMU : Bool
  /-- `CONFIG_FS_CLEAN_STATE`. -/
  FS_CLEAN_STATE : Bool
  /-- `CONFIG_RV_PMP_ACTIVE_NUM`. -/
  RV_PMP_ACTIVE_NUM : Nat
  /-- `CONFIG_PMP_GRANULARITY`. -/
  PMP_GRANULARITY : Nat
  /-- `CONFIG_PADDRBITS`. -/
  PADDRBITS : Nat
  /-- `CONFIG_TRIGGER_NUM`. -/
  TRIGGER_NUM : Nat
  /-- `VLEN`. -/
  VLEN : Nat
  /-- `SSTATUS_RMASK` (defined in `csr.h`). -/
  SSTATUS_RMASK : Nat
  /-- `MASKED_SATP(x)` (defined in `csr.h`). -/
  MASKED_SATP : Nat → Nat
  /-- `MASKED_HGATP(x)` (defined in `csr.h`). -/
  MASKED_HGATP : Nat → Nat
  /-- Bit position of the field `srnctl->svinval` (declared in `csr.h`). -/
  SRNCTL_SVINVAL_BIT : Nat
  /-- Modelled from the spec: the helper `mcontrol_checked_write` is defined outside the
  sources. The spec routes a match-control write into the entry selected by the select
  register, so the helper is taken as the function that gives the new `tdata1` word of the
  selected entry from the trigger table, the selected index and the written value. -/
  mcontrol_checked_write : (Nat → Trigger) → Nat → Nat → Nat

/-! ## Constants of the headers

Modelled from the spec: the headers `csr.h`, `intr.h`, `trigger.h` and `cpu/cpu.h` are not
part of the sources. The privilege levels, exception causes, PMP bits, bit-field layouts and
the CSR address table below are the encodings of the RISC-V privileged architecture, which is
what the register names of `priv.c` denote. -/

/-- Modelled from the spec: constant `MODE_U` (privilege level user) of a header outside the
sources. -/
def MODE_U : Nat := 0
/-- Modelled from the spec: constant `MODE_S` (privilege level supervisor). -/
def MODE_S : Nat := 1
/-- Modelled from the spec: constant `MODE_HS` (privilege level hypervisor-supervisor). -/
def MODE_HS : Nat := 2
/-- Modelled from the spec: constant `MODE_M` (privilege level machine). -/
def MODE_M : Nat := 3

/-- Trap kinds raised through `longjmp_exception`. -/
inductive Exc where
  /-- Illegal-instruction trap (`EX_II`). -/
  | EX_II
  /-- Virtual-instruction trap (`EX_VI`). -/
  | EX_VI
  deriving DecidableEq, Repr

/-- Pending system-state flags of `set_sys_state_flag`. -/
inductive SysFlag where
  /-- The flag `SYS_STATE_UPDATE`. -/
  | SYS_STATE_UPDATE
  /-- The flag `SYS_STATE_FLUSH_TCACHE`. -/
  | SYS_STATE_FLUSH_TCACHE
  deriving DecidableEq, Repr

/-- Calls into collaborators of the simulator, recorded in program order. -/
inductive ExtCall where
  /-- Call `update_mmu_state()`. -/
  | update_mmu_state
  /-- Call `mmu_tlb_flush(vaddr)`. -/
  | mmu_tlb_flush (vaddr : Nat)
  /-- Call `fp_set_dirty()`. -/
  | fp_set_dirty
  /-- Call `fp_update_rm_cache(rm)`. -/
  | fp_update_rm_cache (rm : Nat)
  /-- Call `vp_set_dirty()`. -/
  | vp_set_dirty
  /-- Call `difftest_skip_ref()`. -/
  | difftest_skip_ref
  /-- Call `mcontrol_checked_write(&triggers[sel].tdata1.mcontrol, &src, cpu.TM)`. -/
  | mcontrol_checked_write (sel src : Nat)
  /-- Call `tm_update_timings(cpu.TM)`. -/
  | tm_update_timings
  deriving DecidableEq, Repr

/-- Modelled from the spec: constant `PMP_R` of a header outside the sources. -/
def PMP_R : Nat := 0x01
/-- Modelled from the spec: constant `PMP_W` of a header outside the sources. -/
def PMP_W : Nat := 0x02
/-- Modelled from the spec: constant `PMP_X` of a header outside the sources. -/
def PMP_X : Nat := 0x04
/-- Modelled from the spec: constant `PMP_A` of a header outside the sources. -/
def PMP_A : Nat := 0x18
/-- Modelled from the spec: constant `PMP_L` of a header outside the sources. -/
def PMP_L : Nat := 0x80
/-- Modelled from the spec: constant `PMP_TOR` of a header outside the sources. -/
def PMP_TOR : Nat := 0x08
/-- Modelled from the spec: constant `PMP_NA4` of a header outside the sources. -/
def PMP_NA4 : Nat := 0x10
/-- Modelled from the spec: constant `PMP_NAPOT` of a header outside the sources. -/
def PMP_NAPOT : Nat := 0x18
/-- Modelled from the spec: constant `PMP_SHIFT` of a header outside the sources. -/
def PMP_SHIFT : Nat := 2

/-- Modelled from the spec: constant `CSR_PMPCFG_BASE` of a header outside the sources. -/
def CSR_PMPCFG_BASE : Nat := 0x3a0
/-- Modelled from the spec: constant `CSR_PMPCFG_MAX_NUM` of a header outside the sources. -/
def CSR_PMPCFG_MAX_NUM : Nat := 16
/-- Modelled from the spec: constant `CSR_PMPADDR_BASE` of a header outside the sources. -/
def CSR_PMPADDR_BASE : Nat := 0x3b0
/-- Modelled from the spec: constant `CSR_PMPADDR_MAX_NUM` of a header outside the sources. -/
def CSR_PMPADDR_MAX_NUM : Nat := 64
/-- Modelled from the spec: constant `CSR_HPMCOUNTER_BASE` of a header outside the sources. -/
def CSR_HPMCOUNTER_BASE : Nat := 0xc03
/-- Modelled from the spec: constant `CSR_HPMCOUNTER_NUM` of a header outside the sources. -/
def CSR_HPMCOUNTER_NUM : Nat := 29
/-- Modelled from the spec: constant `CSR_MHPMCOUNTER_BASE` of a header outside the sources. -/
def CSR_MHPMCOUNTER_BASE : Nat := 0xb03
/-- Modelled from the spec: constant `CSR_MHPMCOUNTER_NUM` of a header outside the sources. -/
def CSR_MHPMCOUNTER_NUM : Nat := 29
/-- Modelled from the spec: constant `CSR_MHPMEVENT_BASE` of a header outside the sources. -/
def CSR_MHPMEVENT_BASE : Nat := 0x323
/-- Modelled from the spec: constant `CSR_MHPMEVENT_NUM` of a header outside the sources. -/
def CSR_MHPMEVENT_NUM : Nat := 29

/-- Modelled from the spec: constant `TRIG_TYPE_NONE` of a header outside the sources. -/
def TRIG_TYPE_NONE : Nat := 0
/-- Modelled from the spec: constant `TRIG_TYPE_MCONTROL` of a header outside the sources. -/
def TRIG_TYPE_MCONTROL : Nat := 2
/-- Modelled from the spec: constant `TRIG_TYPE_DISABLE` of a header outside the sources. -/
def TRIG_TYPE_DISABLE : Nat := 15

/-- Modelled from the spec: address of CSR `fflags` in the table `CSRS` of `csr.h`. -/
def fflags : Nat := 0x001
/-- Modelled from the spec: address of CSR `frm` in the table `CSRS` of `csr.h`. -/
def frm : Nat := 0x002
/-- Modelled from the spec: address of CSR `fcsr` in the table `CSRS` of `csr.h`. -/
def fcsr : Nat := 0x003
/-- Modelled from the spec: address of CSR `vstart` in the table `CSRS` of `csr.h`. -/
def vstart : Nat := 0x008
/-- Modelled from the spec: address of CSR `vxsat` in the table `CSRS` of `csr.h`. -/
def vxsat : Nat := 0x009
/-- Modelled from the spec: address of CSR `vxrm` in the table `CSRS` of `csr.h`. -/
def vxrm : Nat := 0x00a
/-- Modelled from the spec: address of CSR `vcsr` in the table `CSRS` of `csr.h`. -/
def vcsr : Nat := 0x00f
/-- Modelled from the spec: address of CSR `vlenb` in the table `CSRS` of `csr.h`. -/
def vlenb : Nat := 0xc22
/-- Modelled from the spec: address of CSR `cycle` in the table `CSRS` of `csr.h`. -/
def cycle : Nat := 0xc00
/-- Modelled from the spec: address of CSR `time` (`csr_time` in the sources) in the table
`CSRS` of `csr.h`. -/
def csr_time : Nat := 0xc01
/-- Modelled from the spec: address of CSR `instret` in the table `CSRS` of `csr.h`. -/
def instret : Nat := 0xc02
/-- Modelled from the spec: address of CSR `sstatus` in the table `CSRS` of `csr.h`. -/
def sstatus : Nat := 0x100
/-- Modelled from the spec: address of CSR `sie` in the table `CSRS` of `csr.h`. -/
def sie : Nat := 0x104
/-- Modelled from the spec: address of CSR `stvec` in the table `CSRS` of `csr.h`. -/
def stvec : Nat := 0x105
/-- Modelled from the spec: address of CSR `scounteren` in the table `CSRS` of `csr.h`. -/
def scounteren : Nat := 0x106
/-- Modelled from the spec: address of CSR `sscratch` in the table `CSRS` of `csr.h`. -/
def sscratch : Nat := 0x140
/-- Modelled from the spec: address of CSR `sepc` in the table `CSRS` of `csr.h`. -/
def sepc : Nat := 0x141
/-- Modelled from the spec: address of CSR `scause` in the table `CSRS` of `csr.h`. -/
def scause : Nat := 0x142
/-- Modelled from the spec: address of CSR `stval` in the table `CSRS` of `csr.h`. -/
def stval : Nat := 0x143
/-- Modelled from the spec: address of CSR `sip` in the table `CSRS` of `csr.h`. -/
def sip : Nat := 0x144
/-- Modelled from the spec: address of CSR `satp` in the table `CSRS` of `csr.h`. -/
def satp : Nat := 0x180
/-- Modelled from the spec: address of CSR `srnctl` in the table `CSRS` of `csr.h`. -/
def srnctl : Nat := 0x5c4
/-- Modelled from the spec: address of CSR `vsstatus` in the table `CSRS` of `csr.h`. -/
def vsstatus : Nat := 0x200
/-- Modelled from the spec: address of CSR `vsie` in the table `CSRS` of `csr.h`. -/
def vsie : Nat := 0x204
/-- Modelled from the spec: address of CSR `vstvec` in the table `CSRS` of `csr.h`. -/
def vstvec : Nat := 0x205
/-- Modelled from the spec: address of CSR `vsscratch` in the table `CSRS` of `csr.h`. -/
def vsscratch : Nat := 0x240
/-- Modelled from the spec: address of CSR `vsepc` in the table `CSRS` of `csr.h`. -/
def vsepc : Nat := 0x241
/-- Modelled from the spec: address of CSR `vscause` in the table `CSRS` of `csr.h`. -/
def vscause : Nat := 0x242
/-- Modelled from the spec: address of CSR `vstval` in the table `CSRS` of `csr.h`. -/
def vstval : Nat := 0x243
/-- Modelled from the spec: address of CSR `vsip` in the table `CSRS` of `csr.h`. -/
def vsip : Nat := 0x244
/-- Modelled from the spec: address of CSR `vsatp` in the table `CSRS` of `csr.h`. -/
def vsatp : Nat := 0x280
/-- Modelled from the spec: address of CSR `hstatus` in the table `CSRS` of `csr.h`. -/
def hstatus : Nat := 0x600
/-- Modelled from the spec: address of CSR `hideleg` in the table `CSRS` of `csr.h`. -/
def hideleg : Nat := 0x603
/-- Modelled from the spec: address of CSR `hie` in the table `CSRS` of `csr.h`. -/
def hie : Nat := 0x604
/-- Modelled from the spec: address of CSR `hcounteren` in the table `CSRS` of `csr.h`. -/
def hcounteren : Nat := 0x606
/-- Modelled from the spec: address of CSR `hgeie` in the table `CSRS` of `csr.h`. -/
def hgeie : Nat := 0x607
/-- Modelled from the spec: address of CSR `hip` in the table `CSRS` of `csr.h`. -/
def hip : Nat := 0x644
/-- Modelled from the spec: address of CSR `hvip` in the table `CSRS` of `csr.h`. -/
def hvip : Nat := 0x645
/-- Modelled from the spec: address of CSR `hgatp` in the table `CSRS` of `csr.h`. -/
def hgatp : Nat := 0x680
/-- Modelled from the spec: address of CSR `hgeip` in the table `CSRS` of `csr.h`. -/
def hgeip : Nat := 0xe12
/-- Modelled from the spec: address of CSR `mstatus` in the table `CSRS` of `csr.h`. -/
def mstatus : Nat := 0x300
/-- Modelled from the spec: address of CSR `misa` in the table `CSRS` of `csr.h`. -/
def misa : Nat := 0x301
/-- Modelled from the spec: address of CSR `medeleg` in the table `CSRS` of `csr.h`. -/
def medeleg : Nat := 0x302
/-- Modelled from the spec: address of CSR `mideleg` in the table `CSRS` of `csr.h`. -/
def mideleg : Nat := 0x303
/-- Modelled from the spec: address of CSR `mie` in the table `CSRS` of `csr.h`. -/
def mie : Nat := 0x304
/-- Modelled from the spec: address of CSR `mtvec` in the table `CSRS` of `csr.h`. -/
def mtvec : Nat := 0x305
/-- Modelled from the spec: address of CSR `mcounteren` in the table `CSRS` of `csr.h`. -/
def mcounteren : Nat := 0x306
/-- Modelled from the spec: address of CSR `mcountinhibit` in the table `CSRS` of `csr.h`. -/
def mcountinhibit : Nat := 0x320
/-- Modelled from the spec: address of CSR `mepc` in the table `CSRS` of `csr.h`. -/
def mepc : Nat := 0x341
/-- Modelled from the spec: address of CSR `mip` in the table `CSRS` of `csr.h`. -/
def mip : Nat := 0x344
/-- Modelled from the spec: address of CSR `tselect` in the table `CSRS` of `csr.h`. -/
def tselect : Nat := 0x7a0
/-- Modelled from the spec: address of CSR `tdata1` in the table `CSRS` of `csr.h`. -/
def tdata1 : Nat := 0x7a1
/-- Modelled from the spec: address of CSR `tdata2` in the table `CSRS` of `csr.h`. -/
def tdata2 : Nat := 0x7a2
/-- Modelled from the spec: address of CSR `tdata3` in the table `CSRS` of `csr.h`. -/
def tdata3 : Nat := 0x7a3
/-- Modelled from the spec: address of CSR `mcycle` in the table `CSRS` of `csr.h`. -/
def mcycle : Nat := 0xb00
/-- Modelled from the spec: address of CSR `minstret` in the table `CSRS` of `csr.h`. -/
def minstret : Nat := 0xb02

/-! ## Machine state -/

/-- The globals that `priv.c` reads and writes. -/
structure State where
  /-- The array `csr_array[4096]`. -/
  csr_array : Nat → Nat
  /-- The array `csr_exist[4096]`, filled by `init_csr` from the table `CSRS`. -/
  csr_exist : Nat → Bool
  /-- The field `cpu.mode`. -/
  mode : Nat
  /-- The field `cpu.v` (only present with `CONFIG_RVH`). -/
  v : Nat
  /-- The table `cpu.TM->triggers`. -/
  triggers : Nat → Trigger
  /-- The value that `get_abs_instr_count()` returns. -/
  abs_instr_count : Nat
  /-- The value that `clint_uptime()` returns. -/
  clint_uptime : Nat
  /-- Flags raised by `set_sys_state_flag` and not yet consumed. -/
  sys_state_flag : SysFlag → Bool
  /-- Calls made to collaborators, oldest first. -/
  calls : List ExtCall

/-- Result of a function that may leave through `longjmp_exception` or `panic`. -/
inductive Res (α : Type) where
  /-- Normal return with a value. -/
  | ok (val : α) (s : State)
  /-- The function called `longjmp_exception(cause)`, in state `s`. -/
  | trap (cause : Exc) (s : State)
  /-- The function called `panic` or failed an assertion, in state `s`. -/
  | panic (s : State)

/-- Sequencing: the rest of the body runs only after a normal return. -/
def Res.bind {α β : Type} (r : Res α) (f : α → State → Res β) : Res β :=
  match r with
  | .ok a s => f a s
  | .trap c s => .trap c s
  | .panic s => .panic s

/-- Store `val` into `csr_array[addr]`. -/
def State.set (s : State) (addr val : Nat) : State :=
  { s with csr_array := fun a => if a = addr then val else s.csr_array a }

/-- The call `set_sys_state_flag(flag)`. -/
def set_sys_state_flag (s : State) (flag : SysFlag) : State :=
  { s with sys_state_flag := fun f => if f = flag then true else s.sys_state_flag f }

/-- Record a call to a collaborator. -/
def State.call (s : State) (c : ExtCall) : State :=
  { s with calls := s.calls ++ [c] }

/-! ## Bit-fields of the status registers

Modelled from the spec: the bit-field declarations of `csr.h` are not part of the sources; the
positions are those of the RISC-V privileged architecture. -/

/-- Modelled from the spec: field `mstatus->fs` (declared in `csr.h`), bits 14:13. -/
def mstatus_fs (w : Nat) : Nat := getf w 13 2
/-- Modelled from the spec: field `mstatus->vs` (declared in `csr.h`), bits 10:9. -/
def mstatus_vs (w : Nat) : Nat := getf w 9 2
/-- Modelled from the spec: field `mstatus->mpp` (declared in `csr.h`), bits 12:11. -/
def mstatus_mpp (w : Nat) : Nat := getf w 11 2
/-- Modelled from the spec: field `mstatus->spp` (declared in `csr.h`), bit 8. -/
def mstatus_spp (w : Nat) : Nat := getf w 8 1
/-- Modelled from the spec: field `mstatus->sie` (declared in `csr.h`), bit 1. -/
def mstatus_sie (w : Nat) : Nat := getf w 1 1
/-- Modelled from the spec: field `mstatus->spie` (declared in `csr.h`), bit 5. -/
def mstatus_spie (w : Nat) : Nat := getf w 5 1
/-- Modelled from the spec: field `mstatus->mie` (declared in `csr.h`), bit 3. -/
def mstatus_mie (w : Nat) : Nat := getf w 3 1
/-- Modelled from the spec: field `mstatus->mpie` (declared in `csr.h`), bit 7. -/
def mstatus_mpie (w : Nat) : Nat := getf w 7 1
/-- Modelled from the spec: field `mstatus->mprv` (declared in `csr.h`), bit 17. -/
def mstatus_mprv (w : Nat) : Nat := getf w 17 1
/-- Modelled from the spec: field `mstatus->tvm` (declared in `csr.h`), bit 20. -/
def mstatus_tvm (w : Nat) : Nat := getf w 20 1
/-- Modelled from the spec: field `mstatus->tw` (declared in `csr.h`), bit 21. -/
def mstatus_tw (w : Nat) : Nat := getf w 21 1
/-- Modelled from the spec: field `mstatus->tsr` (declared in `csr.h`), bit 22. -/
def mstatus_tsr (w : Nat) : Nat := getf w 22 1
/-- Modelled from the spec: field `mstatus->mpv` (declared in `csr.h`), bit 39. -/
def mstatus_mpv (w : Nat) : Nat := getf w 39 1
/-- Modelled from the spec: field `mstatus->sd` (declared in `csr.h`), bit 63. -/
def mstatus_sd (w : Nat) : Nat := getf w 63 1
/-- Modelled from the spec: field `hstatus->spv` (declared in `csr.h`), bit 7. -/
def hstatus_spv (w : Nat) : Nat := getf w 7 1
/-- Modelled from the spec: field `hstatus->hu` (declared in `csr.h`), bit 9. -/
def hstatus_hu (w : Nat) : Nat := getf w 9 1
/-- Modelled from the spec: field `hstatus->vtvm` (declared in `csr.h`), bit 20. -/
def hstatus_vtvm (w : Nat) : Nat := getf w 20 1
/-- Modelled from the spec: field `hstatus->vtw` (declared in `csr.h`), bit 21. -/
def hstatus_vtw (w : Nat) : Nat := getf w 21 1
/-- Modelled from the spec: field `hstatus->vtsr` (declared in `csr.h`), bit 22. -/
def hstatus_vtsr (w : Nat) : Nat := getf w 22 1
/-- Modelled from the spec: field `hstatus->vsxl` (declared in `csr.h`), bits 33:32. -/
def hstatus_vsxl (w : Nat) : Nat := getf w 32 2

/-! ## Access gate -/

/-- The local `int count_bit = 1 << (addr - 0xC00)` of `csr_counter_enable_check`, converted
to a 64-bit word where it meets `mcounteren->val` (an `int` is sign-extended). -/
def count_bit (addr : Nat) : Nat := sext32 (1 <<< (addr - 0xC00))

/-- Function `csr_counter_enable_check`: returns normally when the counter is enabled for the
current mode, and leaves through `longjmp_exception` otherwise. -/
def csr_counter_enable_check (cfg : Config) (s : State) (addr : Nat) : Res Unit :=
  if s.mode < MODE_M ∧ (count_bit addr &&& s.csr_array mcounteren) = 0 then
    .trap .EX_II s
  else if cfg.RVH = true ∧ s.v ≠ 0 ∧ (count_bit addr &&& s.csr_array hcounteren) = 0 then
    .trap .EX_VI s
  else if s.mode < MODE_S ∧ (count_bit addr &&& s.csr_array scounteren) = 0 then
    if cfg.RVH = true ∧ s.v ≠ 0 then .trap .EX_VI s else .trap .EX_II s
  else .ok () s

/-- Function `csr_is_legal(addr, need_write)`. The assertion `addr < 4096` fails into
`Res.panic`. -/
def csr_is_legal (cfg : Config) (s : State) (addr : Nat) (need_write : Bool) : Res Bool :=
  if ¬ addr < 4096 then .panic s
  else if s.csr_exist addr = false then
    if cfg.PANIC_ON_UNIMP_CSR then .panic s else .ok false s
  else
    let lowest_access_priv_level := (addr &&& (0b11 <<< 8)) >>> 8
    let priv := if s.mode = MODE_S then MODE_HS else s.mode
    if cfg.RVH = true ∧ priv < lowest_access_priv_level then
      if s.v ≠ 0 ∧ lowest_access_priv_level ≤ MODE_HS then .trap .EX_VI s
      else .ok false s
    else if cfg.RVH = false ∧ ¬ s.mode ≥ lowest_access_priv_level then .ok false s
    else if need_write = true ∧ addr >>> 10 = 0x3 then .ok false s
    else if addr ≥ 0xC00 ∧ addr ≤ 0xC1F then
      (csr_counter_enable_check cfg s addr).bind fun _ s1 => .ok true s1
    else .ok true s

/-- Function `csr_decode`: the slot of `csr_array` for an address (the address itself). -/
def csr_decode (addr : Nat) : Nat := addr

/-! ## Write masks -/

/-- Macro `MSTATUS_WMASK_BASE`. -/
def MSTATUS_WMASK_BASE : Nat := 0x7e19aa ||| (1 <<< 63) ||| (3 <<< 36)
/-- Macro `MSTATUS_WMASK_FS`. -/
def MSTATUS_WMASK_FS (cfg : Config) : Nat :=
  if !cfg.FPU_NONE || cfg.RV_MSTATUS_FS_WRITABLE then 0x3 <<< 13 else 0
/-- Macro `MSTATUS_WMASK_RVH`. -/
def MSTATUS_WMASK_RVH (cfg : Config) : Nat := if cfg.RVH then 3 <<< 38 else 0
/-- Macro `MSTATUS_WMASK_RVV`. -/
def MSTATUS_WMASK_RVV (cfg : Config) : Nat := if cfg.RVV then 3 <<< 9 else 0
/-- Macro `MSTATUS_WMASK`. -/
def MSTATUS_WMASK (cfg : Config) : Nat :=
  MSTATUS_WMASK_BASE ||| MSTATUS_WMASK_FS cfg ||| MSTATUS_WMASK_RVH cfg ||| MSTATUS_WMASK_RVV cfg
/-- Macro `SSTATUS_WMASK`. -/
def SSTATUS_WMASK (cfg : Config) : Nat := MSTATUS_WMASK cfg &&& cfg.SSTATUS_RMASK
/-- Macro `HSTATUS_WMASK`. -/
def HSTATUS_WMASK (cfg : Config) : Nat :=
  if cfg.RVH then
    (1 <<< 22) ||| (1 <<< 21) ||| (1 <<< 20) ||| (1 <<< 18) ||| (0x3f <<< 12) ||| (1 <<< 9)
      ||| (1 <<< 8) ||| (1 <<< 7) ||| (1 <<< 6) ||| (1 <<< 5)
  else 0
/-- Macro `COUNTEREN_ZICNTR_MASK`. -/
def COUNTEREN_ZICNTR_MASK (cfg : Config) : Nat := if cfg.RV_Zicntr then 0x7 else 0
/-- Macro `COUNTEREN_ZIHPM_MASK`. -/
def COUNTEREN_ZIHPM_MASK (cfg : Config) : Nat := if cfg.RV_Zihpm then 0xfffffff8 else 0
/-- Macro `COUNTEREN_MASK`. -/
def COUNTEREN_MASK (cfg : Config) : Nat := COUNTEREN_ZICNTR_MASK cfg ||| COUNTEREN_ZIHPM_MASK cfg
/-- Macro `MCOUNTINHIBIT_CNTR_MASK`. -/
def MCOUNTINHIBIT_CNTR_MASK (cfg : Config) : Nat :=
  if cfg.RV_CSR_MCOUNTINHIBIT_CNTR then 0x5 else 0
/-- Macro `MCOUNTINHIBIT_HPM_MASK`. -/
def MCOUNTINHIBIT_HPM_MASK (cfg : Config) : Nat :=
  if cfg.RV_CSR_MCOUNTINHIBIT_HPM then 0xFFFFFFF8 else 0
/-- Macro `MCOUNTINHIBIT_MASK`. -/
def MCOUNTINHIBIT_MASK (cfg : Config) : Nat :=
  MCOUNTINHIBIT_CNTR_MASK cfg ||| MCOUNTINHIBIT_HPM_MASK cfg
/-- Macro `MIDELEG_FORCED_MASK`. -/
def MIDELEG_FORCED_MASK : Nat := (1 <<< 12) ||| (1 <<< 10) ||| (1 <<< 6) ||| (1 <<< 2)
/-- Macro `MEDELEG_MASK`. -/
def MEDELEG_MASK : Nat := 0xf0b7ff
/-- Macro `VS_MASK`. -/
def VS_MASK : Nat := (1 <<< 10) ||| (1 <<< 6) ||| (1 <<< 2)
/-- Macro `VSSIP`. -/
def VSSIP : Nat := 1 <<< 2
/-- Macro `HVIP_MASK`. -/
def HVIP_MASK : Nat := (1 <<< 10) ||| (1 <<< 6) ||| (1 <<< 2)
/-- Macro `HS_MASK`. -/
def HS_MASK : Nat := (1 <<< 12) ||| VS_MASK
/-- Macro `HIP_RMASK`. -/
def HIP_RMASK : Nat := HS_MASK
/-- Macro `HIP_WMASK`. -/
def HIP_WMASK : Nat := VSSIP
/-- Macro `HIE_RMASK`. -/
def HIE_RMASK : Nat := HS_MASK
/-- Macro `HIE_WMASK`. -/
def HIE_WMASK : Nat := HS_MASK
/-- Macro `MIE_MASK_BASE`. -/
def MIE_MASK_BASE : Nat := 0xaaa
/-- Macro `MIP_MASK_BASE`. -/
def MIP_MASK_BASE : Nat := (1 <<< 9) ||| (1 <<< 5) ||| (1 <<< 1)
/-- Macro `MIE_MASK_H`. -/
def MIE_MASK_H (cfg : Config) : Nat :=
  if cfg.RVH then (1 <<< 2) ||| (1 <<< 6) ||| (1 <<< 10) ||| (1 <<< 12) else 0
/-- Macro `MIP_MASK_H`. -/
def MIP_MASK_H (cfg : Config) : Nat := if cfg.RVH then VSSIP else 0
/-- Macro `SIE_MASK`: `(0x222 & mideleg->val)`. -/
def SIE_MASK (s : State) : Nat := 0x222 &&& s.csr_array mideleg
/-- Macro `SIP_MASK`: `(0x222 & mideleg->val)`. -/
def SIP_MASK (s : State) : Nat := 0x222 &&& s.csr_array mideleg
/-- Macro `SIP_WMASK_S`. -/
def SIP_WMASK_S : Nat := 0x2
/-- Macro `MTIE_MASK`. -/
def MTIE_MASK : Nat := 1 <<< 7
/-- Macro `FFLAGS_MASK`. -/
def FFLAGS_MASK : Nat := 0x1f
/-- Macro `FRM_MASK`. -/
def FRM_MASK : Nat := 0x07
/-- Macro `FCSR_MASK`. -/
def FCSR_MASK : Nat := 0xff
/-- Macro `SATP_SV39_MASK`. -/
def SATP_SV39_MASK : Nat := 0xf000000000000000

/-- Macro `is_pmpcfg`. -/
def is_pmpcfg (p : Nat) : Bool :=
  decide (p ≥ CSR_PMPCFG_BASE) && decide (p < CSR_PMPCFG_BASE + CSR_PMPCFG_MAX_NUM)
/-- Macro `is_pmpaddr`. -/
def is_pmpaddr (p : Nat) : Bool :=
  decide (p ≥ CSR_PMPADDR_BASE) && decide (p < CSR_PMPADDR_BASE + CSR_PMPADDR_MAX_NUM)
/-- Macro `is_hpmcounter`. -/
def is_hpmcounter (p : Nat) : Bool :=
  decide (p ≥ CSR_HPMCOUNTER_BASE) && decide (p < CSR_HPMCOUNTER_BASE + CSR_HPMCOUNTER_NUM)
/-- Macro `is_mhpmcounter`. -/
def is_mhpmcounter (p : Nat) : Bool :=
  decide (p ≥ CSR_MHPMCOUNTER_BASE) && decide (p < CSR_MHPMCOUNTER_BASE + CSR_MHPMCOUNTER_NUM)
/-- Macro `is_mhpmevent`. -/
def is_mhpmevent (p : Nat) : Bool :=
  decide (p ≥ CSR_MHPMEVENT_BASE) && decide (p < CSR_MHPMEVENT_BASE + CSR_MHPMEVENT_NUM)

/-! ## PMP helpers, status summary bits, counters -/

/-- Function `pmpcfg_from_index`: the 8-bit configuration of PMP entry `idx`, byte `idx % 8`
(bytes numbered from the least significant one, as on the little-endian hosts NEMU runs on)
of the even-numbered register `pmpcfg[idx / 8 * 2]`. -/
def pmpcfg_from_index (s : State) (idx : Nat) : Nat :=
  (s.csr_array (CSR_PMPCFG_BASE + idx / 8 * 2) >>> (8 * (idx % 8))) % 256

/-- Function `pmpaddr_from_index`. -/
def pmpaddr_from_index (s : State) (idx : Nat) : Nat := s.csr_array (CSR_PMPADDR_BASE + idx)

/-- Function `pmp_tor_mask`: `-((word_t)1 << (CONFIG_PMP_GRANULARITY - PMP_SHIFT))`. -/
def pmp_tor_mask (cfg : Config) : Nat := wsub 0 (wshl 1 (cfg.PMP_GRANULARITY - PMP_SHIFT))

/-- Effect of `update_mstatus_sd` on the word `mstatus->val`. -/
def update_mstatus_sd_val (cfg : Config) (w : Nat) : Nat :=
  let w1 :=
    if (cfg.DIFFTEST_REF_QEMU || !cfg.FS_CLEAN_STATE) && decide (mstatus_fs w ≠ 0) then
      setf w 13 2 3
    else w
  setf w1 63 1 (b2n (decide (mstatus_fs w1 = 3) || decide (mstatus_vs w1 = 3)))

/-- Function `update_mstatus_sd`. -/
def update_mstatus_sd (cfg : Config) (s : State) : State :=
  s.set mstatus (update_mstatus_sd_val cfg (s.csr_array mstatus))

/-- Function `update_vsstatus_sd`: the summary bit of `vsstatus` is bit 31 in the 32-bit
layout (`hstatus->vsxl == 1`) and bit 63 in the 64-bit layout; `fs` is bits 14:13 in both. -/
def update_vsstatus_sd (s : State) : State :=
  let w := s.csr_array vsstatus
  if hstatus_vsxl (s.csr_array hstatus) = 1 then
    s.set vsstatus (setf w 31 1 (b2n (decide (getf w 13 2 = 3))))
  else
    s.set vsstatus (setf w 63 1 (b2n (decide (getf w 13 2 = 3))))

/-- Function `get_mcycle`. -/
def get_mcycle (cfg : Config) (s : State) : Nat :=
  if cfg.RV_CSR_MCOUNTINHIBIT_CNTR = true ∧ (s.csr_array mcountinhibit &&& 0x1) ≠ 0 then
    s.csr_array mcycle
  else wadd (s.csr_array mcycle) s.abs_instr_count

/-- Function `get_minstret`. -/
def get_minstret (cfg : Config) (s : State) : Nat :=
  if cfg.RV_CSR_MCOUNTINHIBIT_CNTR = true ∧ (s.csr_array mcountinhibit &&& 0x4) ≠ 0 then
    s.csr_array minstret
  else wadd (s.csr_array minstret) s.abs_instr_count

/-- Function `set_mcycle`. -/
def set_mcycle (cfg : Config) (s : State) (src : Nat) : Nat :=
  if cfg.RV_CSR_MCOUNTINHIBIT_CNTR = true ∧ (s.csr_array mcountinhibit &&& 0x1) ≠ 0 then src
  else wsub src s.abs_instr_count

/-- Function `set_minstret`. -/
def set_minstret (cfg : Config) (s : State) (src : Nat) : Nat :=
  if cfg.RV_CSR_MCOUNTINHIBIT_CNTR = true ∧ (s.csr_array mcountinhibit &&& 0x4) ≠ 0 then src
  else wsub src s.abs_instr_count

/-- Function `update_counter_mcountinhibit(old, new)`. -/
def update_counter_mcountinhibit (cfg : Config) (s : State) (old new : Nat) : State :=
  if cfg.RV_CSR_MCOUNTINHIBIT_CNTR then
    let old_cy := decide ((old &&& 0x1) ≠ 0)
    let old_ir := decide ((old &&& 0x4) ≠ 0)
    let new_cy := decide ((new &&& 0x1) ≠ 0)
    let new_ir := decide ((new &&& 0x4) ≠ 0)
    let s1 := if old_cy && !new_cy then
        s.set mcycle (wsub (s.csr_array mcycle) s.abs_instr_count) else s
    let s2 := if !old_cy && new_cy then
        s1.set mcycle (wadd (s1.csr_array mcycle) s1.abs_instr_count) else s1
    let s3 := if old_ir && !new_ir then
        s2.set minstret (wsub (s2.csr_array minstret) s2.abs_instr_count) else s2
    let s4 := if !old_ir && new_ir then
        s3.set minstret (wadd (s3.csr_array minstret) s3.abs_instr_count) else s3
    s4
  else s

/-! ## CSR read -/

/-- The block of `csr_read` guarded by `cpu.v == 1` (with `CONFIG_RVH`): reads of the
supervisor registers are answered from the virtual-supervisor registers. `none` when no
branch of the block returns. -/
def csr_read_virt (cfg : Config) (s : State) (src : Nat) : Option (Res Nat) :=
  if src = sstatus then
    let s1 := update_vsstatus_sd s
    some (.ok (s1.csr_array vsstatus &&& cfg.SSTATUS_RMASK) s1)
  else if src = sie then some (.ok ((s.csr_array mie &&& VS_MASK) >>> 1) s)
  else if src = stvec then some (.ok (s.csr_array vstvec) s)
  else if src = sscratch then some (.ok (s.csr_array vsscratch) s)
  else if src = sepc then some (.ok (s.csr_array vsepc) s)
  else if src = scause then some (.ok (s.csr_array vscause) s)
  else if src = stval then some (.ok (s.csr_array vstval) s)
  else if src = sip then some (.ok ((s.csr_array mip &&& VS_MASK) >>> 1) s)
  else if src = satp then
    if s.mode = MODE_S ∧ hstatus_vtvm (s.csr_array hstatus) = 1 then some (.trap .EX_VI s)
    else some (.ok (s.csr_array vsatp) s)
  else none

/-- The reads of hypervisor and virtual-supervisor registers in `csr_read` (with
`CONFIG_RVH`, any `cpu.v`). `none` when no branch returns. -/
def csr_read_h (cfg : Config) (s : State) (src : Nat) : Option Nat :=
  let mideleg_eff := s.csr_array mideleg ||| MIDELEG_FORCED_MASK
  if src = mideleg then some mideleg_eff
  else if src = hideleg then some (s.csr_array hideleg &&& mideleg_eff)
  else if src = hgeip then some (s.csr_array hgeip &&& wnot 0x1)
  else if src = hgeie then some (s.csr_array hgeie &&& wnot 0x1)
  else if src = hip then some (s.csr_array mip &&& HIP_RMASK &&& mideleg_eff)
  else if src = hie then some (s.csr_array mie &&& HIE_RMASK &&& mideleg_eff)
  else if src = hvip then some (s.csr_array mip &&& HVIP_MASK)
  else if src = vsstatus then some (s.csr_array vsstatus &&& cfg.SSTATUS_RMASK)
  else if src = vsip then
    some ((s.csr_array mip &&& (s.csr_array hideleg &&& mideleg_eff) &&& VS_MASK) >>> 1)
  else if src = vsie then
    some ((s.csr_array mie &&& (s.csr_array hideleg &&& mideleg_eff) &&& VS_MASK) >>> 1)
  else none

/-- The read of a PMP address register in `csr_read` (with `CONFIG_RV_PMP_CSR`). -/
def csr_read_pmpaddr (cfg : Config) (s : State) (src : Nat) : Nat :=
  let idx := src - CSR_PMPADDR_BASE
  if idx ≥ cfg.RV_PMP_ACTIVE_NUM then 0
  else
    let cfgb := pmpcfg_from_index s idx
    if (cfgb &&& PMP_A) ≥ PMP_NAPOT then s.csr_array src ||| (wnot (pmp_tor_mask cfg) >>> 1)
    else s.csr_array src &&& pmp_tor_mask cfg

/-- The tail of `csr_read`, after the `if ... else if` chain of computed registers: the
`difftest_skip_ref` of `mip`, the `satp` trap, the trigger data registers, and the raw slot. -/
def csr_read_tail (cfg : Config) (s : State) (src : Nat) : Res Nat :=
  let s1 := if cfg.RVH = false ∧ src = mip then s.call .difftest_skip_ref else s
  if src = satp ∧ s1.mode = MODE_S ∧ mstatus_tvm (s1.csr_array mstatus) = 1 then
    .trap .EX_II s1
  else if cfg.RVSDTRIG = true ∧ src = tdata1 then
    let t := (s1.triggers (s1.csr_array tselect)).tdata1
    .ok (t ^^^ (getf t 20 1 <<< 20)) s1
  else if cfg.RVSDTRIG = true ∧ src = tdata2 then
    .ok (s1.triggers (s1.csr_array tselect)).tdata2 s1
  else if cfg.RVSDTRIG = true ∧ src = tdata3 then
    .ok (s1.triggers (s1.csr_array tselect)).tdata3 s1
  else .ok (s1.csr_array src) s1

/-- The part of `csr_read` common to all builds, from the `update_mstatus_sd` on. -/
def csr_read_common (cfg : Config) (s0 : State) (src : Nat) : Res Nat :=
  let s := if src = mstatus ∨ src = sstatus then update_mstatus_sd cfg s0 else s0
  if src = sstatus then .ok (s.csr_array mstatus &&& cfg.SSTATUS_RMASK) s
  else if src = sie then .ok (s.csr_array mie &&& SIE_MASK s) s
  else if src = mtvec then .ok (s.csr_array mtvec &&& wnot 0x2) s
  else if src = stvec then .ok (s.csr_array stvec &&& wnot 0x2) s
  else if src = sip then
    let s1 := if cfg.RVH then s else s.call .difftest_skip_ref
    .ok (s1.csr_array mip &&& SIP_MASK s1) s1
  else if cfg.RVV = true ∧ src = vcsr then
    .ok (wshl (s.csr_array vxrm &&& 0x3) 1 ||| (s.csr_array vxsat &&& 0x1)) s
  else if cfg.RVV = true ∧ src = vlenb then .ok (cfg.VLEN >>> 3) s
  else if cfg.FPU_NONE = false ∧ src = fcsr then .ok (s.csr_array fcsr &&& FCSR_MASK) s
  else if cfg.FPU_NONE = false ∧ src = fflags then
    .ok (getf (s.csr_array fcsr) 0 5 &&& FFLAGS_MASK) s
  else if cfg.FPU_NONE = false ∧ src = frm then
    .ok (getf (s.csr_array fcsr) 5 3 &&& FRM_MASK) s
  else if src = mcycle then
    let s1 := s.call .difftest_skip_ref
    .ok (get_mcycle cfg s1) s1
  else if src = minstret then
    let s1 := s.call .difftest_skip_ref
    .ok (get_minstret cfg s1) s1
  else if cfg.RV_Zicntr = true ∧ src = cycle then
    let s1 := s.call .difftest_skip_ref
    .ok (get_mcycle cfg s1) s1
  else if cfg.RV_Zicntr = true ∧ cfg.RV_CSR_TIME = true ∧ src = csr_time then
    let s1 := s.call .difftest_skip_ref
    .ok s1.clint_uptime s1
  else if cfg.RV_Zicntr = true ∧ src = instret then
    let s1 := s.call .difftest_skip_ref
    .ok (get_minstret cfg s1) s1
  else csr_read_tail cfg s src

/-- Function `csr_read(src)`, `src` being the address of the slot. -/
def csr_read (cfg : Config) (s : State) (src : Nat) : Res Nat :=
  if cfg.RV_PMP_CSR = true ∧ is_pmpaddr src = true then .ok (csr_read_pmpaddr cfg s src) s
  else
    match (if cfg.RVH = true ∧ s.v = 1 then csr_read_virt cfg s src else none) with
    | some r => r
    | none =>
      match (if cfg.RVH then csr_read_h cfg s src else none) with
      | some x => .ok x s
      | none => csr_read_common cfg s src

/-- Function `csrid_read`. -/
def csrid_read (cfg : Config) (s : State) (csrid : Nat) : Res Nat :=
  if ¬ csrid < 4096 then .panic s else csr_read cfg s (csr_decode csrid)

/-! ## CSR write -/

/-- The legalised configuration byte that the loop of the `pmpcfg` write computes for byte
`i` of `src`. -/
def pmpcfg_legal (cfg : Config) (src i : Nat) : Nat :=
  let c0 :=
    if cfg.PMPTABLE_EXTENSION then (src >>> (i * 8)) &&& 0xff
    else ((src >>> (i * 8)) &&& 0xff) &&& (PMP_R ||| PMP_W ||| PMP_X ||| PMP_A ||| PMP_L)
  let c1 := c0 &&& (wnot PMP_W ||| (if (c0 &&& PMP_R) ≠ 0 then PMP_W else 0))
  if cfg.PMP_GRANULARITY ≠ PMP_SHIFT ∧ (c1 &&& PMP_A) = PMP_NA4 then c1 ||| PMP_NAPOT else c1

/-- The loop `for (i = 0; i < xlen / 8; i++)` of the `pmpcfg` write, with `n` iterations left
from index `i` on; it stops at the first inactive entry. -/
def pmpcfg_loop (cfg : Config) (idx_base src : Nat) : Nat → Nat → Nat → Nat
  | 0, _, cfg_data => cfg_data
  | n + 1, i, cfg_data =>
    if idx_base + i ≥ cfg.RV_PMP_ACTIVE_NUM then cfg_data
    else pmpcfg_loop cfg idx_base src n (i + 1)
      (cfg_data ||| wshl (pmpcfg_legal cfg src i) (i * 8))

/-- The value stored by a write of `src` to the `pmpcfg` register at address `dest`. -/
def pmpcfg_write_val (cfg : Config) (dest src : Nat) : Nat :=
  pmpcfg_loop cfg ((dest - CSR_PMPCFG_BASE) * 4) src (64 / 8) 0 0

/-- Whether the write of `src` to `satp`, `vsatp` or `hgatp` selects a supported mode:
`(src & SATP_SV39_MASK) >> 60 == 8 || (src & SATP_SV39_MASK) >> 60 == 0`. -/
def satp_mode_ok (src : Nat) : Bool :=
  decide ((src &&& SATP_SV39_MASK) >>> 60 = 8) || decide ((src &&& SATP_SV39_MASK) >>> 60 = 0)

/-- First branch of `csr_write` with `CONFIG_RVH`: writes of supervisor registers while
`cpu.v == 1`, redirected to the virtual-supervisor registers. -/
def csr_write_virt (cfg : Config) (s : State) (dest src : Nat) : Res Unit :=
  if dest = sstatus then
    .ok () (update_vsstatus_sd
      (s.set vsstatus (mask_bitset (s.csr_array vsstatus) (SSTATUS_WMASK cfg) src)))
  else if dest = sie then
    .ok () (s.set mie (mask_bitset (s.csr_array mie) VS_MASK (wshl src 1)))
  else if dest = stvec then .ok () (s.set vstvec src)
  else if dest = sscratch then .ok () (s.set vsscratch src)
  else if dest = sepc then .ok () (s.set vsepc src)
  else if dest = scause then .ok () (s.set vscause src)
  else if dest = stval then .ok () (s.set vstval src)
  else if dest = sip then
    .ok () (s.set mip (mask_bitset (s.csr_array mip) VSSIP (wshl src 1)))
  else if dest = satp then
    if s.mode = MODE_S ∧ hstatus_vtvm (s.csr_array hstatus) = 1 then .trap .EX_VI s
    else if satp_mode_ok src then .ok () (s.set vsatp (cfg.MASKED_SATP src))
    else .ok () s
  else if dest = stvec then .ok () (s.set vstvec (src &&& wnot 0x2))
  else .ok () s

/-- The branches of `csr_write` that exist only with `CONFIG_RVH`, between the redirected
supervisor registers and `mstatus`. `none` when none of them is taken. -/
def csr_write_h (cfg : Config) (s : State) (dest src : Nat) : Option (Res Unit) :=
  let mideleg_eff := s.csr_array mideleg ||| MIDELEG_FORCED_MASK
  if dest = mideleg then some (.ok () (s.set dest ((src &&& 0x222) ||| MIDELEG_FORCED_MASK)))
  else if dest = hideleg then
    some (.ok () (s.set hideleg (mask_bitset (s.csr_array hideleg) VS_MASK src)))
  else if dest = hie then
    some (.ok () (s.set mie (mask_bitset (s.csr_array mie) (HIE_WMASK &&& mideleg_eff) src)))
  else if dest = hip then
    some (.ok () (s.set mip (mask_bitset (s.csr_array mip) (HIP_WMASK &&& mideleg_eff) src)))
  else if dest = hvip then
    some (.ok () (s.set mip (mask_bitset (s.csr_array mip) HVIP_MASK src)))
  else if dest = hstatus then
    some (.ok () (s.set hstatus (mask_bitset (s.csr_array hstatus) (HSTATUS_WMASK cfg) src)))
  else if dest = vsstatus then
    some (.ok () (s.set vsstatus (mask_bitset (s.csr_array vsstatus) (SSTATUS_WMASK cfg) src)))
  else if dest = vsie then
    some (.ok () (s.set mie (mask_bitset (s.csr_array mie)
      (VS_MASK &&& (s.csr_array hideleg &&& mideleg_eff)) (wshl src 1))))
  else if dest = vsip then
    some (.ok () (s.set mip (mask_bitset (s.csr_array mip)
      (VSSIP &&& (s.csr_array hideleg &&& mideleg_eff)) (wshl src 1))))
  else if dest = vstvec then some (.ok () (s.set vstvec src))
  else if dest = vsscratch then some (.ok () (s.set vsscratch src))
  else if dest = vsepc then some (.ok () (s.set vsepc src))
  else if dest = vscause then some (.ok () (s.set vscause src))
  else if dest = vstval then some (.ok () (s.set vstval src))
  else if dest = vsatp then
    if s.mode = MODE_S ∧ hstatus_vtvm (s.csr_array hstatus) = 1 then some (.trap .EX_VI s)
    else if satp_mode_ok src then some (.ok () (s.set vsatp (cfg.MASKED_SATP src)))
    else some (.ok () s)
  else none

/-- The `mstatus` branch of `csr_write`. Without `CONFIG_RVH` a write that would set
`mstatus.mpp` to `MODE_HS` keeps the previous `mpp`. -/
def csr_write_mstatus (cfg : Config) (s : State) (src : Nat) : State :=
  let w := mask_bitset (s.csr_array mstatus) (MSTATUS_WMASK cfg) src
  if cfg.RVH then s.set mstatus w
  else
    let prev_mpp := mstatus_mpp (s.csr_array mstatus)
    if mstatus_mpp w = MODE_HS then s.set mstatus (setf w 11 2 prev_mpp)
    else s.set mstatus w

/-- The `pmpaddr` branch of `csr_write` for an active index `idx`. -/
def csr_write_pmpaddr (cfg : Config) (s : State) (dest src idx : Nat) : State :=
  let cfgb := pmpcfg_from_index s idx
  let locked := decide ((cfgb &&& PMP_L) ≠ 0)
  let next_locked := decide (idx < cfg.RV_PMP_ACTIVE_NUM - 1) &&
    decide ((pmpcfg_from_index s (idx + 1) &&& PMP_L) ≠ 0)
  let next_tor := decide (idx < cfg.RV_PMP_ACTIVE_NUM - 1) &&
    decide ((pmpcfg_from_index s (idx + 1) &&& PMP_A) = PMP_TOR)
  let s1 :=
    if decide (idx < cfg.RV_PMP_ACTIVE_NUM) && !locked && !(next_locked && next_tor) then
      s.set dest (src &&& wsub (wshl 1 (cfg.PADDRBITS - PMP_SHIFT)) 1)
    else s
  s1.call (.mmu_tlb_flush 0)

/-- The `tdata1` branch of `csr_write` (with `CONFIG_RVSDTRIG`): the write goes to the
trigger selected by `tselect`, not to the slot. The type is bits 63:60, `data` bits 58:0.
`mcontrol_checked_write` and `tm_update_timings` are defined outside the sources: the first
is a parameter of the build configuration and rewrites `tdata1` of the selected trigger, the
second only touches the timing summary of the trigger module; both calls are recorded. -/
def csr_write_tdata1 (cfg : Config) (s : State) (src : Nat) : State :=
  let sel := s.csr_array tselect
  let ty := getf src 60 4
  if ty = TRIG_TYPE_NONE ∨ ty = TRIG_TYPE_DISABLE then
    let t := s.triggers sel
    let t1 := setf (setf t.tdata1 60 4 TRIG_TYPE_DISABLE) 0 59 0
    { s with triggers := fun i => if i = sel then { t with tdata1 := t1 } else s.triggers i }
  else if ty = TRIG_TYPE_MCONTROL then
    let t := s.triggers sel
    let t1 := cfg.mcontrol_checked_write s.triggers sel src
    let s1 : State :=
      { s with triggers := fun i => if i = sel then { t with tdata1 := t1 } else s.triggers i }
    (s1.call (.mcontrol_checked_write sel src)).call .tm_update_timings
  else s

/-- The `mcountinhibit` branch of `csr_write` (with `CONFIG_RV_CSR_MCOUNTINHIBIT`): the
counters are folded by `update_counter_mcountinhibit`, then the register takes the masked
value. -/
def csr_write_mcountinhibit (cfg : Config) (s : State) (src : Nat) : State :=
  let s1 := update_counter_mcountinhibit cfg s (s.csr_array mcountinhibit)
    (src &&& MCOUNTINHIBIT_MASK cfg)
  s1.set mcountinhibit (mask_bitset (s1.csr_array mcountinhibit) (MCOUNTINHIBIT_MASK cfg) src)

/-- The `if ... else if` chain of `csr_write` from `hcounteren` / `scounteren` on (the part
after the `mstatus` branch). The Boolean of a normal result is `false` when the branch
executes `return`, which skips the effects that follow the chain. -/
def csr_write_chain (cfg : Config) (s : State) (dest src : Nat) : Res Bool :=
  if cfg.RVH = true ∧ dest = hcounteren then
    .ok true (s.set hcounteren (mask_bitset (s.csr_array hcounteren) (COUNTEREN_MASK cfg) src))
  else if dest = scounteren then
    .ok true (s.set scounteren (mask_bitset (s.csr_array scounteren) (COUNTEREN_MASK cfg) src))
  else if dest = mcounteren then
    .ok true (s.set mcounteren (mask_bitset (s.csr_array mcounteren) (COUNTEREN_MASK cfg) src))
  else if cfg.RV_CSR_MCOUNTINHIBIT = true ∧ dest = mcountinhibit then
    .ok true (csr_write_mcountinhibit cfg s src)
  else if dest = mcycle then .ok true (s.set mcycle (set_mcycle cfg s src))
  else if dest = minstret then .ok true (s.set minstret (set_minstret cfg s src))
  else if dest = sstatus then
    .ok true (s.set mstatus (mask_bitset (s.csr_array mstatus) (SSTATUS_WMASK cfg) src))
  else if dest = sie then
    .ok true (s.set mie (mask_bitset (s.csr_array mie) (SIE_MASK s) src))
  else if dest = mie then
    .ok true (s.set mie (mask_bitset (s.csr_array mie) (MIE_MASK_BASE ||| MIE_MASK_H cfg) src))
  else if dest = mip then
    .ok true (s.set mip (mask_bitset (s.csr_array mip) (MIP_MASK_BASE ||| MIP_MASK_H cfg) src))
  else if dest = sip then
    .ok true (s.set mip (mask_bitset (s.csr_array mip)
      (if s.mode = MODE_S then SIP_WMASK_S else SIP_MASK s) src))
  else if dest = mtvec then
    .ok true (s.set dest (if cfg.XTVEC_VECTORED_MODE then src &&& wnot 0x2 else src &&& wnot 0x3))
  else if dest = stvec then
    .ok true (s.set dest (if cfg.XTVEC_VECTORED_MODE then src &&& wnot 0x2 else src &&& wnot 0x3))
  else if dest = medeleg then
    if cfg.RVH then
      .ok true (s.set medeleg (mask_bitset (s.csr_array medeleg) MEDELEG_MASK src))
    else .ok true (s.set dest (src &&& 0xb3ff))
  else if dest = mideleg then .ok true (s.set dest (src &&& 0x222))
  else if cfg.RVV = true ∧ dest = vcsr then
    .ok true (((s.set dest (src &&& 0b111)).set vxrm ((src >>> 1) &&& 0b11)).set vxsat
      (src &&& 0b1))
  else if cfg.RVV = true ∧ dest = vxrm then
    let s1 := s.set dest (src &&& 0b11)
    .ok true (s1.set vcsr (wshl (s1.csr_array vxrm) 1 ||| s1.csr_array vxsat))
  else if cfg.RVV = true ∧ dest = vxsat then
    let s1 := s.set dest (src &&& 0b1)
    .ok true (s1.set vcsr (wshl (s1.csr_array vxrm) 1 ||| s1.csr_array vxsat))
  else if cfg.MISA_UNCHANGEABLE = true ∧ dest = misa then .ok true s
  else if dest = mepc then .ok true (s.set dest (src &&& wnot 0x1))
  else if dest = sepc then .ok true (s.set dest (src &&& wnot 0x1))
  else if cfg.FPU_NONE = false ∧ dest = fflags then
    let s1 := s.set dest (src &&& FFLAGS_MASK)
    .ok true (s1.set fcsr (wshl (s1.csr_array frm) 5 ||| s1.csr_array fflags))
  else if cfg.FPU_NONE = false ∧ dest = frm then
    let s1 := s.set dest (src &&& FRM_MASK)
    .ok true (s1.set fcsr (wshl (s1.csr_array frm) 5 ||| s1.csr_array fflags))
  else if cfg.FPU_NONE = false ∧ dest = fcsr then
    .ok true (((s.set dest (src &&& FCSR_MASK)).set fflags (src &&& FFLAGS_MASK)).set frm
      ((src >>> 5) &&& FRM_MASK))
  else if cfg.RV_PMP_CSR = true ∧ is_pmpaddr dest = true then
    let idx := dest - CSR_PMPADDR_BASE
    if idx ≥ cfg.RV_PMP_ACTIVE_NUM then .ok false s
    else .ok true (csr_write_pmpaddr cfg s dest src idx)
  else if cfg.RV_PMP_CSR = true ∧ is_pmpcfg dest = true then
    .ok true ((s.set dest (pmpcfg_write_val cfg dest src)).call (.mmu_tlb_flush 0))
  else if dest = satp then
    if s.mode = MODE_S ∧ mstatus_tvm (s.csr_array mstatus) = 1 then .trap .EX_II s
    else if satp_mode_ok src then .ok true (s.set dest (cfg.MASKED_SATP src))
    else .ok true s
  else if cfg.RVSDTRIG = true ∧ dest = tselect then
    .ok true (s.set dest (if src < cfg.TRIGGER_NUM then src else cfg.TRIGGER_NUM))
  else if cfg.RVSDTRIG = true ∧ dest = tdata1 then .ok true (csr_write_tdata1 cfg s src)
  else if cfg.RVSDTRIG = true ∧ dest = tdata2 then
    let sel := s.csr_array tselect
    .ok true { s with triggers := fun i =>
      if i = sel then { s.triggers sel with tdata2 := src } else s.triggers i }
  else if cfg.RVH = true ∧ dest = hgatp then
    if satp_mode_ok src then .ok true (s.set hgatp (cfg.MASKED_HGATP src)) else .ok true s
  else if is_mhpmcounter dest = true ∨ is_mhpmevent dest = true then .ok false s
  else .ok true (s.set dest src)

/-- The whole `if ... else if` chain of `csr_write`. -/
def csr_write_dispatch (cfg : Config) (s : State) (dest src : Nat) : Res Bool :=
  if cfg.RVH = true ∧ s.v = 1 ∧ (dest = sstatus ∨ dest = sie ∨ dest = stvec ∨ dest = sscratch
      ∨ dest = sepc ∨ dest = scause ∨ dest = stval ∨ dest = sip ∨ dest = satp
      ∨ dest = stvec) then
    (csr_write_virt cfg s dest src).bind fun _ s1 => .ok true s1
  else
    match (if cfg.RVH then csr_write_h cfg s dest src else none) with
    | some r => r.bind fun _ s1 => .ok true s1
    | none =>
      if dest = mstatus then .ok true (csr_write_mstatus cfg s src)
      else csr_write_chain cfg s dest src

/-- The statements of `csr_write` that follow the chain: dirty flags, summary bits, MMU
refresh, TLB flush, pending system-state flags. -/
def csr_write_post (cfg : Config) (s : State) (dest : Nat) : State :=
  let fpw := !cfg.FPU_NONE && (decide (dest = fflags) || decide (dest = frm)
    || decide (dest = fcsr))
  let s1 := if fpw then
      (s.call .fp_set_dirty).call (.fp_update_rm_cache (getf (s.csr_array fcsr) 5 3))
    else s
  let vpw := cfg.RVV && (decide (dest = vcsr) || decide (dest = vstart)
    || decide (dest = vxsat) || decide (dest = vxrm))
  let s2 := if vpw then s1.call .vp_set_dirty else s1
  let need_update_mstatus_sd := fpw || vpw
  let s3 := if dest = sstatus ∨ dest = mstatus ∨ need_update_mstatus_sd = true then
      update_mstatus_sd cfg s2 else s2
  let s4 :=
    if cfg.RVH then
      let a := if dest = mstatus ∨ dest = satp ∨ dest = vsatp ∨ dest = hgatp then
          s3.call .update_mmu_state else s3
      let b := if dest = hstatus then set_sys_state_flag a .SYS_STATE_FLUSH_TCACHE else a
      if dest = vsstatus then update_vsstatus_sd b else b
    else
      if dest = mstatus ∨ dest = satp then s3.call .update_mmu_state else s3
  let s5 := if dest = satp then s4.call (.mmu_tlb_flush 0) else s4
  if dest = mstatus ∨ dest = sstatus ∨ dest = satp ∨ dest = mie ∨ dest = sie ∨ dest = mip
      ∨ dest = sip then
    set_sys_state_flag s5 .SYS_STATE_UPDATE
  else s5

/-- Function `csr_write(dest, src)`, `dest` being the address of the slot. -/
def csr_write (cfg : Config) (s : State) (dest src : Nat) : Res Unit :=
  (csr_write_dispatch cfg s dest src).bind fun cont s1 =>
    if cont then .ok () (csr_write_post cfg s1 dest) else .ok () s1

/-- Function `csrrw(dest, src, csrid)`: `dest` tells whether the old value is wanted
(`dest != NULL`), `src` is the value to write when there is one (`src != NULL`). The value
of a normal result is what is stored into `*dest`. -/
def csrrw (cfg : Config) (s : State) (dest : Bool) (src : Option Nat) (csrid : Nat) :
    Res (Option Nat) :=
  (csr_is_legal cfg s csrid src.isSome).bind fun legal s1 =>
    if legal = false then .trap .EX_II s1
    else
      let csr := csr_decode csrid
      let rd : Res (Option Nat) :=
        if dest then (csr_read cfg s1 csr).bind fun x s2 => .ok (some x) s2
        else .ok none s1
      rd.bind fun out s2 =>
        match src with
        | some tmp => (csr_write cfg s2 csr tmp).bind fun _ s3 => .ok out s3
        | none => .ok out s2

/-! ## Privileged instructions -/

/-- The part of `case 0x102` (sret) shared by all builds: the check against `mstatus.tsr`
and the current mode, then the return to the mode saved in `mstatus.spp`. -/
def priv_sret_common (cfg : Config) (s : State) : Res Nat :=
  let m := s.csr_array mstatus
  if (s.mode = MODE_S ∧ mstatus_tsr m ≠ 0) ∨ s.mode < MODE_S then .trap .EX_II s
  else
    let m1 := setf m 1 1 (mstatus_spie m)
    let m2 := setf m1 5 1 (if cfg.DIFFTEST_REF_QEMU then 0 else 1)
    let mode1 := mstatus_spp m2
    let m3 := if mstatus_spp m2 ≠ MODE_M then setf m2 17 1 0 else m2
    let m4 := setf m3 8 1 MODE_U
    let s1 := ({ s with mode := mode1 }).set mstatus m4
    let s2 := s1.call .update_mmu_state
    .ok (s2.csr_array sepc) s2

/-- The branch `cpu.v == 1` of `case 0x102` (sret, with `CONFIG_RVH`). The fields `spp`,
`sie`, `spie` sit at bits 8, 1 and 5 in both layouts of `vsstatus`. -/
def priv_sret_virt (s : State) : Res Nat :=
  if (s.mode = MODE_S ∧ hstatus_vtsr (s.csr_array hstatus) ≠ 0) ∨ s.mode < MODE_S then
    .trap .EX_VI s
  else
    let w := s.csr_array vsstatus
    let mode1 := getf w 8 1
    let w1 := setf w 8 1 MODE_U
    let w2 := setf w1 1 1 (getf w1 5 1)
    let w3 := setf w2 5 1 1
    let s1 := ({ s with mode := mode1 }).set vsstatus w3
    .ok (s1.csr_array vsepc) s1

/-- The `case 0x102` (sret) of `priv_instr`. With `CONFIG_RVH` and `cpu.v == 0` the body
first loads `cpu.v` from `hstatus.spv`, clears `hstatus.spv` and raises the flag
`SYS_STATE_FLUSH_TCACHE`, and only then reaches the shared part. -/
def priv_sret (cfg : Config) (s : State) : Res Nat :=
  if cfg.RVH then
    if s.v = 0 then
      let h := s.csr_array hstatus
      let s1 := ({ s with v := hstatus_spv h }).set hstatus (setf h 7 1 0)
      priv_sret_common cfg (set_sys_state_flag s1 .SYS_STATE_FLUSH_TCACHE)
    else if s.v = 1 then priv_sret_virt s
    else priv_sret_common cfg s
  else priv_sret_common cfg s

/-- The `case 0x302` (mret) of `priv_instr`. -/
def priv_mret (cfg : Config) (s : State) : Res Nat :=
  if s.mode < MODE_M then .trap .EX_II s
  else
    let m := s.csr_array mstatus
    let m1 := setf m 3 1 (mstatus_mpie m)
    let m2 := setf m1 7 1 (if cfg.DIFFTEST_REF_QEMU then 0 else 1)
    let mode1 := mstatus_mpp m2
    let sa := ({ s with mode := mode1 }).set mstatus m2
    let sb :=
      if cfg.RVH then
        let s1 := ({ sa with v := mstatus_mpv m2 }).set mstatus (setf m2 39 1 0)
        set_sys_state_flag s1 .SYS_STATE_FLUSH_TCACHE
      else sa
    let mb := sb.csr_array mstatus
    let m3 := if mstatus_mpp mb ≠ MODE_M then setf mb 17 1 0 else mb
    let m4 := setf m3 11 2 MODE_U
    let s2 := (sb.set mstatus m4).call .update_mmu_state
    .ok (s2.csr_array mepc) s2

/-- The `case 0x105` (wfi) of `priv_instr`. -/
def priv_wfi (cfg : Config) (s : State) : Res Nat :=
  let m := s.csr_array mstatus
  let h := s.csr_array hstatus
  if cfg.RVH = true ∧ ((s.v ≠ 0 ∧ s.mode = MODE_S ∧ hstatus_vtw h = 1 ∧ mstatus_tw m = 0)
      ∨ (s.v ≠ 0 ∧ s.mode = MODE_U ∧ mstatus_tw m = 0)) then .trap .EX_VI s
  else if (s.mode < MODE_M ∧ mstatus_tw m = 1) ∨ s.mode = MODE_U then .trap .EX_II s
  else .ok 0 s

/-- The field `srnctl->svinval`. -/
def srnctl_svinval (cfg : Config) (s : State) : Nat :=
  getf (s.csr_array srnctl) cfg.SRNCTL_SVINVAL_BIT 1

/-- The inner `switch (op >> 5)` of `priv_instr` (fences); `f7` is `op >> 5` and `src` the
operand `*src`. -/
def priv_fence (cfg : Config) (s : State) (f7 src : Nat) : Res Nat :=
  let m := s.csr_array mstatus
  let h := s.csr_array hstatus
  let flush : Res Nat := .ok 0 (s.call (.mmu_tlb_flush src))
  if f7 = 0x09 then
    if cfg.RVH then
      if s.v = 1 ∧ s.mode = MODE_S ∧ hstatus_vtvm h = 1 then .trap .EX_VI s
      else if s.v = 0 ∧ (s.mode = MODE_U ∨ (s.mode = MODE_S ∧ mstatus_tvm m = 1)) then
        .trap .EX_II s
      else flush
    else
      if (s.mode = MODE_S ∧ mstatus_tvm m = 1) ∨ s.mode = MODE_U then .trap .EX_II s
      else flush
  else if cfg.RV_SVINVAL = true ∧ f7 = 0x0b then
    if cfg.RVH then
      if srnctl_svinval cfg s = 0 then .trap .EX_II s
      else if s.v = 0 ∧ s.mode = MODE_U then .trap .EX_II s
      else if s.v = 0 ∧ s.mode = MODE_S ∧ mstatus_tvm m = 1 then .trap .EX_II s
      else if s.v = 1 ∧ s.mode = MODE_U then .trap .EX_VI s
      else if s.v = 1 ∧ s.mode = MODE_S ∧ hstatus_vtvm h = 1 then .trap .EX_VI s
      else flush
    else
      if srnctl_svinval cfg s = 0 then .trap .EX_II s
      else if s.mode = MODE_U then .trap .EX_II s
      else if s.mode = MODE_S ∧ mstatus_tvm m = 1 then .trap .EX_II s
      else flush
  else if cfg.RVH = true ∧ f7 = 0x11 then
    if s.v ≠ 0 then .trap .EX_VI s
    else if s.mode = MODE_U then .trap .EX_II s
    else if ¬ (s.mode = MODE_M ∨ (s.mode = MODE_S ∧ s.v = 0)) then .trap .EX_II s
    else flush
  else if cfg.RVH = true ∧ f7 = 0x31 then
    if s.v ≠ 0 then .trap .EX_VI s
    else if s.mode = MODE_U then .trap .EX_II s
    else if ¬ (s.mode = MODE_M ∨ (s.mode = MODE_S ∧ s.v = 0 ∧ mstatus_tvm m = 0)) then
      .trap .EX_II s
    else flush
  else if cfg.RVH = true ∧ cfg.RV_SVINVAL = true ∧ f7 = 0x13 then
    if s.v ≠ 0 then .trap .EX_VI s
    else if s.mode = MODE_U then .trap .EX_II s
    else flush
  else if cfg.RVH = true ∧ cfg.RV_SVINVAL = true ∧ f7 = 0x33 then
    if s.v ≠ 0 then .trap .EX_VI s
    else if s.mode = MODE_U ∨ (s.mode = MODE_S ∧ s.v = 0 ∧ mstatus_tvm m ≠ 0) then
      .trap .EX_II s
    else flush
  else if cfg.SHARE then .trap .EX_II s
  else .panic s

/-- Function `priv_instr(op, src)`: the value of a normal result is the returned word (the
next pc for sret and mret, 0 otherwise). `op` is a `uint32_t`, so `case -1` is `0xFFFFFFFF`. -/
def priv_instr (cfg : Config) (s : State) (op src : Nat) : Res Nat :=
  if cfg.MODE_USER = false ∧ op = 0x102 then priv_sret cfg s
  else if cfg.MODE_USER = false ∧ op = 0x302 then priv_mret cfg s
  else if cfg.MODE_USER = false ∧ cfg.RV_SVINVAL = true ∧ (op = 0x180 ∨ op = 0x181) then
    if srnctl_svinval cfg s = 0 then .trap .EX_II s else .ok 0 s
  else if cfg.MODE_USER = false ∧ op = 0x105 then priv_wfi cfg s
  else if op = 0xFFFFFFFF then .ok 0 (set_sys_state_flag s .SYS_STATE_FLUSH_TCACHE)
  else priv_fence cfg s (op >>> 5) src

/-! ## Result projections and sample machines -/

/-- State in which a function returned or left. -/
def Res.state {α : Type} : Res α → State
  | .ok _ s => s
  | .trap _ s => s
  | .panic s => s

/-- Trap raised, if the function left through `longjmp_exception`. -/
def Res.cause {α : Type} : Res α → Option Exc
  | .trap c _ => some c
  | _ => none

/-- Value returned, if the function returned normally. -/
def Res.value {α : Type} : Res α → Option α
  | .ok a _ => some a
  | _ => none

/-- A build without the hypervisor extension: FPU, Zicntr/Zihpm, mcountinhibit and PMP
present, no vectored trap mode, unimplemented CSRs trap. -/
def Config.plain : Config where
  RVH := false
  PANIC_ON_UNIMP_CSR := false
  FPU_NONE := false
  RV_MSTATUS_FS_WRITABLE := false
  RVV := false
  RV_Zicntr := true
  RV_Zihpm := true
  RV_CSR_TIME := false
  RV_CSR_MCOUNTINHIBIT := true
  RV_CSR_MCOUNTINHIBIT_CNTR := true
  RV_CSR_MCOUNTINHIBIT_HPM := true
  XTVEC_VECTORED_MODE := false
  MISA_UNCHANGEABLE := true
  RV_PMP_CSR := true
  PMPTABLE_EXTENSION := false
  RVSDTRIG := false
  RV_SVINVAL := false
  MODE_USER := false
  SHARE := true
  DIFFTEST_REF_QEMU := false
  FS_CLEAN_STATE := false
  RV_PMP_ACTIVE_NUM := 16
  PMP_GRANULARITY := 12
  PADDRBITS := 36
  TRIGGER_NUM := 4
  VLEN := 128
  SSTATUS_RMASK := 0x80000003000de762
  MASKED_SATP := fun x => x &&& 0x8ffff00000ffffff
  MASKED_HGATP := fun x => x &&& 0x8ffff00000ffffff
  SRNCTL_SVINVAL_BIT := 1
  mcontrol_checked_write := fun _ _ src => src

/-- The same build with the hypervisor extension. -/
def Config.hyp : Config := { Config.plain with RVH := true }

/-- The registers that the sample machine implements. -/
def State.sample_exist : List Nat :=
  [fflags, frm, fcsr, cycle, instret, sstatus, sie, stvec, scounteren, sscratch, sepc, scause,
   stval, sip, satp, mstatus, misa, medeleg, mideleg, mie, mtvec, mcounteren, mcountinhibit,
   mepc, mip, mcycle, minstret, CSR_PMPCFG_BASE, CSR_PMPCFG_BASE + 2, CSR_PMPADDR_BASE,
   CSR_PMPADDR_BASE + 1, hstatus, hcounteren, vsstatus, vsepc]

/-- A machine in machine mode with all registers zero, no pending flag and an empty call log. -/
def State.reset : State where
  csr_array := fun _ => 0
  csr_exist := fun a => State.sample_exist.contains a
  mode := MODE_M
  v := 0
  triggers := fun _ => { tdata1 := 0, tdata2 := 0, tdata3 := 0 }
  abs_instr_count := 0
  clint_uptime := 0
  sys_state_flag := fun _ => false
  calls := []

/-- A hypervisor-capable machine running in user mode, not virtualized, whose `hstatus.spv`
is set (`hstatus = 0x80`); everything else as after reset. -/
def State.user_spv : State :=
  { State.reset with
    mode := MODE_U
    csr_array := fun a => if a = hstatus then 0x80 else 0 }

/-- A machine whose PMP entry 0 is unlocked and off (`0x00`) and whose entry 1 is locked with
top-of-range addressing (`PMP_L | PMP_TOR = 0x88`): `pmpcfg0 = 0x8800`. -/
def State.pmp_locked_tor : State :=
  { State.reset with csr_array := fun a => if a = CSR_PMPCFG_BASE then 0x8800 else 0 }

/-- A machine whose stored `mcycle` and `minstret` are `2^64 - 1` while the external
instruction count stands at 1000; the inhibit bits are clear. -/
def State.counting : State :=
  { State.reset with
    csr_array := fun a => if a = mcycle ∨ a = minstret then 2 ^ 64 - 1 else 0
    abs_instr_count := 1000 }

/-- A machine in supervisor mode, not virtualized, with all counter-enable registers zero. -/
def State.supervisor : State := { State.reset with mode := MODE_S }

/-! ## Initialisation -/

/-- Function `init_csr`: marks the addresses of the table `CSRS` (a macro of `csr.h`, taken
as a parameter) as existing and, with `CONFIG_RVH`, clears `cpu.v`. -/
def init_csr (cfg : Config) (CSRS : List Nat) (s : State) : State :=
  { s with
    csr_exist := fun a => if CSRS.contains a then true else s.csr_exist a
    v := if cfg.RVH then 0 else s.v }

/-- Function `init_trigger` (with `CONFIG_RVSDTRIG`): `cpu.TM` is freshly allocated, so the
table starts from arbitrary contents `fresh`, and the type field (bits 63:60 of `tdata1`) of
each of the `CONFIG_TRIGGER_NUM` entries is set to `TRIG_TYPE_DISABLE`. -/
def init_trigger (cfg : Config) (fresh : Nat → Trigger) (s : State) : State :=
  { s with triggers := fun i =>
      if i < cfg.TRIGGER_NUM then
        { fresh i with tdata1 := setf (fresh i).tdata1 60 4 TRIG_TYPE_DISABLE }
      else fresh i }

/-- A hypervisor-capable machine running a guest in supervisor mode (`cpu.v = 1`) whose
`mstatus` has FS dirty (`0x6000`) while its SD bit is still clear. -/
def State.guest_fs_dirty : State :=
  { State.reset with
    mode := MODE_S
    v := 1
    csr_array := fun a => if a = mstatus then 0x6000 else 0 }

/-- A guest in supervisor mode (`cpu.v = 1`, `hstatus.vtsr` clear) with `mstatus.mprv` set
(`mstatus = 0x20000`), `vsstatus.spp` and `vsstatus.spie` set (`vsstatus = 0x120`) and
`vsepc = 0x1000`. -/
def State.guest_sret : State :=
  { State.reset with
    mode := MODE_S
    v := 1
    csr_array := fun a =>
      if a = mstatus then 0x20000 else if a = vsstatus then 0x120
      else if a = vsepc then 0x1000 else 0 }

/-- The sample build with the PMP-table extension switched by `ext` and with a PMP
granularity of 4 bytes (`PMP_SHIFT`) when `coarse` is false and of 4 KiB when it is true. -/
def Config.pmp_variant (ext coarse : Bool) : Config :=
  { Config.plain with
    PMPTABLE_EXTENSION := ext
    PMP_GRANULARITY := if coarse then 12 else PMP_SHIFT }

/-- A machine whose slot of `mhpmcounter3` (`0xB03`) physically holds 5. -/
def State.hpm_dirty : State :=
  { State.reset with csr_array := fun a => if a = CSR_MHPMCOUNTER_BASE then 5 else 0 }

/-- The plain configuration with the debug-trigger extension (`CONFIG_RVSDTRIG`) built in. -/
def Config.trig : Config := { Config.plain with RVSDTRIG := true }

/-- A machine with trigger 1 selected (`tselect = 1`) whose trigger table holds a
match-control entry (`tdata1 = 0x2000000000000044`) in every slot. -/
def State.trig_armed : State :=
  { State.reset with
    csr_array := fun a => if a = tselect then 1 else 0
    triggers := fun _ => { (State.reset.triggers 0) with tdata1 := 0x2000000000000044 } }

/-- A hypervisor-capable machine in HS mode (supervisor mode, `cpu.v = 0`) that implements
`vsatp` and has `hstatus.vtvm` set (`hstatus = 0x100000`); everything else as after reset. -/
def State.hs_vtvm : State :=
  { State.reset with
    mode := MODE_S
    csr_exist := fun a => State.sample_exist.contains a || decide (a = vsatp)
    csr_array := fun a => if a = hstatus then 0x100000 else 0 }

/-- The hypervisor build with the `Svinval` instructions (`CONFIG_RV_SVINVAL`). -/
def Config.hyp_svinval : Config := { Config.hyp with RV_SVINVAL := true }

/-- A guest in user mode (`cpu.v = 1`, `cpu.mode = MODE_U`) with `srnctl.svinval` set
(`srnctl = 2`); everything else as after reset. -/
def State.guest_user : State :=
  { State.reset with
    mode := MODE_U
    v := 1
    csr_array := fun a => if a = srnctl then 2 else 0 }

/-- A machine in supervisor mode, not virtualized, whose `mstatus` has the machine-only
fields MIE, MPIE, MPP = machine and MPRV set (`mstatus = 0x21888`). -/
def State.supervisor_mprv : State :=
  { State.reset with
    mode := MODE_S
    csr_array := fun a => if a = mstatus then 0x21888 else 0 }

/-- Function `vcsr_write(addr, src)` (with `CONFIG_RVV`): the raw store `*dest = *src` into
the slot given by `csr_decode`, with none of the effects of `csr_write`. -/
def vcsr_write (s : State) (addr src : Nat) : Res Unit :=
  if ¬ addr < 4096 then .panic s else .ok () (s.set (csr_decode addr) src)

/-- Function `vcsr_read(addr, dest)` (with `CONFIG_RVV`): the raw load `*dest = *src` from
the slot given by `csr_decode`; the value of a normal result is what is stored into `*dest`. -/
def vcsr_read (s : State) (addr : Nat) : Res Nat :=
  if ¬ addr < 4096 then .panic s else .ok (s.csr_array (csr_decode addr)) s

/-! ## Proofs -/

/-! ### C1: accesses to nonexistent registers -/

/-- C1. For every CSR address below 4096 that is not marked as existing, and every privilege
and virtualization state, `csrrw` (with or without a destination, with or without a written
value) leaves through the illegal-instruction trap in exactly the state it was called in, so
the register array, the mode and the virtualization flag are unchanged (build without
`CONFIG_PANIC_ON_UNIMP_CSR`). -/
theorem C1_nonexistent_csr_traps (cfg : Config) (s : State) (a : Nat) (dest : Bool)
    (src : Option Nat) (ha : a < 4096) (hex : s.csr_exist a = false)
    (hp : cfg.PANIC_ON_UNIMP_CSR = false) :
    csrrw cfg s dest src a = .trap .EX_II s := by
  simp [csrrw, csr_is_legal, ha, hex, hp, Res.bind]

/-- Witness of C1: the sample machine does not implement address `0x7c0`; a read-and-write
access to it traps and changes nothing. -/
theorem C1_nonexistent_csr_traps_witness :
    (0x7c0 < 4096 ∧ State.reset.csr_exist 0x7c0 = false
      ∧ Config.plain.PANIC_ON_UNIMP_CSR = false)
    ∧ csrrw Config.plain State.reset true (some 5) 0x7c0 = .trap .EX_II State.reset :=
  ⟨⟨by decide, by decide, rfl⟩,
   C1_nonexistent_csr_traps Config.plain State.reset 0x7c0 true (some 5) (by decide)
     (by decide) rfl⟩

/-! ### C2: sret from user mode -/

/-- In a build without the hypervisor extension, sret executed in user mode, or in supervisor
mode with `mstatus.tsr` set, leaves through the illegal-instruction trap in the state it was
called in. -/
theorem sret_illegal_without_rvh (cfg : Config) (s : State) (src : Nat)
    (hh : cfg.RVH = false) (hu : cfg.MODE_USER = false)
    (hm : s.mode < MODE_S ∨ (s.mode = MODE_S ∧ mstatus_tsr (s.csr_array mstatus) ≠ 0)) :
    priv_instr cfg s 0x102 src = .trap .EX_II s := by
  have hc : (s.mode = MODE_S ∧ mstatus_tsr (s.csr_array mstatus) ≠ 0) ∨ s.mode < MODE_S :=
    hm.symm
  simp only [priv_instr, priv_sret, priv_sret_common, hh, hu, hc, and_self, if_true]
  simp

/-- In a build with the hypervisor extension, sret executed while not virtualized in user
mode, or in supervisor mode with `mstatus.tsr` set, raises the illegal-instruction trap only
after `cpu.v` has been loaded from `hstatus.spv`, `hstatus.spv` has been cleared and the flag
`SYS_STATE_FLUSH_TCACHE` has been raised. -/
theorem sret_illegal_with_rvh (cfg : Config) (s : State) (src : Nat)
    (hh : cfg.RVH = true) (hu : cfg.MODE_USER = false) (hv : s.v = 0)
    (hm : s.mode < MODE_S ∨ (s.mode = MODE_S ∧ mstatus_tsr (s.csr_array mstatus) ≠ 0)) :
    priv_instr cfg s 0x102 src = .trap .EX_II
      (set_sys_state_flag
        (({ s with v := hstatus_spv (s.csr_array hstatus) }).set hstatus
          (setf (s.csr_array hstatus) 7 1 0)) .SYS_STATE_FLUSH_TCACHE) := by
  have hc : (s.mode = MODE_S ∧ mstatus_tsr (s.csr_array mstatus) ≠ 0) ∨ s.mode < MODE_S :=
    hm.symm
  have e1 : (set_sys_state_flag
        (({ s with v := hstatus_spv (s.csr_array hstatus) }).set hstatus
          (setf (s.csr_array hstatus) 7 1 0)) .SYS_STATE_FLUSH_TCACHE).mode = s.mode := rfl
  have e2 : (set_sys_state_flag
        (({ s with v := hstatus_spv (s.csr_array hstatus) }).set hstatus
          (setf (s.csr_array hstatus) 7 1 0)) .SYS_STATE_FLUSH_TCACHE).csr_array mstatus
        = s.csr_array mstatus := by
    simp [set_sys_state_flag, State.set, mstatus, hstatus]
  simp only [priv_instr, priv_sret, hh, hu, hv, and_self, if_true]
  simp only [priv_sret_common, e1, e2, hc, if_true]

/-- C2, evaluated on the code. In the hypervisor build, sret in user mode with `cpu.v = 0` and
`hstatus.spv = 1` raises the illegal-instruction trap, but the state at the trap differs from
the state before the instruction: `cpu.v` went from 0 to 1, `hstatus` from `0x80` to 0, and
the pending flag `SYS_STATE_FLUSH_TCACHE` from clear to set. -/
theorem C2_sret_user_rvh_mutates_state :
    State.user_spv.mode = MODE_U ∧ State.user_spv.v = 0
    ∧ (priv_instr Config.hyp State.user_spv 0x102 0).cause = some .EX_II
    ∧ (priv_instr Config.hyp State.user_spv 0x102 0).state.v = 1
    ∧ State.user_spv.csr_array hstatus = 0x80
    ∧ (priv_instr Config.hyp State.user_spv 0x102 0).state.csr_array hstatus = 0
    ∧ State.user_spv.sys_state_flag .SYS_STATE_FLUSH_TCACHE = false
    ∧ (priv_instr Config.hyp State.user_spv 0x102 0).state.sys_state_flag
        .SYS_STATE_FLUSH_TCACHE = true := by
  have h := sret_illegal_with_rvh Config.hyp State.user_spv 0 rfl rfl rfl
    (Or.inl (by decide))
  rw [h]
  refine ⟨rfl, rfl, rfl, ?_, rfl, ?_, rfl, ?_⟩
  · decide
  · decide
  · decide

/-! ### Bit-level facts about machine words -/

theorem testBit_wnot (x i : Nat) :
    (wnot x).testBit i = (decide (i < 64) && !x.testBit i) := by
  unfold wnot
  rw [Nat.testBit_two_pow_sub_succ (Nat.mod_lt _ (by decide)), Nat.testBit_mod_two_pow]
  by_cases h : i < 64 <;> simp [h]

theorem testBit_getf (w lo len i : Nat) :
    (getf w lo len).testBit i = (decide (i < len) && w.testBit (lo + i)) := by
  unfold getf
  rw [Nat.testBit_mod_two_pow, Nat.testBit_shiftRight]

theorem testBit_setf (w lo len x i : Nat) :
    (setf w lo len x).testBit i =
      if lo ≤ i ∧ i < lo + len then x.testBit (i - lo)
      else (decide (i < 64) && w.testBit i) := by
  unfold setf
  rw [Nat.testBit_or, Nat.testBit_and, testBit_wnot, Nat.testBit_shiftLeft,
    Nat.testBit_shiftLeft, Nat.testBit_mod_two_pow, Nat.testBit_two_pow_sub_one]
  by_cases h1 : lo ≤ i
  · by_cases h2 : i < lo + len
    · have h3 : i - lo < len := by omega
      simp [h1, h2, h3]
    · have h3 : ¬ i - lo < len := by omega
      simp [h1, h2, h3, Bool.and_comm]
  · simp [h1, Bool.and_comm]

theorem testBit_mask_bitset (old mask new i : Nat) :
    (mask_bitset old mask new).testBit i =
      ((old.testBit i && (decide (i < 64) && !mask.testBit i))
        || (new.testBit i && mask.testBit i)) := by
  unfold mask_bitset
  rw [Nat.testBit_or, Nat.testBit_and, Nat.testBit_and, testBit_wnot]

theorem wnot_lt (x : Nat) : wnot x < 2 ^ 64 := by
  unfold wnot
  omega

theorem setf_lt (w lo len x : Nat) (h : lo + len ≤ 64) : setf w lo len x < 2 ^ 64 := by
  apply Nat.lt_pow_two_of_testBit
  intro i hi
  rw [testBit_setf]
  have h1 : ¬ (lo ≤ i ∧ i < lo + len) := by omega
  have h2 : ¬ i < 64 := by omega
  simp [h1, h2]

theorem testBit_of_lt_word {w : Nat} (hw : w < 2 ^ 64) (i : Nat) :
    (decide (i < 64) && w.testBit i) = w.testBit i := by
  by_cases h : i < 64
  · simp [h]
  · have : w.testBit i = false :=
      Nat.testBit_lt_two_pow (Nat.lt_of_lt_of_le hw (Nat.pow_le_pow_right (by decide) (by omega)))
    simp [h, this]

theorem getf_setf_same (w lo len x : Nat) :
    getf (setf w lo len x) lo len = x % 2 ^ len := by
  apply Nat.eq_of_testBit_eq
  intro i
  rw [testBit_getf, testBit_setf, Nat.testBit_mod_two_pow]
  by_cases h : i < len
  · have h1 : lo ≤ lo + i ∧ lo + i < lo + len := by omega
    simp [h, h1]
  · simp [h]

theorem getf_setf_disjoint (w lo len x lo2 len2 : Nat)
    (hd : lo2 + len2 ≤ lo ∨ lo + len ≤ lo2) (hb : lo2 + len2 ≤ 64) :
    getf (setf w lo len x) lo2 len2 = getf w lo2 len2 := by
  apply Nat.eq_of_testBit_eq
  intro i
  rw [testBit_getf, testBit_getf, testBit_setf]
  by_cases h : i < len2
  · have h1 : ¬ (lo ≤ lo2 + i ∧ lo2 + i < lo + len) := by omega
    have h2 : lo2 + i < 64 := by omega
    simp [h, h1, h2]
  · simp [h]

theorem setf_setf_same (w lo len x y : Nat) :
    setf (setf w lo len x) lo len y = setf w lo len y := by
  apply Nat.eq_of_testBit_eq
  intro i
  rw [testBit_setf, testBit_setf, testBit_setf]
  by_cases h : lo ≤ i ∧ i < lo + len
  · simp [h]
  · simp [h]

theorem setf_getf_same (w lo len : Nat) (hw : w < 2 ^ 64) :
    setf w lo len (getf w lo len) = w := by
  apply Nat.eq_of_testBit_eq
  intro i
  rw [testBit_setf, testBit_getf]
  by_cases h : lo ≤ i ∧ i < lo + len
  · have h1 : i - lo < len := by omega
    have h2 : lo + (i - lo) = i := by omega
    simp [h, h1, h2]
  · simp only [h, if_false]
    exact testBit_of_lt_word hw i

/-! ### C3: writes to the PMP configuration registers -/

theorem csr_write_pmpcfg_eq (cfg : Config) (s : State) (dest src : Nat)
    (hp : cfg.RV_PMP_CSR = true) (hd : is_pmpcfg dest = true) :
    csr_write cfg s dest src =
      .ok () ((s.set dest (pmpcfg_write_val cfg dest src)).call (.mmu_tlb_flush 0)) := by
  have hr : 0x3a0 ≤ dest ∧ dest < 0x3b0 := by
    simpa [is_pmpcfg, CSR_PMPCFG_BASE, CSR_PMPCFG_MAX_NUM] using hd
  obtain ⟨h1, h2⟩ := hr
  have hne : ∀ a : Nat, (a < 0x3a0 ∨ 0x3b0 ≤ a) → (dest = a) = False := by
    intro a ha; simp; omega
  have hpa : is_pmpaddr dest = false := by
    simp [is_pmpaddr, CSR_PMPADDR_BASE, CSR_PMPADDR_MAX_NUM]; omega
  simp [csr_write, csr_write_dispatch, csr_write_h, csr_write_chain, csr_write_post, Res.bind,
    hp, hd, hpa, hne, sstatus, sie, stvec, sscratch, sepc, scause, stval, sip, satp, mideleg,
    hideleg, hie, hip, hvip, hstatus, vsstatus, vsie, vsip, vstvec, vsscratch, vsepc, vscause,
    vstval, vsatp, mstatus, hcounteren, scounteren, mcounteren, mcountinhibit, mcycle,
    minstret, mie, mip, mtvec, medeleg, vcsr, vxrm, vxsat, misa, mepc, fflags, frm, fcsr,
    tselect, tdata1, tdata2, hgatp, vstart]

theorem pmpcfg_legal_lt (cfg : Config) (src i : Nat) : pmpcfg_legal cfg src i < 2 ^ 8 := by
  have h0 : ∀ x : Nat, x &&& 0xff < 2 ^ 8 := fun x => Nat.and_lt_two_pow x (by decide)
  have hle : ∀ x y : Nat, x < 2 ^ 8 → x &&& y < 2 ^ 8 :=
    fun x y hx => Nat.lt_of_le_of_lt Nat.and_le_left hx
  have hor : ∀ x : Nat, x < 2 ^ 8 → x ||| PMP_NAPOT < 2 ^ 8 :=
    fun x hx => Nat.or_lt_two_pow hx (by decide)
  simp only [pmpcfg_legal]
  split_ifs <;>
    first
    | exact hor _ (hle _ _ (hle _ _ (h0 _)))
    | exact hor _ (hle _ _ (h0 _))
    | exact hle _ _ (hle _ _ (h0 _))
    | exact hle _ _ (h0 _)

theorem testBit_byte (x j t : Nat) :
    ((x >>> (8 * j)) % 256).testBit t = (decide (t < 8) && x.testBit (8 * j + t)) := by
  have : (256 : Nat) = 2 ^ 8 := by decide
  rw [this, Nat.testBit_mod_two_pow, Nat.testBit_shiftRight]

theorem testBit_small {b t : Nat} (hb : b < 2 ^ 8) (ht : ¬ t < 8) : b.testBit t = false :=
  Nat.testBit_lt_two_pow (Nat.lt_of_lt_of_le hb (Nat.pow_le_pow_right (by decide) (by omega)))

theorem byte_or_wshl_low (acc b i j : Nat) (hj : j < i) :
    ((acc ||| wshl b (i * 8)) >>> (8 * j)) % 256 = (acc >>> (8 * j)) % 256 := by
  apply Nat.eq_of_testBit_eq
  intro t
  rw [testBit_byte, testBit_byte, Nat.testBit_or]
  unfold wshl
  rw [Nat.testBit_mod_two_pow, Nat.testBit_shiftLeft]
  by_cases ht : t < 8
  · have : ¬ 8 * j + t ≥ i * 8 := by omega
    simp [ht, this]
  · simp [ht]

theorem byte_or_wshl_at (acc b i : Nat) (hacc : acc < 2 ^ (8 * i)) (hb : b < 2 ^ 8)
    (hi : i < 8) :
    ((acc ||| wshl b (i * 8)) >>> (8 * i)) % 256 = b := by
  apply Nat.eq_of_testBit_eq
  intro t
  rw [testBit_byte, Nat.testBit_or]
  unfold wshl
  rw [Nat.testBit_mod_two_pow, Nat.testBit_shiftLeft]
  by_cases ht : t < 8
  · have h1 : acc.testBit (8 * i + t) = false :=
      Nat.testBit_lt_two_pow
        (Nat.lt_of_lt_of_le hacc (Nat.pow_le_pow_right (by decide) (by omega)))
    have h2 : 8 * i + t < 64 := by omega
    have h3 : 8 * i + t ≥ i * 8 := by omega
    have h4 : 8 * i + t - i * 8 = t := by omega
    simp [ht, h1, h2, h3, h4]
  · simp [ht, testBit_small hb ht]

theorem or_wshl_lt (acc b i : Nat) (hacc : acc < 2 ^ (8 * i)) (hb : b < 2 ^ 8) :
    acc ||| wshl b (i * 8) < 2 ^ (8 * (i + 1)) := by
  apply Nat.or_lt_two_pow
  · exact Nat.lt_of_lt_of_le hacc (Nat.pow_le_pow_right (by decide) (by omega))
  · unfold wshl
    apply Nat.lt_of_le_of_lt (Nat.mod_le _ _)
    rw [Nat.shiftLeft_eq]
    have : 2 ^ (8 * (i + 1)) = 2 ^ 8 * 2 ^ (i * 8) := by
      rw [← Nat.pow_add]; congr 1; omega
    rw [this]
    exact Nat.mul_lt_mul_of_pos_right hb (Nat.two_pow_pos _)

theorem pmpcfg_loop_low (cfg : Config) (idx_base src : Nat) :
    ∀ (n i acc j : Nat), j < i →
      (pmpcfg_loop cfg idx_base src n i acc >>> (8 * j)) % 256 = (acc >>> (8 * j)) % 256 := by
  intro n
  induction n with
  | zero => intro i acc j _; rfl
  | succ n ih =>
    intro i acc j hj
    unfold pmpcfg_loop
    split
    · rfl
    · rw [ih (i + 1) _ j (by omega)]
      exact byte_or_wshl_low acc _ i j hj

theorem pmpcfg_loop_at (cfg : Config) (idx_base src : Nat) :
    ∀ (n i acc j : Nat), acc < 2 ^ (8 * i) → i + n ≤ 8 → i ≤ j → j < i + n →
      idx_base + j < cfg.RV_PMP_ACTIVE_NUM →
      (pmpcfg_loop cfg idx_base src n i acc >>> (8 * j)) % 256 = pmpcfg_legal cfg src j := by
  intro n
  induction n with
  | zero => intro i acc j _ _ h1 h2 _; omega
  | succ n ih =>
    intro i acc j hacc hin h1 h2 hact
    unfold pmpcfg_loop
    have hai : ¬ idx_base + i ≥ cfg.RV_PMP_ACTIVE_NUM := by omega
    simp only [hai, if_false]
    by_cases hji : j = i
    · subst hji
      rw [pmpcfg_loop_low cfg idx_base src n (j + 1) _ j (by omega)]
      exact byte_or_wshl_at acc _ j hacc (pmpcfg_legal_lt cfg src j) (by omega)
    · exact ih (i + 1) _ j (or_wshl_lt acc _ i hacc (pmpcfg_legal_lt cfg src i)) (by omega)
        (by omega) (by omega) hact
/-- Counterexample to C3 as stated. On a machine where PMP entry 0 is unlocked and entry 1 is
locked with top-of-range addressing, writing `0x8807` to `pmpcfg0` changes the configuration
byte of entry 0 from `0x00` to `0x07`; and writing 0 changes the byte of the locked entry 1
from `0x88` to `0x00`. -/
theorem C3_pmpcfg_write_ignores_locks :
    Config.plain.RV_PMP_CSR = true ∧ 1 < Config.plain.RV_PMP_ACTIVE_NUM
    ∧ pmpcfg_from_index State.pmp_locked_tor 0 &&& PMP_L = 0
    ∧ pmpcfg_from_index State.pmp_locked_tor 1 &&& PMP_L ≠ 0
    ∧ pmpcfg_from_index State.pmp_locked_tor 1 &&& PMP_A = PMP_TOR
    ∧ pmpcfg_from_index State.pmp_locked_tor 0 = 0x00
    ∧ pmpcfg_from_index
        (csr_write Config.plain State.pmp_locked_tor CSR_PMPCFG_BASE 0x8807).state 0 = 0x07
    ∧ pmpcfg_from_index State.pmp_locked_tor 1 = 0x88
    ∧ pmpcfg_from_index
        (csr_write Config.plain State.pmp_locked_tor CSR_PMPCFG_BASE 0).state 1 = 0x00 := by
  rw [csr_write_pmpcfg_eq _ _ _ _ rfl (by decide), csr_write_pmpcfg_eq _ _ _ _ rfl (by decide)]
  refine ⟨rfl, by decide, by decide, by decide, by decide, by decide, ?_, by decide, ?_⟩
  · decide
  · decide

/-- C3, amended. For every write of `src` to a PMP configuration register and every active
PMP entry `idx` whose configuration byte lives in that register and is unlocked, the write is
carried out, also when entry `idx + 1` is locked with top-of-range addressing: the byte of
entry `idx` becomes the legalised byte `idx % 8` of `src` (bits outside R, W, X, A, L dropped
without the PMP-table extension, W dropped when R is clear, NA4 turned into NAPOT when the
granularity is not `PMP_SHIFT`). -/
theorem C3_pmpcfg_write_unlocked_entry (cfg : Config) (s : State) (src idx : Nat)
    (hp : cfg.RV_PMP_CSR = true) (hact : idx < cfg.RV_PMP_ACTIVE_NUM) (h64 : idx < 64)
    (_hunl : pmpcfg_from_index s idx &&& PMP_L = 0) :
    csr_write cfg s (CSR_PMPCFG_BASE + idx / 8 * 2) src =
        .ok () ((s.set (CSR_PMPCFG_BASE + idx / 8 * 2)
          (pmpcfg_write_val cfg (CSR_PMPCFG_BASE + idx / 8 * 2) src)).call (.mmu_tlb_flush 0))
    ∧ pmpcfg_from_index
        ((s.set (CSR_PMPCFG_BASE + idx / 8 * 2)
          (pmpcfg_write_val cfg (CSR_PMPCFG_BASE + idx / 8 * 2) src)).call (.mmu_tlb_flush 0))
        idx = pmpcfg_legal cfg src (idx % 8) := by
  have hd : is_pmpcfg (CSR_PMPCFG_BASE + idx / 8 * 2) = true := by
    simp [is_pmpcfg, CSR_PMPCFG_BASE, CSR_PMPCFG_MAX_NUM]; omega
  refine ⟨csr_write_pmpcfg_eq cfg s _ src hp hd, ?_⟩
  have hb : (CSR_PMPCFG_BASE + idx / 8 * 2 - CSR_PMPCFG_BASE) * 4 + idx % 8 = idx := by
    simp only [CSR_PMPCFG_BASE]; omega
  simp only [pmpcfg_from_index, State.call, State.set, if_true, pmpcfg_write_val]
  exact pmpcfg_loop_at cfg _ src (64 / 8) 0 0 (idx % 8) (by decide) (by decide) (by omega)
    (by omega) (by rw [hb]; exact hact)

/-- Witness of the amended C3: on the machine with entry 0 unlocked and entry 1 locked
top-of-range, a write of `0x8807` to `pmpcfg0` stores the legalised byte for entry 0. -/
theorem C3_pmpcfg_write_unlocked_entry_witness :
    (Config.plain.RV_PMP_CSR = true ∧ 0 < Config.plain.RV_PMP_ACTIVE_NUM ∧ 0 < 64
      ∧ pmpcfg_from_index State.pmp_locked_tor 0 &&& PMP_L = 0)
    ∧ (csr_write Config.plain State.pmp_locked_tor (CSR_PMPCFG_BASE + 0 / 8 * 2) 0x8807 =
        .ok () ((State.pmp_locked_tor.set (CSR_PMPCFG_BASE + 0 / 8 * 2)
          (pmpcfg_write_val Config.plain (CSR_PMPCFG_BASE + 0 / 8 * 2) 0x8807)).call
            (.mmu_tlb_flush 0))
      ∧ pmpcfg_from_index
          ((State.pmp_locked_tor.set (CSR_PMPCFG_BASE + 0 / 8 * 2)
            (pmpcfg_write_val Config.plain (CSR_PMPCFG_BASE + 0 / 8 * 2) 0x8807)).call
              (.mmu_tlb_flush 0))
          0 = pmpcfg_legal Config.plain 0x8807 (0 % 8)) :=
  ⟨⟨rfl, by decide, by decide, by decide⟩,
   C3_pmpcfg_write_unlocked_entry Config.plain State.pmp_locked_tor 0x8807 0 rfl (by decide)
     (by decide) (by decide)⟩

/-! ### C4: writes to mstatus -/

theorem update_mstatus_sd_val_lt (cfg : Config) (w : Nat) :
    update_mstatus_sd_val cfg w < 2 ^ 64 := by
  unfold update_mstatus_sd_val
  exact setf_lt _ 63 1 _ (by decide)

theorem update_mstatus_sd_val_pin (cfg : Config) (w : Nat)
    (h : ((cfg.DIFFTEST_REF_QEMU || !cfg.FS_CLEAN_STATE) && decide (mstatus_fs w ≠ 0)) = true) :
    update_mstatus_sd_val cfg w =
      setf (setf w 13 2 3) 63 1
        (b2n (decide (mstatus_fs (setf w 13 2 3) = 3)
          || decide (mstatus_vs (setf w 13 2 3) = 3))) := by
  simp only [update_mstatus_sd_val, h, if_true]

theorem update_mstatus_sd_val_nopin (cfg : Config) (w : Nat)
    (h : ¬ ((cfg.DIFFTEST_REF_QEMU || !cfg.FS_CLEAN_STATE)
      && decide (mstatus_fs w ≠ 0)) = true) :
    update_mstatus_sd_val cfg w =
      setf w 63 1 (b2n (decide (mstatus_fs w = 3) || decide (mstatus_vs w = 3))) := by
  simp only [update_mstatus_sd_val, h, if_false, Bool.false_eq_true]

theorem update_mstatus_sd_val_idem (cfg : Config) (w : Nat) :
    update_mstatus_sd_val cfg (update_mstatus_sd_val cfg w) = update_mstatus_sd_val cfg w := by
  have hfs : ∀ x b : Nat, mstatus_fs (setf x 63 1 b) = mstatus_fs x := fun x b =>
    getf_setf_disjoint x 63 1 b 13 2 (Or.inl (by decide)) (by decide)
  have hvs : ∀ x b : Nat, mstatus_vs (setf x 63 1 b) = mstatus_vs x := fun x b =>
    getf_setf_disjoint x 63 1 b 9 2 (Or.inl (by decide)) (by decide)
  have hfs3 : ∀ x : Nat, mstatus_fs (setf x 13 2 3) = 3 := fun x => by
    unfold mstatus_fs; rw [getf_setf_same]; rfl
  by_cases hpin : ((cfg.DIFFTEST_REF_QEMU || !cfg.FS_CLEAN_STATE)
      && decide (mstatus_fs w ≠ 0)) = true
  · rw [update_mstatus_sd_val_pin cfg w hpin]
    generalize hb : b2n (decide (mstatus_fs (setf w 13 2 3) = 3)
          || decide (mstatus_vs (setf w 13 2 3) = 3)) = b
    have hq : (cfg.DIFFTEST_REF_QEMU || !cfg.FS_CLEAN_STATE) = true := by
      simp only [Bool.and_eq_true] at hpin
      exact hpin.1
    have hfu : mstatus_fs (setf (setf w 13 2 3) 63 1 b) = 3 := by rw [hfs, hfs3]
    have hpin2 : ((cfg.DIFFTEST_REF_QEMU || !cfg.FS_CLEAN_STATE)
        && decide (mstatus_fs (setf (setf w 13 2 3) 63 1 b) ≠ 0)) = true := by
      rw [hfu, hq]; rfl
    have e2 : setf (setf (setf w 13 2 3) 63 1 b) 13 2 3 = setf (setf w 13 2 3) 63 1 b := by
      have := setf_getf_same (setf (setf w 13 2 3) 63 1 b) 13 2 (setf_lt _ 63 1 _ (by decide))
      unfold mstatus_fs at hfu
      rw [hfu] at this
      exact this
    rw [update_mstatus_sd_val_pin cfg _ hpin2, e2, hfs, hvs, hb, setf_setf_same]
  · rw [update_mstatus_sd_val_nopin cfg w hpin]
    generalize hb : b2n (decide (mstatus_fs w = 3) || decide (mstatus_vs w = 3)) = b
    have hpin2 : ¬ ((cfg.DIFFTEST_REF_QEMU || !cfg.FS_CLEAN_STATE)
        && decide (mstatus_fs (setf w 63 1 b) ≠ 0)) = true := by
      rw [hfs]; exact hpin
    rw [update_mstatus_sd_val_nopin cfg _ hpin2, hfs, hvs, hb, setf_setf_same]

theorem csr_write_mstatus_eq (cfg : Config) (s : State) (v : Nat) :
    csr_write cfg s mstatus v =
      .ok () (set_sys_state_flag
        ((update_mstatus_sd cfg (csr_write_mstatus cfg s v)).call .update_mmu_state)
        .SYS_STATE_UPDATE) := by
  cases hh : cfg.RVH <;>
  simp [csr_write, csr_write_dispatch, csr_write_h, csr_write_post, Res.bind, hh,
    sstatus, sie, stvec, sscratch, sepc, scause, stval, sip, satp, mideleg,
    hideleg, hie, hip, hvip, hstatus, vsstatus, vsie, vsip, vstvec, vsscratch, vsepc, vscause,
    vstval, vsatp, mstatus, mie, mip, vcsr, vxrm, vxsat, fflags, frm, fcsr, hgatp, vstart]

theorem csr_read_mstatus_eq (cfg : Config) (s : State) :
    csr_read cfg s mstatus =
      .ok (update_mstatus_sd_val cfg (s.csr_array mstatus)) (update_mstatus_sd cfg s) := by
  cases hh : cfg.RVH <;>
  simp [csr_read, csr_read_virt, csr_read_h, csr_read_common, csr_read_tail, is_pmpaddr,
    update_mstatus_sd, State.set, hh, CSR_PMPADDR_BASE, CSR_PMPADDR_MAX_NUM,
    sstatus, sie, stvec, sscratch, sepc, scause, stval, sip, satp, mideleg,
    hideleg, hie, hip, hvip, hstatus, vsstatus, vsie, vsip, hgeip, hgeie, mstatus, mie, mip,
    mtvec, vcsr, vlenb, fflags, frm, fcsr, mcycle, minstret, cycle, csr_time, instret,
    tdata1, tdata2, tdata3]

theorem State.set_same (s : State) (a x : Nat) (h : s.csr_array a = x) : s.set a x = s := by
  cases s
  simp only [State.set] at *
  congr
  funext b
  by_cases hb : b = a
  · simp [hb, h]
  · simp [hb]

/-- Counterexample to C4 as stated. In the sample build, writing `2^63` to an all-zero
`mstatus` stores 0, whereas `(o & ~MSTATUS_WMASK) | (v & MSTATUS_WMASK)` is `2^63`: the SD bit
is writable by the mask but recomputed from FS and VS after the masked store. -/
theorem C4_mstatus_sd_recomputed :
    State.reset.mode = MODE_M ∧ State.reset.csr_array mstatus = 0
    ∧ mask_bitset 0 (MSTATUS_WMASK Config.plain) (2 ^ 63) = 2 ^ 63
    ∧ (csr_write Config.plain State.reset mstatus (2 ^ 63)).state.csr_array mstatus = 0 := by
  rw [csr_write_mstatus_eq]
  refine ⟨rfl, rfl, by decide, ?_⟩
  decide

/-- C4, amended. For every write of `v` to `mstatus` whose stored value was `o`, the stored
value after `csr_write` is `(o & ~MSTATUS_WMASK) | (v & MSTATUS_WMASK)` with, in a build
without the hypervisor extension, MPP reset to its previous value when it would become
`MODE_HS`, and then passed through `update_mstatus_sd` (FS raised to 3 when nonzero unless
the build keeps clean FS states, SD recomputed as FS = 3 or VS = 3); an immediately
following read of `mstatus` returns exactly the stored value and leaves the state as it is. -/
theorem C4_mstatus_write_then_read (cfg : Config) (s : State) (v : Nat) :
    ∃ s1 : State, csr_write cfg s mstatus v = .ok () s1
      ∧ s1.csr_array mstatus =
          update_mstatus_sd_val cfg
            (if cfg.RVH = false
                ∧ mstatus_mpp (mask_bitset (s.csr_array mstatus) (MSTATUS_WMASK cfg) v) = MODE_HS
             then setf (mask_bitset (s.csr_array mstatus) (MSTATUS_WMASK cfg) v) 11 2
                    (mstatus_mpp (s.csr_array mstatus))
             else mask_bitset (s.csr_array mstatus) (MSTATUS_WMASK cfg) v)
      ∧ csr_read cfg s1 mstatus = .ok (s1.csr_array mstatus) s1 := by
  refine ⟨_, csr_write_mstatus_eq cfg s v, ?_, ?_⟩
  · cases hh : cfg.RVH
    · by_cases hm : mstatus_mpp (mask_bitset (s.csr_array mstatus) (MSTATUS_WMASK cfg) v)
          = MODE_HS
      · simp [set_sys_state_flag, State.call, update_mstatus_sd, State.set, csr_write_mstatus,
          hh, hm]
      · simp [set_sys_state_flag, State.call, update_mstatus_sd, State.set, csr_write_mstatus,
          hh, hm]
    · simp [set_sys_state_flag, State.call, update_mstatus_sd, State.set, csr_write_mstatus,
        hh]
  · rw [csr_read_mstatus_eq]
    have hval : (set_sys_state_flag
        ((update_mstatus_sd cfg (csr_write_mstatus cfg s v)).call .update_mmu_state)
        .SYS_STATE_UPDATE).csr_array mstatus
        = update_mstatus_sd_val cfg ((csr_write_mstatus cfg s v).csr_array mstatus) := by
      simp [set_sys_state_flag, State.call, update_mstatus_sd, State.set]
    have hidem : update_mstatus_sd_val cfg ((set_sys_state_flag
        ((update_mstatus_sd cfg (csr_write_mstatus cfg s v)).call .update_mmu_state)
        .SYS_STATE_UPDATE).csr_array mstatus) = (set_sys_state_flag
        ((update_mstatus_sd cfg (csr_write_mstatus cfg s v)).call .update_mmu_state)
        .SYS_STATE_UPDATE).csr_array mstatus := by
      rw [hval, update_mstatus_sd_val_idem]
    rw [hidem]
    congr 1
    unfold update_mstatus_sd
    exact State.set_same _ _ _ hidem.symm

/-! ### C5: masked writes to mie, mip, mcounteren, scounteren -/

theorem csr_write_mie_eq (cfg : Config) (s : State) (v : Nat) :
    csr_write cfg s mie v =
      .ok () (set_sys_state_flag
        (s.set mie (mask_bitset (s.csr_array mie) (MIE_MASK_BASE ||| MIE_MASK_H cfg) v))
        .SYS_STATE_UPDATE) := by
  cases hh : cfg.RVH <;>
  simp [csr_write, csr_write_dispatch, csr_write_h, csr_write_chain, csr_write_post, Res.bind,
    hh, sstatus, sie, stvec, sscratch, sepc, scause, stval, sip, satp, mideleg,
    hideleg, hie, hip, hvip, hstatus, vsstatus, vsie, vsip, vstvec, vsscratch, vsepc, vscause,
    vstval, vsatp, mstatus, hcounteren, scounteren, mcounteren, mcountinhibit, mcycle,
    minstret, mie, mip, vcsr, vxrm, vxsat, fflags, frm, fcsr, hgatp, vstart]

theorem csr_write_mip_eq (cfg : Config) (s : State) (v : Nat) :
    csr_write cfg s mip v =
      .ok () (set_sys_state_flag
        (s.set mip (mask_bitset (s.csr_array mip) (MIP_MASK_BASE ||| MIP_MASK_H cfg) v))
        .SYS_STATE_UPDATE) := by
  cases hh : cfg.RVH <;>
  simp [csr_write, csr_write_dispatch, csr_write_h, csr_write_chain, csr_write_post, Res.bind,
    hh, sstatus, sie, stvec, sscratch, sepc, scause, stval, sip, satp, mideleg,
    hideleg, hie, hip, hvip, hstatus, vsstatus, vsie, vsip, vstvec, vsscratch, vsepc, vscause,
    vstval, vsatp, mstatus, hcounteren, scounteren, mcounteren, mcountinhibit, mcycle,
    minstret, mie, mip, vcsr, vxrm, vxsat, fflags, frm, fcsr, hgatp, vstart]

theorem csr_write_mcounteren_eq (cfg : Config) (s : State) (v : Nat) :
    csr_write cfg s mcounteren v =
      .ok () (s.set mcounteren (mask_bitset (s.csr_array mcounteren) (COUNTEREN_MASK cfg) v)) := by
  cases hh : cfg.RVH <;>
  simp [csr_write, csr_write_dispatch, csr_write_h, csr_write_chain, csr_write_post, Res.bind,
    hh, sstatus, sie, stvec, sscratch, sepc, scause, stval, sip, satp, mideleg,
    hideleg, hie, hip, hvip, hstatus, vsstatus, vsie, vsip, vstvec, vsscratch, vsepc, vscause,
    vstval, vsatp, mstatus, hcounteren, scounteren, mcounteren, mcountinhibit, mcycle,
    minstret, mie, mip, vcsr, vxrm, vxsat, fflags, frm, fcsr, hgatp, vstart]

theorem csr_write_scounteren_eq (cfg : Config) (s : State) (v : Nat) :
    csr_write cfg s scounteren v =
      .ok () (s.set scounteren (mask_bitset (s.csr_array scounteren) (COUNTEREN_MASK cfg) v)) := by
  cases hh : cfg.RVH <;>
  simp [csr_write, csr_write_dispatch, csr_write_h, csr_write_chain, csr_write_post, Res.bind,
    hh, sstatus, sie, stvec, sscratch, sepc, scause, stval, sip, satp, mideleg,
    hideleg, hie, hip, hvip, hstatus, vsstatus, vsie, vsip, vstvec, vsscratch, vsepc, vscause,
    vstval, vsatp, mstatus, hcounteren, scounteren, mcounteren, mcountinhibit, mcycle,
    minstret, mie, mip, vcsr, vxrm, vxsat, fflags, frm, fcsr, hgatp, vstart]

/-- A read of a register that `csr_read` does not compute returns the raw slot; the only
possible effect is the `difftest_skip_ref` call of `mip` in a build without `CONFIG_RVH`. -/
theorem csr_read_raw (cfg : Config) (s : State) (r : Nat)
    (hr : r = mie ∨ r = mip ∨ r = mcounteren ∨ r = scounteren) :
    ∃ s2 : State, csr_read cfg s r = .ok (s.csr_array r) s2
      ∧ s2.csr_array = s.csr_array := by
  rcases hr with h | h | h | h <;> subst h <;> cases hh : cfg.RVH <;>
  simp [csr_read, csr_read_virt, csr_read_h, csr_read_common, csr_read_tail, is_pmpaddr,
    State.call, hh, CSR_PMPADDR_BASE, CSR_PMPADDR_MAX_NUM,
    sstatus, sie, stvec, sscratch, sepc, scause, stval, sip, satp, mideleg,
    hideleg, hie, hip, hvip, hstatus, vsstatus, vsie, vsip, hgeip, hgeie, mstatus, mie, mip,
    mtvec, vcsr, vlenb, fflags, frm, fcsr, mcycle, minstret, cycle, csr_time, instret,
    tdata1, tdata2, tdata3, mcounteren, scounteren]

/-- C5. For every write of `v` to `mie`, `mip`, `mcounteren` or `scounteren` (in every state,
virtualized or not) the stored value afterwards is `(o & ~M) | (v & M)` with `o` the value
stored before and `M` the write mask of the register (`MIE_MASK_BASE | MIE_MASK_H`,
`MIP_MASK_BASE | MIP_MASK_H`, `COUNTEREN_MASK`, `COUNTEREN_MASK`); no other slot of
`csr_array` changes; and an immediately following read of the register returns the stored
value. -/
theorem C5_masked_write_then_read (cfg : Config) (s : State) (v : Nat) :
    (∃ s1 : State, csr_write cfg s mie v = .ok () s1
      ∧ s1.csr_array mie = mask_bitset (s.csr_array mie) (MIE_MASK_BASE ||| MIE_MASK_H cfg) v
      ∧ (∀ a : Nat, a ≠ mie → s1.csr_array a = s.csr_array a)
      ∧ ∃ s2 : State, csr_read cfg s1 mie = .ok (s1.csr_array mie) s2)
    ∧ (∃ s1 : State, csr_write cfg s mip v = .ok () s1
      ∧ s1.csr_array mip = mask_bitset (s.csr_array mip) (MIP_MASK_BASE ||| MIP_MASK_H cfg) v
      ∧ (∀ a : Nat, a ≠ mip → s1.csr_array a = s.csr_array a)
      ∧ ∃ s2 : State, csr_read cfg s1 mip = .ok (s1.csr_array mip) s2)
    ∧ (∃ s1 : State, csr_write cfg s mcounteren v = .ok () s1
      ∧ s1.csr_array mcounteren = mask_bitset (s.csr_array mcounteren) (COUNTEREN_MASK cfg) v
      ∧ (∀ a : Nat, a ≠ mcounteren → s1.csr_array a = s.csr_array a)
      ∧ ∃ s2 : State, csr_read cfg s1 mcounteren = .ok (s1.csr_array mcounteren) s2)
    ∧ (∃ s1 : State, csr_write cfg s scounteren v = .ok () s1
      ∧ s1.csr_array scounteren = mask_bitset (s.csr_array scounteren) (COUNTEREN_MASK cfg) v
      ∧ (∀ a : Nat, a ≠ scounteren → s1.csr_array a = s.csr_array a)
      ∧ ∃ s2 : State, csr_read cfg s1 scounteren = .ok (s1.csr_array scounteren) s2) := by
  refine ⟨⟨_, csr_write_mie_eq cfg s v, ?_, ?_, ?_⟩, ⟨_, csr_write_mip_eq cfg s v, ?_, ?_, ?_⟩,
    ⟨_, csr_write_mcounteren_eq cfg s v, ?_, ?_, ?_⟩,
    ⟨_, csr_write_scounteren_eq cfg s v, ?_, ?_, ?_⟩⟩
  · simp [set_sys_state_flag, State.set]
  · intro a ha; simp [set_sys_state_flag, State.set, ha]
  · obtain ⟨s2, h, _⟩ := csr_read_raw cfg (set_sys_state_flag
        (s.set mie (mask_bitset (s.csr_array mie) (MIE_MASK_BASE ||| MIE_MASK_H cfg) v))
        .SYS_STATE_UPDATE) mie (Or.inl rfl)
    exact ⟨s2, h⟩
  · simp [set_sys_state_flag, State.set]
  · intro a ha; simp [set_sys_state_flag, State.set, ha]
  · obtain ⟨s2, h, _⟩ := csr_read_raw cfg (set_sys_state_flag
        (s.set mip (mask_bitset (s.csr_array mip) (MIP_MASK_BASE ||| MIP_MASK_H cfg) v))
        .SYS_STATE_UPDATE) mip (Or.inr (Or.inl rfl))
    exact ⟨s2, h⟩
  · simp [State.set]
  · intro a ha; simp [State.set, ha]
  · obtain ⟨s2, h, _⟩ := csr_read_raw cfg
      (s.set mcounteren (mask_bitset (s.csr_array mcounteren) (COUNTEREN_MASK cfg) v))
      mcounteren (Or.inr (Or.inr (Or.inl rfl)))
    exact ⟨s2, h⟩
  · simp [State.set]
  · intro a ha; simp [State.set, ha]
  · obtain ⟨s2, h, _⟩ := csr_read_raw cfg
      (s.set scounteren (mask_bitset (s.csr_array scounteren) (COUNTEREN_MASK cfg) v))
      scounteren (Or.inr (Or.inr (Or.inr rfl)))
    exact ⟨s2, h⟩

/-! ### C6: toggling the count-inhibit bits -/

theorem and_two_pow_ne_zero (x k : Nat) : (x &&& 2 ^ k ≠ 0) ↔ x.testBit k = true := by
  rw [Nat.and_two_pow]
  cases h : x.testBit k
  · simp
  · simp [Nat.pos_iff_ne_zero.mp (Nat.two_pow_pos k)]

theorem and_one_ne_zero (x : Nat) : (x &&& 0x1 ≠ 0) ↔ x.testBit 0 = true :=
  and_two_pow_ne_zero x 0

theorem and_four_ne_zero (x : Nat) : (x &&& 0x4 ≠ 0) ↔ x.testBit 2 = true :=
  and_two_pow_ne_zero x 2

theorem mcountinhibit_mask_bits (cfg : Config) (h : cfg.RV_CSR_MCOUNTINHIBIT_CNTR = true) :
    (MCOUNTINHIBIT_MASK cfg).testBit 0 = true ∧ (MCOUNTINHIBIT_MASK cfg).testBit 2 = true := by
  cases hh : cfg.RV_CSR_MCOUNTINHIBIT_HPM <;>
  simp [MCOUNTINHIBIT_MASK, MCOUNTINHIBIT_CNTR_MASK, MCOUNTINHIBIT_HPM_MASK, h, hh] <;> decide

theorem csr_write_mcountinhibit_eq (cfg : Config) (s : State) (v : Nat)
    (h : cfg.RV_CSR_MCOUNTINHIBIT = true) :
    csr_write cfg s mcountinhibit v = .ok () (csr_write_mcountinhibit cfg s v) := by
  cases hh : cfg.RVH <;>
  simp [csr_write, csr_write_dispatch, csr_write_h, csr_write_chain, csr_write_post, Res.bind,
    hh, h, sstatus, sie, stvec, sscratch, sepc, scause, stval, sip, satp, mideleg,
    hideleg, hie, hip, hvip, hstatus, vsstatus, vsie, vsip, vstvec, vsscratch, vsepc, vscause,
    vstval, vsatp, mstatus, hcounteren, scounteren, mcounteren, mcountinhibit, mcycle,
    minstret, mie, mip, vcsr, vxrm, vxsat, fflags, frm, fcsr, hgatp, vstart]

theorem csr_read_mcycle_eq (cfg : Config) (s : State) :
    csr_read cfg s mcycle = .ok (get_mcycle cfg s) (s.call .difftest_skip_ref) := by
  cases hh : cfg.RVH <;>
  simp [csr_read, csr_read_virt, csr_read_h, csr_read_common, is_pmpaddr,
    State.call, hh, CSR_PMPADDR_BASE, CSR_PMPADDR_MAX_NUM, get_mcycle,
    sstatus, sie, stvec, sscratch, sepc, scause, stval, sip, satp, mideleg,
    hideleg, hie, hip, hvip, hstatus, vsstatus, vsie, vsip, hgeip, hgeie, mstatus, mie, mip,
    mtvec, vcsr, vlenb, fflags, frm, fcsr, mcycle, minstret, cycle, csr_time, instret]

theorem csr_read_minstret_eq (cfg : Config) (s : State) :
    csr_read cfg s minstret = .ok (get_minstret cfg s) (s.call .difftest_skip_ref) := by
  cases hh : cfg.RVH <;>
  simp [csr_read, csr_read_virt, csr_read_h, csr_read_common, is_pmpaddr,
    State.call, hh, CSR_PMPADDR_BASE, CSR_PMPADDR_MAX_NUM, get_minstret,
    sstatus, sie, stvec, sscratch, sepc, scause, stval, sip, satp, mideleg,
    hideleg, hie, hip, hvip, hstatus, vsstatus, vsie, vsip, hgeip, hgeie, mstatus, mie, mip,
    mtvec, vcsr, vlenb, fflags, frm, fcsr, mcycle, minstret, cycle, csr_time, instret]

theorem update_counter_frame (cfg : Config) (s : State) (old new : Nat) :
    (update_counter_mcountinhibit cfg s old new).abs_instr_count = s.abs_instr_count
    ∧ (update_counter_mcountinhibit cfg s old new).csr_array mcountinhibit
        = s.csr_array mcountinhibit := by
  unfold update_counter_mcountinhibit
  cases cfg.RV_CSR_MCOUNTINHIBIT_CNTR
  · simp
  · simp only [if_true]
    split_ifs <;> simp [State.set, mcycle, minstret, mcountinhibit]

theorem update_counter_mcycle (cfg : Config) (s : State) (old new : Nat)
    (h : cfg.RV_CSR_MCOUNTINHIBIT_CNTR = true) :
    (update_counter_mcountinhibit cfg s old new).csr_array mcycle =
      if old.testBit 0 = true ∧ new.testBit 0 = false then
        wsub (s.csr_array mcycle) s.abs_instr_count
      else if old.testBit 0 = false ∧ new.testBit 0 = true then
        wadd (s.csr_array mcycle) s.abs_instr_count
      else s.csr_array mcycle := by
  unfold update_counter_mcountinhibit
  simp only [h, if_true, and_one_ne_zero, and_four_ne_zero]
  cases old.testBit 0 <;> cases new.testBit 0 <;> cases old.testBit 2 <;> cases new.testBit 2 <;>
    simp [State.set, mcycle, minstret]

theorem update_counter_minstret (cfg : Config) (s : State) (old new : Nat)
    (h : cfg.RV_CSR_MCOUNTINHIBIT_CNTR = true) :
    (update_counter_mcountinhibit cfg s old new).csr_array minstret =
      if old.testBit 2 = true ∧ new.testBit 2 = false then
        wsub (s.csr_array minstret) s.abs_instr_count
      else if old.testBit 2 = false ∧ new.testBit 2 = true then
        wadd (s.csr_array minstret) s.abs_instr_count
      else s.csr_array minstret := by
  unfold update_counter_mcountinhibit
  simp only [h, if_true, and_one_ne_zero, and_four_ne_zero]
  cases old.testBit 0 <;> cases new.testBit 0 <;> cases old.testBit 2 <;> cases new.testBit 2 <;>
    simp [State.set, mcycle, minstret]

theorem wsub_wadd_wadd (m c : Nat) : wadd (wsub (wadd m c) c) c = wadd m c := by
  unfold wadd wsub
  omega

theorem csr_write_mcountinhibit_frame (cfg : Config) (s : State) (v : Nat) :
    (csr_write_mcountinhibit cfg s v).abs_instr_count = s.abs_instr_count := by
  simp only [csr_write_mcountinhibit, State.set]
  exact (update_counter_frame cfg s _ _).1

theorem mcountinhibit_write_bits (cfg : Config) (s : State) (v : Nat)
    (hC : cfg.RV_CSR_MCOUNTINHIBIT_CNTR = true) :
    ((csr_write_mcountinhibit cfg s v).csr_array mcountinhibit).testBit 0 = v.testBit 0
    ∧ ((csr_write_mcountinhibit cfg s v).csr_array mcountinhibit).testBit 2 = v.testBit 2 := by
  obtain ⟨hm0, hm2⟩ := mcountinhibit_mask_bits cfg hC
  simp only [csr_write_mcountinhibit, State.set, if_true, testBit_mask_bitset, hm0, hm2]
  simp

theorem mcountinhibit_write_mcycle (cfg : Config) (s : State) (v : Nat)
    (hC : cfg.RV_CSR_MCOUNTINHIBIT_CNTR = true) :
    (csr_write_mcountinhibit cfg s v).csr_array mcycle =
      if (s.csr_array mcountinhibit).testBit 0 = true ∧ v.testBit 0 = false then
        wsub (s.csr_array mcycle) s.abs_instr_count
      else if (s.csr_array mcountinhibit).testBit 0 = false ∧ v.testBit 0 = true then
        wadd (s.csr_array mcycle) s.abs_instr_count
      else s.csr_array mcycle := by
  obtain ⟨hm0, _⟩ := mcountinhibit_mask_bits cfg hC
  have hcy := update_counter_mcycle cfg s (s.csr_array mcountinhibit)
    (v &&& MCOUNTINHIBIT_MASK cfg) hC
  have hn : (v &&& MCOUNTINHIBIT_MASK cfg).testBit 0 = v.testBit 0 := by
    rw [Nat.testBit_and, hm0]; simp
  rw [hn] at hcy
  have e2 : (mcycle = mcountinhibit) = False := by simp [mcycle, mcountinhibit]
  simp only [csr_write_mcountinhibit, State.set, e2, if_false, hcy]

theorem mcountinhibit_write_minstret (cfg : Config) (s : State) (v : Nat)
    (hC : cfg.RV_CSR_MCOUNTINHIBIT_CNTR = true) :
    (csr_write_mcountinhibit cfg s v).csr_array minstret =
      if (s.csr_array mcountinhibit).testBit 2 = true ∧ v.testBit 2 = false then
        wsub (s.csr_array minstret) s.abs_instr_count
      else if (s.csr_array mcountinhibit).testBit 2 = false ∧ v.testBit 2 = true then
        wadd (s.csr_array minstret) s.abs_instr_count
      else s.csr_array minstret := by
  obtain ⟨_, hm2⟩ := mcountinhibit_mask_bits cfg hC
  have hir := update_counter_minstret cfg s (s.csr_array mcountinhibit)
    (v &&& MCOUNTINHIBIT_MASK cfg) hC
  have hn : (v &&& MCOUNTINHIBIT_MASK cfg).testBit 2 = v.testBit 2 := by
    rw [Nat.testBit_and, hm2]; simp
  rw [hn] at hir
  have e2 : (minstret = mcountinhibit) = False := by simp [minstret, mcountinhibit]
  simp only [csr_write_mcountinhibit, State.set, e2, if_false, hir]

theorem get_mcycle_eq (cfg : Config) (s : State) (hC : cfg.RV_CSR_MCOUNTINHIBIT_CNTR = true) :
    get_mcycle cfg s =
      if (s.csr_array mcountinhibit).testBit 0 = true then s.csr_array mcycle
      else wadd (s.csr_array mcycle) s.abs_instr_count := by
  simp only [get_mcycle, hC, true_and, and_one_ne_zero]

theorem get_minstret_eq (cfg : Config) (s : State) (hC : cfg.RV_CSR_MCOUNTINHIBIT_CNTR = true) :
    get_minstret cfg s =
      if (s.csr_array mcountinhibit).testBit 2 = true then s.csr_array minstret
      else wadd (s.csr_array minstret) s.abs_instr_count := by
  simp only [get_minstret, hC, true_and, and_four_ne_zero]

/-- C6. In a build with `mcountinhibit` and its CY/IR bits, with the external instruction
count unchanged: starting from any stored `mcycle` and any `mcountinhibit` whose CY bit is
clear, a write to `mcountinhibit` that sets CY followed by a write that clears CY leaves the
value read from `mcycle` equal, after each of the two writes, to what it was before (the
stored base plus the count, modulo `2^64`). The same holds for `minstret` and the IR bit. -/
theorem C6_inhibit_toggle_roundtrip (cfg : Config) (s : State) (v1 v2 : Nat)
    (hI : cfg.RV_CSR_MCOUNTINHIBIT = true) (hC : cfg.RV_CSR_MCOUNTINHIBIT_CNTR = true) :
    ∃ s1 s2 : State,
      csr_write cfg s mcountinhibit v1 = .ok () s1
      ∧ csr_write cfg s1 mcountinhibit v2 = .ok () s2
      ∧ s1.abs_instr_count = s.abs_instr_count ∧ s2.abs_instr_count = s.abs_instr_count
      ∧ ((s.csr_array mcountinhibit).testBit 0 = false → v1.testBit 0 = true
          → v2.testBit 0 = false →
          (csr_read cfg s mcycle).value = some (wadd (s.csr_array mcycle) s.abs_instr_count)
          ∧ (csr_read cfg s1 mcycle).value = (csr_read cfg s mcycle).value
          ∧ (csr_read cfg s2 mcycle).value = (csr_read cfg s mcycle).value)
      ∧ ((s.csr_array mcountinhibit).testBit 2 = false → v1.testBit 2 = true
          → v2.testBit 2 = false →
          (csr_read cfg s minstret).value
            = some (wadd (s.csr_array minstret) s.abs_instr_count)
          ∧ (csr_read cfg s1 minstret).value = (csr_read cfg s minstret).value
          ∧ (csr_read cfg s2 minstret).value = (csr_read cfg s minstret).value) := by
  refine ⟨_, _, csr_write_mcountinhibit_eq cfg s v1 hI,
    csr_write_mcountinhibit_eq cfg _ v2 hI, csr_write_mcountinhibit_frame cfg s v1, ?_, ?_, ?_⟩
  · rw [csr_write_mcountinhibit_frame, csr_write_mcountinhibit_frame]
  · intro h0 h1 h2
    have b1 := (mcountinhibit_write_bits cfg s v1 hC).1
    have b2 := (mcountinhibit_write_bits cfg (csr_write_mcountinhibit cfg s v1) v2 hC).1
    have c1 := mcountinhibit_write_mcycle cfg s v1 hC
    have c2 := mcountinhibit_write_mcycle cfg (csr_write_mcountinhibit cfg s v1) v2 hC
    rw [h1] at b1
    rw [h2] at b2
    rw [h0, h1] at c1
    rw [b1, h2, c1, csr_write_mcountinhibit_frame] at c2
    simp only [csr_read_mcycle_eq, Res.value, get_mcycle_eq cfg _ hC, h0, b1, b2, c1, c2,
      csr_write_mcountinhibit_frame]
    simp [wsub_wadd_wadd]
  · intro h0 h1 h2
    have b1 := (mcountinhibit_write_bits cfg s v1 hC).2
    have b2 := (mcountinhibit_write_bits cfg (csr_write_mcountinhibit cfg s v1) v2 hC).2
    have c1 := mcountinhibit_write_minstret cfg s v1 hC
    have c2 := mcountinhibit_write_minstret cfg (csr_write_mcountinhibit cfg s v1) v2 hC
    rw [h1] at b1
    rw [h2] at b2
    rw [h0, h1] at c1
    rw [b1, h2, c1, csr_write_mcountinhibit_frame] at c2
    simp only [csr_read_minstret_eq, Res.value, get_minstret_eq cfg _ hC, h0, b1, b2, c1, c2,
      csr_write_mcountinhibit_frame]
    simp [wsub_wadd_wadd]

/-- Witness of C6: on a machine with stored counters `2^64 - 1` and external count 1000,
writing 5 (CY and IR set) and then 0 to `mcountinhibit`. -/
theorem C6_inhibit_toggle_roundtrip_witness :
    (Config.plain.RV_CSR_MCOUNTINHIBIT = true ∧ Config.plain.RV_CSR_MCOUNTINHIBIT_CNTR = true
      ∧ (State.counting.csr_array mcountinhibit).testBit 0 = false
      ∧ (State.counting.csr_array mcountinhibit).testBit 2 = false
      ∧ Nat.testBit 5 0 = true ∧ Nat.testBit 5 2 = true
      ∧ Nat.testBit 0 0 = false ∧ Nat.testBit 0 2 = false)
    ∧ ∃ s1 s2 : State,
      csr_write Config.plain State.counting mcountinhibit 5 = .ok () s1
      ∧ csr_write Config.plain s1 mcountinhibit 0 = .ok () s2
      ∧ s1.abs_instr_count = State.counting.abs_instr_count
      ∧ s2.abs_instr_count = State.counting.abs_instr_count
      ∧ ((State.counting.csr_array mcountinhibit).testBit 0 = false → Nat.testBit 5 0 = true
          → Nat.testBit 0 0 = false →
          (csr_read Config.plain State.counting mcycle).value
            = some (wadd (State.counting.csr_array mcycle) State.counting.abs_instr_count)
          ∧ (csr_read Config.plain s1 mcycle).value
            = (csr_read Config.plain State.counting mcycle).value
          ∧ (csr_read Config.plain s2 mcycle).value
            = (csr_read Config.plain State.counting mcycle).value)
      ∧ ((State.counting.csr_array mcountinhibit).testBit 2 = false → Nat.testBit 5 2 = true
          → Nat.testBit 0 2 = false →
          (csr_read Config.plain State.counting minstret).value
            = some (wadd (State.counting.csr_array minstret) State.counting.abs_instr_count)
          ∧ (csr_read Config.plain s1 minstret).value
            = (csr_read Config.plain State.counting minstret).value
          ∧ (csr_read Config.plain s2 minstret).value
            = (csr_read Config.plain State.counting minstret).value) :=
  ⟨⟨rfl, rfl, by decide, by decide, by decide, by decide, by decide, by decide⟩,
   C6_inhibit_toggle_roundtrip Config.plain State.counting 5 0 rfl rfl⟩

/-! ### C7: writing and reading the counters -/

theorem csr_write_mcycle_eq (cfg : Config) (s : State) (v : Nat) :
    csr_write cfg s mcycle v = .ok () (s.set mcycle (set_mcycle cfg s v)) := by
  cases hh : cfg.RVH <;> cases hi : cfg.RV_CSR_MCOUNTINHIBIT <;>
  simp [csr_write, csr_write_dispatch, csr_write_h, csr_write_chain, csr_write_post, Res.bind,
    hh, hi, sstatus, sie, stvec, sscratch, sepc, scause, stval, sip, satp, mideleg,
    hideleg, hie, hip, hvip, hstatus, vsstatus, vsie, vsip, vstvec, vsscratch, vsepc, vscause,
    vstval, vsatp, mstatus, hcounteren, scounteren, mcounteren, mcountinhibit, mcycle,
    minstret, mie, mip, vcsr, vxrm, vxsat, fflags, frm, fcsr, hgatp, vstart]

theorem csr_write_minstret_eq (cfg : Config) (s : State) (v : Nat) :
    csr_write cfg s minstret v = .ok () (s.set minstret (set_minstret cfg s v)) := by
  cases hh : cfg.RVH <;> cases hi : cfg.RV_CSR_MCOUNTINHIBIT <;>
  simp [csr_write, csr_write_dispatch, csr_write_h, csr_write_chain, csr_write_post, Res.bind,
    hh, hi, sstatus, sie, stvec, sscratch, sepc, scause, stval, sip, satp, mideleg,
    hideleg, hie, hip, hvip, hstatus, vsstatus, vsie, vsip, vstvec, vsscratch, vsepc, vscause,
    vstval, vsatp, mstatus, hcounteren, scounteren, mcounteren, mcountinhibit, mcycle,
    minstret, mie, mip, vcsr, vxrm, vxsat, fflags, frm, fcsr, hgatp, vstart]

theorem csr_read_cycle_eq (cfg : Config) (s : State) (hZ : cfg.RV_Zicntr = true) :
    csr_read cfg s cycle = .ok (get_mcycle cfg s) (s.call .difftest_skip_ref) := by
  cases hh : cfg.RVH <;> cases hv : cfg.RVV <;> cases hf : cfg.FPU_NONE <;>
  simp [csr_read, csr_read_virt, csr_read_h, csr_read_common, is_pmpaddr,
    State.call, hh, hZ, hv, hf, CSR_PMPADDR_BASE, CSR_PMPADDR_MAX_NUM, get_mcycle,
    sstatus, sie, stvec, sscratch, sepc, scause, stval, sip, satp, mideleg,
    hideleg, hie, hip, hvip, hstatus, vsstatus, vsie, vsip, hgeip, hgeie, mstatus, mie, mip,
    mtvec, vcsr, vlenb, fflags, frm, fcsr, mcycle, minstret, cycle, csr_time, instret]

theorem csr_read_instret_eq (cfg : Config) (s : State) (hZ : cfg.RV_Zicntr = true) :
    csr_read cfg s instret = .ok (get_minstret cfg s) (s.call .difftest_skip_ref) := by
  cases hh : cfg.RVH <;> cases hv : cfg.RVV <;> cases hf : cfg.FPU_NONE <;>
  simp [csr_read, csr_read_virt, csr_read_h, csr_read_common, is_pmpaddr,
    State.call, hh, hZ, hv, hf, CSR_PMPADDR_BASE, CSR_PMPADDR_MAX_NUM, get_minstret,
    sstatus, sie, stvec, sscratch, sepc, scause, stval, sip, satp, mideleg,
    hideleg, hie, hip, hvip, hstatus, vsstatus, vsie, vsip, hgeip, hgeie, mstatus, mie, mip,
    mtvec, vcsr, vlenb, fflags, frm, fcsr, mcycle, minstret, cycle, csr_time, instret]

theorem wadd_wsub_advance (v c d : Nat) : wadd (wsub v c) (c + d) = (v + d) % 2 ^ 64 := by
  unfold wadd wsub
  omega

theorem set_mcycle_eq (cfg : Config) (s : State) (v : Nat)
    (hC : cfg.RV_CSR_MCOUNTINHIBIT_CNTR = true) :
    set_mcycle cfg s v =
      if (s.csr_array mcountinhibit).testBit 0 = true then v
      else wsub v s.abs_instr_count := by
  simp only [set_mcycle, hC, true_and, and_one_ne_zero]

theorem set_minstret_eq (cfg : Config) (s : State) (v : Nat)
    (hC : cfg.RV_CSR_MCOUNTINHIBIT_CNTR = true) :
    set_minstret cfg s v =
      if (s.csr_array mcountinhibit).testBit 2 = true then v
      else wsub v s.abs_instr_count := by
  simp only [set_minstret, hC, true_and, and_four_ne_zero]

theorem get_mcycle_after_write (cfg : Config) (s : State) (v d : Nat)
    (hC : cfg.RV_CSR_MCOUNTINHIBIT_CNTR = true) :
    get_mcycle cfg { s.set mcycle (set_mcycle cfg s v) with
        abs_instr_count := s.abs_instr_count + d } =
      if (s.csr_array mcountinhibit).testBit 0 = true then v else (v + d) % 2 ^ 64 := by
  have e1 : (mcountinhibit = mcycle) = False := by simp [mcycle, mcountinhibit]
  simp only [get_mcycle_eq cfg _ hC, set_mcycle_eq cfg _ _ hC, State.set, e1, if_false,
    if_true]
  cases (s.csr_array mcountinhibit).testBit 0
  · simp [wadd_wsub_advance]
  · simp

theorem get_minstret_after_write (cfg : Config) (s : State) (v d : Nat)
    (hC : cfg.RV_CSR_MCOUNTINHIBIT_CNTR = true) :
    get_minstret cfg { s.set minstret (set_minstret cfg s v) with
        abs_instr_count := s.abs_instr_count + d } =
      if (s.csr_array mcountinhibit).testBit 2 = true then v else (v + d) % 2 ^ 64 := by
  have e1 : (mcountinhibit = minstret) = False := by simp [minstret, mcountinhibit]
  simp only [get_minstret_eq cfg _ hC, set_minstret_eq cfg _ _ hC, State.set, e1, if_false,
    if_true]
  cases (s.csr_array mcountinhibit).testBit 2
  · simp [wadd_wsub_advance]
  · simp

/-- C7. In a build with the CY/IR inhibit bits and the Zicntr aliases, for every 64-bit value
`v` and every external count: after writing `v` to `mcycle`, a read of `mcycle` and a read of
`cycle` at the same external count return `v`, whether CY is set or clear; once the external
count has advanced by `d`, both reads return `(v + d) mod 2^64` when CY is clear and `v` when
CY is set. The same holds for `minstret` / `instret` and the IR bit. -/
theorem C7_counter_write_then_read (cfg : Config) (s : State) (v d : Nat) (hv : v < 2 ^ 64)
    (hC : cfg.RV_CSR_MCOUNTINHIBIT_CNTR = true) (hZ : cfg.RV_Zicntr = true) :
    (∃ s1 : State, csr_write cfg s mcycle v = .ok () s1
      ∧ s1.abs_instr_count = s.abs_instr_count
      ∧ (csr_read cfg s1 mcycle).value = some v
      ∧ (csr_read cfg s1 cycle).value = some v
      ∧ (csr_read cfg { s1 with abs_instr_count := s1.abs_instr_count + d } mcycle).value
          = some (if (s.csr_array mcountinhibit).testBit 0 = true then v
                  else (v + d) % 2 ^ 64)
      ∧ (csr_read cfg { s1 with abs_instr_count := s1.abs_instr_count + d } cycle).value
          = some (if (s.csr_array mcountinhibit).testBit 0 = true then v
                  else (v + d) % 2 ^ 64))
    ∧ (∃ s1 : State, csr_write cfg s minstret v = .ok () s1
      ∧ s1.abs_instr_count = s.abs_instr_count
      ∧ (csr_read cfg s1 minstret).value = some v
      ∧ (csr_read cfg s1 instret).value = some v
      ∧ (csr_read cfg { s1 with abs_instr_count := s1.abs_instr_count + d } minstret).value
          = some (if (s.csr_array mcountinhibit).testBit 2 = true then v
                  else (v + d) % 2 ^ 64)
      ∧ (csr_read cfg { s1 with abs_instr_count := s1.abs_instr_count + d } instret).value
          = some (if (s.csr_array mcountinhibit).testBit 2 = true then v
                  else (v + d) % 2 ^ 64)) := by
  have hmod : v % 2 ^ 64 = v := Nat.mod_eq_of_lt hv
  have k0 := get_mcycle_after_write cfg s v 0 hC
  have kd := get_mcycle_after_write cfg s v d hC
  have m0 := get_minstret_after_write cfg s v 0 hC
  have md := get_minstret_after_write cfg s v d hC
  simp only [Nat.add_zero, hmod, ite_self] at k0 m0
  have ec : (s.set mcycle (set_mcycle cfg s v)).abs_instr_count = s.abs_instr_count := rfl
  have ei : (s.set minstret (set_minstret cfg s v)).abs_instr_count = s.abs_instr_count := rfl
  refine ⟨⟨_, csr_write_mcycle_eq cfg s v, rfl, ?_, ?_, ?_, ?_⟩,
    ⟨_, csr_write_minstret_eq cfg s v, rfl, ?_, ?_, ?_, ?_⟩⟩
  · rw [csr_read_mcycle_eq]; exact congrArg some k0
  · rw [csr_read_cycle_eq cfg _ hZ]; exact congrArg some k0
  · rw [csr_read_mcycle_eq, ec]; exact congrArg some kd
  · rw [csr_read_cycle_eq cfg _ hZ, ec]; exact congrArg some kd
  · rw [csr_read_minstret_eq]; exact congrArg some m0
  · rw [csr_read_instret_eq cfg _ hZ]; exact congrArg some m0
  · rw [csr_read_minstret_eq, ei]; exact congrArg some md
  · rw [csr_read_instret_eq cfg _ hZ, ei]; exact congrArg some md

/-- Witness of C7: writing `2^64 - 1` to the counters of the machine whose external count
stands at 1000, and letting the count advance by 7. -/
theorem C7_counter_write_then_read_witness :
    (2 ^ 64 - 1 < 2 ^ 64 ∧ Config.plain.RV_CSR_MCOUNTINHIBIT_CNTR = true
      ∧ Config.plain.RV_Zicntr = true)
    ∧ ((∃ s1 : State, csr_write Config.plain State.counting mcycle (2 ^ 64 - 1) = .ok () s1
      ∧ s1.abs_instr_count = State.counting.abs_instr_count
      ∧ (csr_read Config.plain s1 mcycle).value = some (2 ^ 64 - 1)
      ∧ (csr_read Config.plain s1 cycle).value = some (2 ^ 64 - 1)
      ∧ (csr_read Config.plain { s1 with abs_instr_count := s1.abs_instr_count + 7 }
            mcycle).value
          = some (if (State.counting.csr_array mcountinhibit).testBit 0 = true then 2 ^ 64 - 1
                  else (2 ^ 64 - 1 + 7) % 2 ^ 64)
      ∧ (csr_read Config.plain { s1 with abs_instr_count := s1.abs_instr_count + 7 }
            cycle).value
          = some (if (State.counting.csr_array mcountinhibit).testBit 0 = true then 2 ^ 64 - 1
                  else (2 ^ 64 - 1 + 7) % 2 ^ 64))
    ∧ (∃ s1 : State, csr_write Config.plain State.counting minstret (2 ^ 64 - 1) = .ok () s1
      ∧ s1.abs_instr_count = State.counting.abs_instr_count
      ∧ (csr_read Config.plain s1 minstret).value = some (2 ^ 64 - 1)
      ∧ (csr_read Config.plain s1 instret).value = some (2 ^ 64 - 1)
      ∧ (csr_read Config.plain { s1 with abs_instr_count := s1.abs_instr_count + 7 }
            minstret).value
          = some (if (State.counting.csr_array mcountinhibit).testBit 2 = true then 2 ^ 64 - 1
                  else (2 ^ 64 - 1 + 7) % 2 ^ 64)
      ∧ (csr_read Config.plain { s1 with abs_instr_count := s1.abs_instr_count + 7 }
            instret).value
          = some (if (State.counting.csr_array mcountinhibit).testBit 2 = true then 2 ^ 64 - 1
                  else (2 ^ 64 - 1 + 7) % 2 ^ 64))) :=
  ⟨⟨by decide, rfl, rfl⟩,
   C7_counter_write_then_read Config.plain State.counting (2 ^ 64 - 1) 7 (by decide) rfl rfl⟩

/-! ### C8: writes to satp -/

theorem satp_mode_field (src : Nat) :
    (src &&& SATP_SV39_MASK) >>> 60 = (src >>> 60) % 16 := by
  have hm : SATP_SV39_MASK = (2 ^ 4 - 1) <<< 60 := by decide
  have h16 : (16 : Nat) = 2 ^ 4 := by decide
  apply Nat.eq_of_testBit_eq
  intro i
  rw [h16, Nat.testBit_mod_two_pow, Nat.testBit_shiftRight, Nat.testBit_shiftRight,
    Nat.testBit_and, hm, Nat.testBit_shiftLeft, Nat.testBit_two_pow_sub_one]
  have h1 : 60 + i ≥ 60 := by omega
  have h2 : 60 + i - 60 = i := by omega
  simp [h1, h2, Bool.and_comm]

theorem satp_mode_ok_iff (src : Nat) :
    satp_mode_ok src = true ↔ ((src >>> 60) % 16 = 0 ∨ (src >>> 60) % 16 = 8) := by
  unfold satp_mode_ok
  rw [satp_mode_field]
  simp only [Bool.or_eq_true, decide_eq_true_eq]
  exact Or.comm

theorem csr_write_satp_eq (cfg : Config) (s : State) (src : Nat)
    (hnv : cfg.RVH = false ∨ s.v = 0)
    (hnt : ¬ (s.mode = MODE_S ∧ mstatus_tvm (s.csr_array mstatus) = 1)) :
    csr_write cfg s satp src =
      .ok () (csr_write_post cfg
        (if satp_mode_ok src = true then s.set satp (cfg.MASKED_SATP src) else s) satp) := by
  simp only [mstatus] at hnt
  rcases hnv with hh | hv
  · cases hok : satp_mode_ok src <;>
    simp [csr_write, csr_write_dispatch, csr_write_h, csr_write_chain, Res.bind,
      hh, hok, hnt, is_pmpaddr, is_pmpcfg, CSR_PMPADDR_BASE, CSR_PMPADDR_MAX_NUM,
      CSR_PMPCFG_BASE, CSR_PMPCFG_MAX_NUM, is_mhpmcounter, is_mhpmevent,
      sstatus, sie, stvec, sscratch, sepc, scause, stval, sip, satp,
      mideleg, hideleg, hie, hip, hvip, hstatus, vsstatus, vsie, vsip, vstvec, vsscratch,
      vsepc, vscause, vstval, vsatp, mstatus, hcounteren, scounteren, mcounteren,
      mcountinhibit, mcycle, minstret, mie, mip, mtvec, medeleg, vcsr, vxrm, vxsat, misa, mepc,
      fflags, frm, fcsr, tselect, tdata1, tdata2, hgatp, vstart]
  · cases hok : satp_mode_ok src <;> cases hh : cfg.RVH <;>
    simp [csr_write, csr_write_dispatch, csr_write_h, csr_write_chain, Res.bind,
      hh, hv, hok, hnt, is_pmpaddr, is_pmpcfg, CSR_PMPADDR_BASE, CSR_PMPADDR_MAX_NUM,
      CSR_PMPCFG_BASE, CSR_PMPCFG_MAX_NUM, is_mhpmcounter, is_mhpmevent,
      sstatus, sie, stvec, sscratch, sepc, scause, stval, sip, satp,
      mideleg, hideleg, hie, hip, hvip, hstatus, vsstatus, vsie, vsip, vstvec, vsscratch,
      vsepc, vscause, vstval, vsatp, mstatus, hcounteren, scounteren, mcounteren,
      mcountinhibit, mcycle, minstret, mie, mip, mtvec, medeleg, vcsr, vxrm, vxsat, misa, mepc,
      fflags, frm, fcsr, tselect, tdata1, tdata2, hgatp, vstart]

theorem csr_write_post_satp_frame (cfg : Config) (s : State) :
    (csr_write_post cfg s satp).csr_array satp = s.csr_array satp := by
  cases hh : cfg.RVH <;>
  simp [csr_write_post, hh, State.call, set_sys_state_flag, sstatus, mstatus, satp, fflags,
    frm, fcsr, vcsr, vstart, vxsat, vxrm, vsatp, hgatp, hstatus, vsstatus, mie, sie, mip, sip]

/-- C8. For every write to `satp` that is not virtualized (no hypervisor extension, or
`cpu.v = 0`) and does not trap (not supervisor mode with `mstatus.tvm` set): when the mode
field `src[63:60]` is neither 0 nor 8 the stored `satp` is unchanged, mode field included;
when it is 0 or 8 the stored `satp` becomes `MASKED_SATP(src)`. -/
theorem C8_satp_write (cfg : Config) (s : State) (src : Nat)
    (hnv : cfg.RVH = false ∨ s.v = 0)
    (hnt : ¬ (s.mode = MODE_S ∧ mstatus_tvm (s.csr_array mstatus) = 1)) :
    ∃ s1 : State, csr_write cfg s satp src = .ok () s1
      ∧ s1.csr_array satp =
          if (src >>> 60) % 16 = 0 ∨ (src >>> 60) % 16 = 8 then cfg.MASKED_SATP src
          else s.csr_array satp := by
  refine ⟨_, csr_write_satp_eq cfg s src hnv hnt, ?_⟩
  rw [csr_write_post_satp_frame]
  by_cases hm : (src >>> 60) % 16 = 0 ∨ (src >>> 60) % 16 = 8
  · rw [if_pos ((satp_mode_ok_iff src).mpr hm), if_pos hm]
    simp [State.set]
  · have : ¬ satp_mode_ok src = true := fun h => hm ((satp_mode_ok_iff src).mp h)
    rw [if_neg this, if_neg hm]

/-- Witness of C8: on the sample machine (machine mode, no hypervisor extension) a write with
mode field 9 leaves `satp` as it is. -/
theorem C8_satp_write_witness :
    ((Config.plain.RVH = false ∨ State.reset.v = 0)
      ∧ ¬ (State.reset.mode = MODE_S ∧ mstatus_tvm (State.reset.csr_array mstatus) = 1))
    ∧ ∃ s1 : State, csr_write Config.plain State.reset satp (9 <<< 60) = .ok () s1
      ∧ s1.csr_array satp =
          if ((9 <<< 60) >>> 60) % 16 = 0 ∨ ((9 <<< 60) >>> 60) % 16 = 8 then
            Config.plain.MASKED_SATP (9 <<< 60)
          else State.reset.csr_array satp :=
  ⟨⟨Or.inl rfl, by decide⟩,
   C8_satp_write Config.plain State.reset (9 <<< 60) (Or.inl rfl) (by decide)⟩

/-! ### C9: writes to mtvec without vectored mode -/

theorem testBit_three (i : Nat) : Nat.testBit 3 i = decide (i < 2) :=
  Nat.testBit_two_pow_sub_one 2 i

theorem testBit_two (i : Nat) : Nat.testBit 2 i = decide (1 = i) :=
  Nat.testBit_two_pow (n := 1) (m := i)

theorem and_wnot_three_bits (v i : Nat) (hv : v < 2 ^ 64) :
    (v &&& wnot 0x3).testBit i = (decide (2 ≤ i) && v.testBit i) := by
  rw [Nat.testBit_and, testBit_wnot, testBit_three]
  have hb := testBit_of_lt_word hv i
  by_cases h2 : 2 ≤ i
  · have : ¬ i < 2 := by omega
    simp only [h2, this, decide_True, decide_False, Bool.not_false, Bool.and_true,
      Bool.true_and]
    rw [Bool.and_comm, hb]
  · have : i < 2 := by omega
    simp [h2, this]

theorem and_wnot_three_and_wnot_two (v : Nat) : (v &&& wnot 0x3) &&& wnot 0x2 = v &&& wnot 0x3 := by
  apply Nat.eq_of_testBit_eq
  intro i
  rw [Nat.testBit_and, Nat.testBit_and, testBit_wnot, testBit_wnot, testBit_three, testBit_two]
  by_cases h2 : i < 2
  · simp [h2]
  · have : ¬ 1 = i := by omega
    simp [h2, this]

theorem csr_write_mtvec_eq (cfg : Config) (s : State) (v : Nat) :
    csr_write cfg s mtvec v =
      .ok () (s.set mtvec
        (if cfg.XTVEC_VECTORED_MODE = true then v &&& wnot 0x2 else v &&& wnot 0x3)) := by
  cases hh : cfg.RVH <;> cases hx : cfg.XTVEC_VECTORED_MODE <;>
  simp [csr_write, csr_write_dispatch, csr_write_h, csr_write_chain, csr_write_post, Res.bind,
    hh, hx, sstatus, sie, stvec, sscratch, sepc, scause, stval, sip, satp, mideleg,
    hideleg, hie, hip, hvip, hstatus, vsstatus, vsie, vsip, vstvec, vsscratch, vsepc, vscause,
    vstval, vsatp, mstatus, hcounteren, scounteren, mcounteren, mcountinhibit, mcycle,
    minstret, mie, mip, mtvec, vcsr, vxrm, vxsat, fflags, frm, fcsr, hgatp, vstart]

theorem csr_read_mtvec_eq (cfg : Config) (s : State) :
    csr_read cfg s mtvec = .ok (s.csr_array mtvec &&& wnot 0x2) s := by
  cases hh : cfg.RVH <;>
  simp [csr_read, csr_read_virt, csr_read_h, csr_read_common, is_pmpaddr,
    hh, CSR_PMPADDR_BASE, CSR_PMPADDR_MAX_NUM,
    sstatus, sie, stvec, sscratch, sepc, scause, stval, sip, satp, mideleg,
    hideleg, hie, hip, hvip, hstatus, vsstatus, vsie, vsip, hgeip, hgeie, mstatus, mie, mip,
    mtvec]

/-- C9. In a build without vectored trap mode (`CONFIG_XTVEC_VECTORED_MODE` undefined), with
or without the hypervisor extension and in every mode, for every 64-bit value `v` written to
`mtvec`: the stored `mtvec` is `v & ~3`, that is, bits 1:0 are clear and every other bit
equals the corresponding bit of `v`; a following read of `mtvec` returns the stored value and
changes nothing. -/
theorem C9_mtvec_write_clears_mode_bits (cfg : Config) (s : State) (v : Nat)
    (hx : cfg.XTVEC_VECTORED_MODE = false) (hv : v < 2 ^ 64) :
    ∃ s1 : State, csr_write cfg s mtvec v = .ok () s1
      ∧ s1.csr_array mtvec = v &&& wnot 0x3
      ∧ (∀ i : Nat, (s1.csr_array mtvec).testBit i = (decide (2 ≤ i) && v.testBit i))
      ∧ csr_read cfg s1 mtvec = .ok (s1.csr_array mtvec) s1 := by
  have hs : (s.set mtvec (if cfg.XTVEC_VECTORED_MODE = true then v &&& wnot 0x2
      else v &&& wnot 0x3)).csr_array mtvec = v &&& wnot 0x3 := by
    simp [State.set, hx]
  refine ⟨_, csr_write_mtvec_eq cfg s v, hs, ?_, ?_⟩
  · intro i
    rw [hs]
    exact and_wnot_three_bits v i hv
  · rw [csr_read_mtvec_eq, hs, and_wnot_three_and_wnot_two]

/-- Witness of C9: on the sample machine (machine mode, no hypervisor extension, no vectored
mode) writing `0xFFFFFFFF` to `mtvec` stores `0xFFFFFFFC`. -/
theorem C9_mtvec_write_clears_mode_bits_witness :
    (Config.plain.XTVEC_VECTORED_MODE = false ∧ 0xFFFFFFFF < 2 ^ 64
      ∧ Config.plain.RVH = false ∧ State.reset.mode = MODE_M
      ∧ 0xFFFFFFFF &&& wnot 0x3 = 0xFFFFFFFC)
    ∧ ∃ s1 : State, csr_write Config.plain State.reset mtvec 0xFFFFFFFF = .ok () s1
      ∧ s1.csr_array mtvec = 0xFFFFFFFF &&& wnot 0x3
      ∧ (∀ i : Nat, (s1.csr_array mtvec).testBit i
          = (decide (2 ≤ i) && Nat.testBit 0xFFFFFFFF i))
      ∧ csr_read Config.plain s1 mtvec = .ok (s1.csr_array mtvec) s1 :=
  ⟨⟨rfl, by decide, rfl, rfl, by decide⟩,
   C9_mtvec_write_clears_mode_bits Config.plain State.reset 0xFFFFFFFF rfl (by decide)⟩

/-! ### C10: the counter-enable check -/

theorem count_bit_low (b : Nat) (hb : b < 31) : count_bit (0xC00 + b) = 2 ^ b := by
  have h1 : 0xC00 + b - 0xC00 = b := by omega
  have h2 : (2 : Nat) ^ b < 2 ^ 31 := Nat.pow_lt_pow_right (by decide) hb
  have h3 : (2 : Nat) ^ b % 2 ^ 32 = 2 ^ b := Nat.mod_eq_of_lt (by omega)
  unfold count_bit sext32
  rw [h1, Nat.shiftLeft_eq, Nat.one_mul, h3, if_pos h2]

theorem count_bit_top : count_bit (0xC00 + 31) = 2 ^ 64 - (2 ^ 31 - 1 + 1) := by decide

theorem testBit_count_bit_top (i : Nat) :
    (count_bit (0xC00 + 31)).testBit i = (decide (i < 64) && !decide (i < 31)) := by
  rw [count_bit_top, Nat.testBit_two_pow_sub_succ (by decide), Nat.testBit_two_pow_sub_one]

theorem count_bit_and_eq_zero (b x : Nat) (hb : b ≤ 31) (hx : x < 2 ^ 32) :
    (count_bit (0xC00 + b) &&& x = 0) ↔ x.testBit b = false := by
  by_cases hlt : b < 31
  · rw [count_bit_low b hlt, Nat.land_comm]
    have := and_two_pow_ne_zero x b
    constructor
    · intro h
      cases hx1 : x.testBit b
      · rfl
      · exact absurd h (this.mpr hx1)
    · intro h
      by_contra hne
      rw [this.mp hne] at h
      exact Bool.noConfusion h
  · have hb31 : b = 31 := by omega
    subst hb31
    constructor
    · intro h
      have h1 := congrArg (fun n => Nat.testBit n 31) h
      simp only [Nat.testBit_and, testBit_count_bit_top, Nat.zero_testBit] at h1
      simpa using h1
    · intro h
      apply Nat.eq_of_testBit_eq
      intro i
      rw [Nat.testBit_and, testBit_count_bit_top, Nat.zero_testBit]
      by_cases h31 : i < 31
      · simp [h31]
      · by_cases he : i = 31
        · subst he; simp [h]
        · have : x.testBit i = false :=
            Nat.testBit_lt_two_pow
              (Nat.lt_of_lt_of_le hx (Nat.pow_le_pow_right (by decide) (by omega)))
          simp [this]

theorem counter_window_level (a : Nat) (h1 : 0xC00 ≤ a) (h2 : a ≤ 0xC1F) :
    (a &&& (0b11 <<< 8)) >>> 8 = 0 := by
  interval_cases a <;> rfl

theorem csr_is_legal_counter_read (cfg : Config) (s : State) (a : Nat)
    (h1 : 0xC00 ≤ a) (h2 : a ≤ 0xC1F) (hex : s.csr_exist a = true) :
    csr_is_legal cfg s a false =
      (csr_counter_enable_check cfg s a).bind fun _ s1 => .ok true s1 := by
  have hlt : a < 4096 := by omega
  have hlv := counter_window_level a h1 h2
  unfold csr_is_legal
  simp only [hlt, not_true_eq_false, if_false, hex, Bool.true_eq_false, hlv, Nat.not_lt_zero,
    and_false, ge_iff_le, Nat.zero_le, not_true_eq_false, Bool.false_eq_true, false_and,
    h1, h2, and_self, if_true]

/-- C10. For every existing counter address `a` in `0xC00..0xC1F` (bit `b = a - 0xC00`), with
`mcounteren`, `hcounteren` and `scounteren` holding 32-bit values, `csr_counter_enable_check`
decides, in this order: illegal-instruction when the mode is below machine and bit `b` of
`mcounteren` is clear; else virtual-instruction when virtualization is active (hypervisor build
and `cpu.v` set) and bit `b` of `hcounteren` is clear; else, when the mode is below supervisor
and bit `b` of `scounteren` is clear, virtual-instruction if virtualized and
illegal-instruction if not; else the access is permitted. `csr_is_legal` gives a read exactly
this decision, and a supervisor-mode read of `cycle` with bit 0 of `mcounteren` clear leaves
`csrrw` through the illegal-instruction trap. -/
theorem C10_counter_enable_decision (cfg : Config) (s : State) (a : Nat)
    (h1 : 0xC00 ≤ a) (h2 : a ≤ 0xC1F) (hex : s.csr_exist a = true)
    (hm : s.csr_array mcounteren < 2 ^ 32) (hh : s.csr_array hcounteren < 2 ^ 32)
    (hs : s.csr_array scounteren < 2 ^ 32) :
    csr_counter_enable_check cfg s a =
        (if s.mode < MODE_M ∧ (s.csr_array mcounteren).testBit (a - 0xC00) = false then
          .trap .EX_II s
        else if (cfg.RVH = true ∧ s.v ≠ 0)
            ∧ (s.csr_array hcounteren).testBit (a - 0xC00) = false then
          .trap .EX_VI s
        else if s.mode < MODE_S ∧ (s.csr_array scounteren).testBit (a - 0xC00) = false then
          (if cfg.RVH = true ∧ s.v ≠ 0 then .trap .EX_VI s else .trap .EX_II s)
        else .ok () s)
    ∧ csr_is_legal cfg s a false =
        ((csr_counter_enable_check cfg s a).bind fun _ s1 => .ok true s1)
    ∧ (s.mode = MODE_S → a = cycle → (s.csr_array mcounteren).testBit 0 = false →
        csrrw cfg s true none a = .trap .EX_II s) := by
  have hb : a - 0xC00 ≤ 31 := by omega
  have ha : a = 0xC00 + (a - 0xC00) := by omega
  have em := count_bit_and_eq_zero (a - 0xC00) _ hb hm
  have eh := count_bit_and_eq_zero (a - 0xC00) _ hb hh
  have es := count_bit_and_eq_zero (a - 0xC00) _ hb hs
  rw [← ha] at em eh es
  have hD : csr_counter_enable_check cfg s a =
        (if s.mode < MODE_M ∧ (s.csr_array mcounteren).testBit (a - 0xC00) = false then
          .trap .EX_II s
        else if (cfg.RVH = true ∧ s.v ≠ 0)
            ∧ (s.csr_array hcounteren).testBit (a - 0xC00) = false then
          .trap .EX_VI s
        else if s.mode < MODE_S ∧ (s.csr_array scounteren).testBit (a - 0xC00) = false then
          (if cfg.RVH = true ∧ s.v ≠ 0 then .trap .EX_VI s else .trap .EX_II s)
        else .ok () s) := by
    unfold csr_counter_enable_check
    simp only [em, eh, es, and_assoc]
  have hL := csr_is_legal_counter_read cfg s a h1 h2 hex
  refine ⟨hD, hL, ?_⟩
  intro hmode hcy hbit
  subst hcy
  have hc : s.mode < MODE_M ∧ (s.csr_array mcounteren).testBit (cycle - 0xC00) = false :=
    ⟨by rw [hmode]; decide, hbit⟩
  rw [hD, if_pos hc] at hL
  unfold csrrw
  simp only [Option.isSome_none, hL, Res.bind]

/-- Witness of C10: the sample machine in supervisor mode, all counter-enable registers
zero, reading `cycle`. -/
theorem C10_counter_enable_decision_witness :
    (0xC00 ≤ cycle ∧ cycle ≤ 0xC1F ∧ State.supervisor.csr_exist cycle = true
      ∧ State.supervisor.csr_array mcounteren < 2 ^ 32
      ∧ State.supervisor.csr_array hcounteren < 2 ^ 32
      ∧ State.supervisor.csr_array scounteren < 2 ^ 32
      ∧ State.supervisor.mode = MODE_S
      ∧ (State.supervisor.csr_array mcounteren).testBit 0 = false)
    ∧ (csr_counter_enable_check Config.plain State.supervisor cycle =
        (if State.supervisor.mode < MODE_M
            ∧ (State.supervisor.csr_array mcounteren).testBit (cycle - 0xC00) = false then
          .trap .EX_II State.supervisor
        else if (Config.plain.RVH = true ∧ State.supervisor.v ≠ 0)
            ∧ (State.supervisor.csr_array hcounteren).testBit (cycle - 0xC00) = false then
          .trap .EX_VI State.supervisor
        else if State.supervisor.mode < MODE_S
            ∧ (State.supervisor.csr_array scounteren).testBit (cycle - 0xC00) = false then
          (if Config.plain.RVH = true ∧ State.supervisor.v ≠ 0 then
            .trap .EX_VI State.supervisor
           else .trap .EX_II State.supervisor)
        else .ok () State.supervisor)
      ∧ csr_is_legal Config.plain State.supervisor cycle false =
          ((csr_counter_enable_check Config.plain State.supervisor cycle).bind
            fun _ s1 => .ok true s1)
      ∧ (State.supervisor.mode = MODE_S → cycle = cycle
          → (State.supervisor.csr_array mcounteren).testBit 0 = false →
          csrrw Config.plain State.supervisor true none cycle
            = .trap .EX_II State.supervisor)) :=
  ⟨⟨by decide, by decide, by decide, by decide, by decide, by decide, rfl, by decide⟩,
   C10_counter_enable_decision Config.plain State.supervisor cycle (by decide) (by decide)
     (by decide) (by decide) (by decide) (by decide)⟩

/-! ### C11: writes to sstatus in a guest -/

theorem csr_write_sstatus_virt_eq (cfg : Config) (s : State) (v : Nat)
    (hh : cfg.RVH = true) (hv : s.v = 1) :
    csr_write cfg s sstatus v =
      .ok () (set_sys_state_flag
        (update_mstatus_sd cfg (update_vsstatus_sd
          (s.set vsstatus (mask_bitset (s.csr_array vsstatus) (SSTATUS_WMASK cfg) v))))
        .SYS_STATE_UPDATE) := by
  simp [csr_write, csr_write_dispatch, csr_write_virt, csr_write_post, Res.bind, hh, hv,
    sstatus, sie, stvec, sscratch, sepc, scause, stval, sip, satp, mstatus, vsatp, hgatp,
    hstatus, vsstatus, mie, mip, vcsr, vxrm, vxsat, fflags, frm, fcsr, vstart]

/-- Counterexample to C11 as stated. In the hypervisor build, on a guest whose `mstatus` is
`0x6000` (FS dirty, SD clear), a write of 0 to `sstatus` changes `mstatus` to
`0x8000000000006000`: the write ends with `update_mstatus_sd`. -/
theorem C11_guest_sstatus_write_refreshes_mstatus :
    Config.hyp.RVH = true ∧ State.guest_fs_dirty.v = 1
    ∧ State.guest_fs_dirty.csr_array mstatus = 0x6000
    ∧ (csr_write Config.hyp State.guest_fs_dirty sstatus 0).state.csr_array mstatus
        = 0x8000000000006000 := by
  rw [csr_write_sstatus_virt_eq _ _ _ rfl rfl]
  refine ⟨rfl, rfl, by decide, ?_⟩
  decide

/-- C11, amended. With the hypervisor extension built and `cpu.v = 1`, for every value `v`
written to `sstatus`: `vsstatus` becomes `(old & ~SSTATUS_WMASK) | (v & SSTATUS_WMASK)` with
its SD bit (bit 31 when `hstatus.vsxl = 1`, bit 63 otherwise) recomputed from its FS field;
`mstatus` receives nothing of `v`, it is only passed through `update_mstatus_sd`, so it is
unchanged whenever its FS and SD fields were already consistent; every other CSR slot is
unchanged. -/
theorem C11_guest_sstatus_write (cfg : Config) (s : State) (v : Nat)
    (hh : cfg.RVH = true) (hv : s.v = 1) :
    ∃ s1 : State, csr_write cfg s sstatus v = .ok () s1
      ∧ s1.csr_array vsstatus =
          setf (mask_bitset (s.csr_array vsstatus) (SSTATUS_WMASK cfg) v)
            (if hstatus_vsxl (s.csr_array hstatus) = 1 then 31 else 63) 1
            (b2n (decide
              (getf (mask_bitset (s.csr_array vsstatus) (SSTATUS_WMASK cfg) v) 13 2 = 3)))
      ∧ s1.csr_array mstatus = update_mstatus_sd_val cfg (s.csr_array mstatus)
      ∧ (update_mstatus_sd_val cfg (s.csr_array mstatus) = s.csr_array mstatus →
          s1.csr_array mstatus = s.csr_array mstatus)
      ∧ (∀ a : Nat, a ≠ vsstatus → a ≠ mstatus → s1.csr_array a = s.csr_array a) := by
  have e1 : (vsstatus = mstatus) = False := by simp [vsstatus, mstatus]
  have e2 : (mstatus = vsstatus) = False := by simp [vsstatus, mstatus]
  have e3 : (hstatus = vsstatus) = False := by simp [vsstatus, hstatus]
  have hm : (set_sys_state_flag
        (update_mstatus_sd cfg (update_vsstatus_sd
          (s.set vsstatus (mask_bitset (s.csr_array vsstatus) (SSTATUS_WMASK cfg) v))))
        .SYS_STATE_UPDATE).csr_array mstatus
      = update_mstatus_sd_val cfg (s.csr_array mstatus) := by
    by_cases hx : hstatus_vsxl (s.csr_array hstatus) = 1 <;>
    simp [set_sys_state_flag, update_mstatus_sd, update_vsstatus_sd, State.set, e1, e2, e3, hx]
  refine ⟨_, csr_write_sstatus_virt_eq cfg s v hh hv, ?_, hm, ?_, ?_⟩
  · by_cases hx : hstatus_vsxl (s.csr_array hstatus) = 1 <;>
    simp [set_sys_state_flag, update_mstatus_sd, update_vsstatus_sd, State.set, e1, e2, e3, hx]
  · intro h
    rw [hm, h]
  · intro a ha1 ha2
    by_cases hx : hstatus_vsxl (s.csr_array hstatus) = 1 <;>
    simp [set_sys_state_flag, update_mstatus_sd, update_vsstatus_sd, State.set, e1, e2, e3, hx,
      ha1, ha2]

/-- Witness of the amended C11: the guest with dirty FS writes `0x2000` to `sstatus`. -/
theorem C11_guest_sstatus_write_witness :
    (Config.hyp.RVH = true ∧ State.guest_fs_dirty.v = 1)
    ∧ ∃ s1 : State, csr_write Config.hyp State.guest_fs_dirty sstatus 0x2000 = .ok () s1
      ∧ s1.csr_array vsstatus =
          setf (mask_bitset (State.guest_fs_dirty.csr_array vsstatus)
              (SSTATUS_WMASK Config.hyp) 0x2000)
            (if hstatus_vsxl (State.guest_fs_dirty.csr_array hstatus) = 1 then 31 else 63) 1
            (b2n (decide
              (getf (mask_bitset (State.guest_fs_dirty.csr_array vsstatus)
                (SSTATUS_WMASK Config.hyp) 0x2000) 13 2 = 3)))
      ∧ s1.csr_array mstatus
          = update_mstatus_sd_val Config.hyp (State.guest_fs_dirty.csr_array mstatus)
      ∧ (update_mstatus_sd_val Config.hyp (State.guest_fs_dirty.csr_array mstatus)
            = State.guest_fs_dirty.csr_array mstatus →
          s1.csr_array mstatus = State.guest_fs_dirty.csr_array mstatus)
      ∧ (∀ a : Nat, a ≠ vsstatus → a ≠ mstatus →
          s1.csr_array a = State.guest_fs_dirty.csr_array a) :=
  ⟨⟨rfl, rfl⟩, C11_guest_sstatus_write Config.hyp State.guest_fs_dirty 0x2000 rfl rfl⟩

/-! ### C12 and C13: the privilege-level rule and the read-only rule of the access gate -/

theorem csr_level_field (a : Nat) : (a &&& (0b11 <<< 8)) >>> 8 = (a >>> 8) % 4 := by
  have hm : (0b11 <<< 8 : Nat) = (2 ^ 2 - 1) <<< 8 := by decide
  have h4 : (4 : Nat) = 2 ^ 2 := by decide
  apply Nat.eq_of_testBit_eq
  intro i
  rw [h4, Nat.testBit_mod_two_pow, Nat.testBit_shiftRight, Nat.testBit_shiftRight,
    Nat.testBit_and, hm, Nat.testBit_shiftLeft, Nat.testBit_two_pow_sub_one]
  have h1 : 8 + i ≥ 8 := by omega
  have h2 : 8 + i - 8 = i := by omega
  simp [h1, h2, Bool.and_comm]

/-- C12. For every existing CSR address whose level field `r = addr[9:8]` is higher than the
effective current level (the mode, with supervisor counted as `MODE_HS` in a hypervisor
build), `csrrw` leaves through the virtual-instruction trap when virtualization is active
(hypervisor build and `cpu.v` set) and `r <= MODE_HS`, and through the illegal-instruction
trap otherwise; the state at the trap is the state before the access, so no CSR has been read
or written. -/
theorem C12_privilege_level_rule (cfg : Config) (s : State) (a : Nat) (dest : Bool)
    (src : Option Nat) (ha : a < 4096) (hex : s.csr_exist a = true)
    (hlow : (if cfg.RVH = true then (if s.mode = MODE_S then MODE_HS else s.mode) else s.mode)
      < (a >>> 8) % 4) :
    csrrw cfg s dest src a =
      if cfg.RVH = true ∧ s.v ≠ 0 ∧ (a >>> 8) % 4 ≤ MODE_HS then .trap .EX_VI s
      else .trap .EX_II s := by
  unfold csrrw csr_is_legal
  simp only [ha, not_true_eq_false, if_false, hex, Bool.true_eq_false, csr_level_field]
  cases hh : cfg.RVH
  · simp only [hh, Bool.false_eq_true, if_false] at hlow
    have hn : ¬ s.mode ≥ (a >>> 8) % 4 := by omega
    simp [hn, Res.bind]
  · simp only [hh, if_true] at hlow
    by_cases hv : s.v ≠ 0 ∧ (a >>> 8) % 4 ≤ MODE_HS
    · simp [hlow, hv, Res.bind]
    · simp [hlow, hv, Res.bind]

/-- Witness of C12: the sample machine in supervisor mode (no hypervisor extension) accesses
`mstatus`, whose level field is 3. -/
theorem C12_privilege_level_rule_witness :
    (mstatus < 4096 ∧ State.supervisor.csr_exist mstatus = true
      ∧ (if Config.plain.RVH = true then
            (if State.supervisor.mode = MODE_S then MODE_HS else State.supervisor.mode)
          else State.supervisor.mode) < (mstatus >>> 8) % 4)
    ∧ csrrw Config.plain State.supervisor true (some 0) mstatus =
        if Config.plain.RVH = true ∧ State.supervisor.v ≠ 0
            ∧ (mstatus >>> 8) % 4 ≤ MODE_HS then
          .trap .EX_VI State.supervisor
        else .trap .EX_II State.supervisor :=
  ⟨⟨by decide, by decide, by decide⟩,
   C12_privilege_level_rule Config.plain State.supervisor mstatus true (some 0) (by decide)
     (by decide) (by decide)⟩

/-- C13. For every existing CSR address whose bits 11:10 are `0b11` and for which the
privilege-level rule passes, a `csrrw` that carries a value to write, whatever the value,
leaves through the illegal-instruction trap in the state it was called in; for an access
without a value to write `csr_is_legal` does not apply the rule: its answer is that of the
counter-enable check inside the counter window and `true` elsewhere. -/
theorem C13_read_only_rule (cfg : Config) (s : State) (a : Nat) (dest : Bool) (v : Nat)
    (ha : a < 4096) (hex : s.csr_exist a = true)
    (hpass : ¬ (if cfg.RVH = true then (if s.mode = MODE_S then MODE_HS else s.mode)
      else s.mode) < (a >>> 8) % 4)
    (hro : a >>> 10 = 0x3) :
    csrrw cfg s dest (some v) a = .trap .EX_II s
    ∧ csr_is_legal cfg s a false =
        (if a ≥ 0xC00 ∧ a ≤ 0xC1F then
          (csr_counter_enable_check cfg s a).bind fun _ s1 => .ok true s1
         else .ok true s) := by
  unfold csrrw csr_is_legal
  simp only [ha, not_true_eq_false, if_false, hex, Bool.true_eq_false, csr_level_field]
  cases hh : cfg.RVH
  · simp only [hh, Bool.false_eq_true, if_false] at hpass
    have hn : s.mode ≥ (a >>> 8) % 4 := by omega
    simp [hn, hro, Res.bind]
  · simp only [hh, if_true] at hpass
    simp [hpass, hro, Res.bind]

/-- Witness of C13: the sample machine in machine mode writes 5 to `cycle` (`0xC00`). -/
theorem C13_read_only_rule_witness :
    (cycle < 4096 ∧ State.reset.csr_exist cycle = true
      ∧ ¬ (if Config.plain.RVH = true then
            (if State.reset.mode = MODE_S then MODE_HS else State.reset.mode)
          else State.reset.mode) < (cycle >>> 8) % 4
      ∧ cycle >>> 10 = 0x3)
    ∧ (csrrw Config.plain State.reset true (some 5) cycle = .trap .EX_II State.reset
      ∧ csr_is_legal Config.plain State.reset cycle false =
          (if cycle ≥ 0xC00 ∧ cycle ≤ 0xC1F then
            (csr_counter_enable_check Config.plain State.reset cycle).bind
              fun _ s1 => .ok true s1
           else .ok true State.reset)) :=
  ⟨⟨by decide, by decide, by decide, by decide⟩,
   C13_read_only_rule Config.plain State.reset cycle true 5 (by decide) (by decide)
     (by decide) (by decide)⟩

/-! ### C14: mret -/

theorem getf_one_lt (w lo : Nat) : getf w lo 1 < 2 := by
  unfold getf
  exact Nat.mod_lt _ (by decide)

theorem getf_one_mod (w lo : Nat) : getf w lo 1 % 2 ^ 1 = getf w lo 1 :=
  Nat.mod_eq_of_lt (getf_one_lt w lo)

/-- The word that mret leaves in `mstatus`, as a function of the old word. -/
theorem priv_mret_eq (cfg : Config) (s : State) (hm : ¬ s.mode < MODE_M) :
    priv_mret cfg s =
      .ok (s.csr_array mepc)
        ((((if cfg.RVH = true then
            set_sys_state_flag
              (({ ({ s with mode := mstatus_mpp (s.csr_array mstatus) }) with
                  v := mstatus_mpv (s.csr_array mstatus) }))
              .SYS_STATE_FLUSH_TCACHE
          else { s with mode := mstatus_mpp (s.csr_array mstatus) }).set mstatus
          (setf
            (if mstatus_mpp (s.csr_array mstatus) ≠ MODE_M then
              setf (if cfg.RVH = true then
                  setf (setf (setf (s.csr_array mstatus) 3 1 (mstatus_mpie (s.csr_array mstatus)))
                    7 1 (if cfg.DIFFTEST_REF_QEMU = true then 0 else 1)) 39 1 0
                else setf (setf (s.csr_array mstatus) 3 1 (mstatus_mpie (s.csr_array mstatus)))
                    7 1 (if cfg.DIFFTEST_REF_QEMU = true then 0 else 1)) 17 1 0
             else
              (if cfg.RVH = true then
                  setf (setf (setf (s.csr_array mstatus) 3 1 (mstatus_mpie (s.csr_array mstatus)))
                    7 1 (if cfg.DIFFTEST_REF_QEMU = true then 0 else 1)) 39 1 0
                else setf (setf (s.csr_array mstatus) 3 1 (mstatus_mpie (s.csr_array mstatus)))
                    7 1 (if cfg.DIFFTEST_REF_QEMU = true then 0 else 1)))
            11 2 MODE_U)).call .update_mmu_state)) := by
  have e1 : ∀ x y : Nat, mstatus_mpp (setf (setf (s.csr_array mstatus) 3 1 x) 7 1 y)
      = mstatus_mpp (s.csr_array mstatus) := by
    intro x y
    simp [mstatus_mpp, getf_setf_disjoint]
  have e2 : ∀ x y : Nat, mstatus_mpp (setf (setf (setf (s.csr_array mstatus) 3 1 x) 7 1 y) 39 1 0)
      = mstatus_mpp (s.csr_array mstatus) := by
    intro x y
    simp [mstatus_mpp, getf_setf_disjoint]
  have e3 : ∀ x y : Nat, mstatus_mpv (setf (setf (s.csr_array mstatus) 3 1 x) 7 1 y)
      = mstatus_mpv (s.csr_array mstatus) := by
    intro x y
    simp [mstatus_mpv, getf_setf_disjoint]
  have em : (mepc = mstatus) = False := by simp [mepc, mstatus]
  unfold priv_mret
  cases hh : cfg.RVH <;> cases hq : cfg.DIFFTEST_REF_QEMU <;>
    by_cases hp : mstatus_mpp (s.csr_array mstatus) = MODE_M <;>
    simp [hm, hh, hq, hp, e1, e2, e3, em, State.set, State.call, set_sys_state_flag] <;>
    (funext a; by_cases ha : a = mstatus <;> simp [ha])

theorem testBit_setf_other (w lo len x i : Nat) (hi : i < 64)
    (h : ¬ (lo ≤ i ∧ i < lo + len)) : (setf w lo len x).testBit i = w.testBit i := by
  rw [testBit_setf, if_neg h]
  simp [hi]

theorem priv_instr_mret (cfg : Config) (s : State) (src : Nat) (hu : cfg.MODE_USER = false) :
    priv_instr cfg s 0x302 src = priv_mret cfg s := by
  simp [priv_instr, hu]

/-- C14. In a build with the privileged instructions (`CONFIG_MODE_USER` undefined) that is
not a QEMU reference: from machine mode, mret sets `mstatus.MIE` to the old MPIE, MPIE to 1,
the current mode to the old MPP, MPP to user, clears MPRV exactly when the old MPP is not
machine, with the hypervisor extension sets `cpu.v` to the old MPV, clears MPV and raises the
flush flag, leaves every other bit of `mstatus` and every other CSR unchanged, requests an
MMU-state refresh and returns the stored `mepc`; from a mode below machine it leaves through
the illegal-instruction trap in the state it was called in. -/
theorem C14_mret (cfg : Config) (s : State) (src : Nat)
    (hu : cfg.MODE_USER = false) (hq : cfg.DIFFTEST_REF_QEMU = false) :
    (s.mode = MODE_M →
      ∃ s1 : State, priv_instr cfg s 0x302 src = .ok (s.csr_array mepc) s1
        ∧ mstatus_mie (s1.csr_array mstatus) = mstatus_mpie (s.csr_array mstatus)
        ∧ mstatus_mpie (s1.csr_array mstatus) = 1
        ∧ s1.mode = mstatus_mpp (s.csr_array mstatus)
        ∧ mstatus_mpp (s1.csr_array mstatus) = MODE_U
        ∧ mstatus_mprv (s1.csr_array mstatus) =
            (if mstatus_mpp (s.csr_array mstatus) ≠ MODE_M then 0
             else mstatus_mprv (s.csr_array mstatus))
        ∧ (cfg.RVH = true →
            s1.v = mstatus_mpv (s.csr_array mstatus)
            ∧ mstatus_mpv (s1.csr_array mstatus) = 0
            ∧ s1.sys_state_flag .SYS_STATE_FLUSH_TCACHE = true)
        ∧ (cfg.RVH = false → s1.v = s.v ∧ s1.sys_state_flag = s.sys_state_flag)
        ∧ (∀ i : Nat, i < 64 → i ≠ 3 → i ≠ 7 → i ≠ 11 → i ≠ 12 → i ≠ 17 →
            (cfg.RVH = true → i ≠ 39) →
            (s1.csr_array mstatus).testBit i = (s.csr_array mstatus).testBit i)
        ∧ (∀ a : Nat, a ≠ mstatus → s1.csr_array a = s.csr_array a)
        ∧ s1.calls = s.calls ++ [.update_mmu_state])
    ∧ (s.mode < MODE_M → priv_instr cfg s 0x302 src = .trap .EX_II s) := by
  constructor
  · intro hmode
    have hm : ¬ s.mode < MODE_M := by rw [hmode]; decide
    refine ⟨_, by rw [priv_instr_mret cfg s src hu, priv_mret_eq cfg s hm], ?_⟩
    simp only [mstatus_mie, mstatus_mpie, mstatus_mpp, mstatus_mprv, mstatus_mpv]
    cases hh : cfg.RVH <;> by_cases hp : getf (s.csr_array mstatus) 11 2 = MODE_M
    all_goals
      refine ⟨?_, ?_, ?_, ?_, ?_, ?_, ?_, ?_, ?_, ?_⟩
    all_goals
      first
      | (intro i hi h3 h7 h11 h12 h17 h39
         have k39 : cfg.RVH = true → i ≠ 39 := fun h =>
           h39 (by first | rfl | (rw [hh] at h; exact h))
         simp only [hh, hq, hp, State.set, State.call, set_sys_state_flag, if_true, if_false,
           Bool.false_eq_true, not_true_eq_false, not_false_eq_true, ne_eq]
         first
         | (have k := k39 hh
            repeat rw [testBit_setf_other _ _ _ _ _ hi (by omega)])
         | (repeat rw [testBit_setf_other _ _ _ _ _ hi (by omega)]))
      | (intro a ha
         simp [hh, hq, hp, State.set, State.call, set_sys_state_flag, ha])
      | (simp [hh, hq, hp, State.set, State.call, set_sys_state_flag, mstatus_mie, mstatus_mpie,
           mstatus_mpp, mstatus_mprv, mstatus_mpv, getf_setf_same, getf_setf_disjoint,
           getf_one_mod, getf_one_lt, MODE_U])
  · intro hmode
    rw [priv_instr_mret cfg s src hu]
    simp [priv_mret, hmode]

/-- Witness of C14: mret on the sample machine, which is in machine mode. -/
theorem C14_mret_witness :
    (Config.plain.MODE_USER = false ∧ Config.plain.DIFFTEST_REF_QEMU = false
      ∧ State.reset.mode = MODE_M)
    ∧ ((State.reset.mode = MODE_M →
      ∃ s1 : State, priv_instr Config.plain State.reset 0x302 0
          = .ok (State.reset.csr_array mepc) s1
        ∧ mstatus_mie (s1.csr_array mstatus) = mstatus_mpie (State.reset.csr_array mstatus)
        ∧ mstatus_mpie (s1.csr_array mstatus) = 1
        ∧ s1.mode = mstatus_mpp (State.reset.csr_array mstatus)
        ∧ mstatus_mpp (s1.csr_array mstatus) = MODE_U
        ∧ mstatus_mprv (s1.csr_array mstatus) =
            (if mstatus_mpp (State.reset.csr_array mstatus) ≠ MODE_M then 0
             else mstatus_mprv (State.reset.csr_array mstatus))
        ∧ (Config.plain.RVH = true →
            s1.v = mstatus_mpv (State.reset.csr_array mstatus)
            ∧ mstatus_mpv (s1.csr_array mstatus) = 0
            ∧ s1.sys_state_flag .SYS_STATE_FLUSH_TCACHE = true)
        ∧ (Config.plain.RVH = false →
            s1.v = State.reset.v ∧ s1.sys_state_flag = State.reset.sys_state_flag)
        ∧ (∀ i : Nat, i < 64 → i ≠ 3 → i ≠ 7 → i ≠ 11 → i ≠ 12 → i ≠ 17 →
            (Config.plain.RVH = true → i ≠ 39) →
            (s1.csr_array mstatus).testBit i = (State.reset.csr_array mstatus).testBit i)
        ∧ (∀ a : Nat, a ≠ mstatus → s1.csr_array a = State.reset.csr_array a)
        ∧ s1.calls = State.reset.calls ++ [.update_mmu_state])
    ∧ (State.reset.mode < MODE_M →
        priv_instr Config.plain State.reset 0x302 0 = .trap .EX_II State.reset)) :=
  ⟨⟨rfl, rfl, rfl⟩, C14_mret Config.plain State.reset 0 rfl rfl⟩

/-! ### C15: sret in a guest -/

theorem priv_instr_sret_virt (cfg : Config) (s : State) (src : Nat)
    (hh : cfg.RVH = true) (hu : cfg.MODE_USER = false) (hv : s.v = 1) :
    priv_instr cfg s 0x102 src = priv_sret_virt s := by
  simp [priv_instr, priv_sret, hh, hu, hv]

/-- Counterexample to C15 as stated. In the hypervisor build, sret executed by a guest in
supervisor mode with `hstatus.vtsr` clear returns `vsepc`, but `mstatus.mprv` is still set
afterwards and the call log is still empty: no `update_mmu_state` has been requested. -/
theorem C15_guest_sret_no_refresh :
    Config.hyp.RVH = true ∧ State.guest_sret.v = 1 ∧ State.guest_sret.mode = MODE_S
    ∧ hstatus_vtsr (State.guest_sret.csr_array hstatus) = 0
    ∧ mstatus_mprv (State.guest_sret.csr_array mstatus) = 1
    ∧ State.guest_sret.calls = []
    ∧ (priv_instr Config.hyp State.guest_sret 0x102 0).value = some 0x1000
    ∧ mstatus_mprv ((priv_instr Config.hyp State.guest_sret 0x102 0).state.csr_array mstatus)
        = 1
    ∧ (priv_instr Config.hyp State.guest_sret 0x102 0).state.calls = [] := by
  rw [priv_instr_sret_virt _ _ _ rfl rfl rfl]
  refine ⟨rfl, rfl, rfl, by decide, by decide, rfl, ?_, ?_, ?_⟩
  · decide
  · decide
  · decide

/-- C15, amended. In a hypervisor build, for every guest state (`cpu.v = 1`) in supervisor
mode with `hstatus.vtsr` clear, sret sets `vsstatus.SIE` (bit 1) to the old `vsstatus.SPIE`
(bit 5), `SPIE` to 1, the current mode to the old `vsstatus.SPP` (bit 8), `SPP` to user, and
returns the stored `vsepc`; the other bits of `vsstatus`, every other CSR (`mstatus` and its
MPRV bit included), `cpu.v` and the call log are unchanged, so no MMU-state refresh is
requested. -/
theorem C15_guest_sret (cfg : Config) (s : State) (src : Nat)
    (hh : cfg.RVH = true) (hu : cfg.MODE_USER = false) (hv : s.v = 1)
    (hm : s.mode = MODE_S) (ht : hstatus_vtsr (s.csr_array hstatus) = 0) :
    ∃ s1 : State, priv_instr cfg s 0x102 src = .ok (s.csr_array vsepc) s1
      ∧ getf (s1.csr_array vsstatus) 1 1 = getf (s.csr_array vsstatus) 5 1
      ∧ getf (s1.csr_array vsstatus) 5 1 = 1
      ∧ s1.mode = getf (s.csr_array vsstatus) 8 1
      ∧ getf (s1.csr_array vsstatus) 8 1 = MODE_U
      ∧ (∀ i : Nat, i < 64 → i ≠ 1 → i ≠ 5 → i ≠ 8 →
          (s1.csr_array vsstatus).testBit i = (s.csr_array vsstatus).testBit i)
      ∧ (∀ a : Nat, a ≠ vsstatus → s1.csr_array a = s.csr_array a)
      ∧ s1.v = s.v ∧ s1.calls = s.calls ∧ s1.sys_state_flag = s.sys_state_flag := by
  have hc : ¬ ((s.mode = MODE_S ∧ hstatus_vtsr (s.csr_array hstatus) ≠ 0) ∨ s.mode < MODE_S) := by
    rw [hm, ht]; decide
  have e1 : (vsepc = vsstatus) = False := by simp [vsepc, vsstatus]
  have hres : priv_instr cfg s 0x102 src = .ok (s.csr_array vsepc)
      (({ s with mode := getf (s.csr_array vsstatus) 8 1 }).set vsstatus
        (setf (setf (setf (s.csr_array vsstatus) 8 1 MODE_U) 1 1
          (getf (setf (s.csr_array vsstatus) 8 1 MODE_U) 5 1)) 5 1 1)) := by
    rw [priv_instr_sret_virt cfg s src hh hu hv]
    simp [priv_sret_virt, hc, State.set, e1]
  refine ⟨_, hres, ?_, ?_, rfl, ?_, ?_, ?_, rfl, rfl, rfl⟩
  · simp [State.set, getf_setf_same, getf_setf_disjoint, getf_one_mod, getf_one_lt]
  · simp [State.set, getf_setf_same, getf_setf_disjoint]
  · simp [State.set, getf_setf_same, getf_setf_disjoint, MODE_U]
  · intro i hi h1 h5 h8
    simp only [State.set, if_true]
    repeat rw [testBit_setf_other _ _ _ _ _ hi (by omega)]
  · intro a ha
    simp [State.set, ha]

/-- Witness of the amended C15: sret on the sample guest. -/
theorem C15_guest_sret_witness :
    (Config.hyp.RVH = true ∧ Config.hyp.MODE_USER = false ∧ State.guest_sret.v = 1
      ∧ State.guest_sret.mode = MODE_S
      ∧ hstatus_vtsr (State.guest_sret.csr_array hstatus) = 0)
    ∧ ∃ s1 : State, priv_instr Config.hyp State.guest_sret 0x102 0
          = .ok (State.guest_sret.csr_array vsepc) s1
      ∧ getf (s1.csr_array vsstatus) 1 1 = getf (State.guest_sret.csr_array vsstatus) 5 1
      ∧ getf (s1.csr_array vsstatus) 5 1 = 1
      ∧ s1.mode = getf (State.guest_sret.csr_array vsstatus) 8 1
      ∧ getf (s1.csr_array vsstatus) 8 1 = MODE_U
      ∧ (∀ i : Nat, i < 64 → i ≠ 1 → i ≠ 5 → i ≠ 8 →
          (s1.csr_array vsstatus).testBit i
            = (State.guest_sret.csr_array vsstatus).testBit i)
      ∧ (∀ a : Nat, a ≠ vsstatus → s1.csr_array a = State.guest_sret.csr_array a)
      ∧ s1.v = State.guest_sret.v ∧ s1.calls = State.guest_sret.calls
      ∧ s1.sys_state_flag = State.guest_sret.sys_state_flag :=
  ⟨⟨rfl, rfl, rfl, rfl, by decide⟩,
   C15_guest_sret Config.hyp State.guest_sret 0 rfl rfl rfl rfl (by decide)⟩

/-! ### C16: reads of the PMP address registers -/

/-- C16. In a build with the PMP registers, for every PMP index `i` below 64: when `i` is
active (`i < CONFIG_RV_PMP_ACTIVE_NUM`) a read of `pmpaddr[i]` returns `s | (~T >> 1)` if the
addressing-mode field of the entry's configuration byte satisfies `(cfg & PMP_A) >= PMP_NAPOT`
and `s & T` otherwise, where `s` is the stored word and
`T = -(1 << (CONFIG_PMP_GRANULARITY - PMP_SHIFT))` as a 64-bit word; when `i` is inactive the
read returns 0 whatever is stored. The read changes nothing. -/
theorem C16_pmpaddr_read (cfg : Config) (s : State) (i : Nat)
    (hp : cfg.RV_PMP_CSR = true) (hi : i < CSR_PMPADDR_MAX_NUM) :
    csr_read cfg s (CSR_PMPADDR_BASE + i) =
      .ok (if i < cfg.RV_PMP_ACTIVE_NUM then
            (if pmpcfg_from_index s i &&& PMP_A ≥ PMP_NAPOT then
              s.csr_array (CSR_PMPADDR_BASE + i)
                ||| (wnot (wsub 0 (wshl 1 (cfg.PMP_GRANULARITY - PMP_SHIFT))) >>> 1)
             else
              s.csr_array (CSR_PMPADDR_BASE + i)
                &&& wsub 0 (wshl 1 (cfg.PMP_GRANULARITY - PMP_SHIFT)))
           else 0) s := by
  have hr : is_pmpaddr (CSR_PMPADDR_BASE + i) = true := by
    simp only [CSR_PMPADDR_MAX_NUM] at hi
    simp [is_pmpaddr, CSR_PMPADDR_BASE, CSR_PMPADDR_MAX_NUM]
    omega
  have hidx : CSR_PMPADDR_BASE + i - CSR_PMPADDR_BASE = i := by omega
  simp only [csr_read, hp, hr, and_self, if_true, csr_read_pmpaddr, hidx, pmp_tor_mask]
  by_cases ha : i < cfg.RV_PMP_ACTIVE_NUM
  · have : ¬ i ≥ cfg.RV_PMP_ACTIVE_NUM := by omega
    simp only [ha, this, if_true, if_false]
  · have : i ≥ cfg.RV_PMP_ACTIVE_NUM := by omega
    simp only [ha, this, if_true, if_false]

/-- Witness of C16: reading `pmpaddr0` on the sample machine. -/
theorem C16_pmpaddr_read_witness :
    (Config.plain.RV_PMP_CSR = true ∧ 0 < CSR_PMPADDR_MAX_NUM)
    ∧ csr_read Config.plain State.reset (CSR_PMPADDR_BASE + 0) =
      .ok (if 0 < Config.plain.RV_PMP_ACTIVE_NUM then
            (if pmpcfg_from_index State.reset 0 &&& PMP_A ≥ PMP_NAPOT then
              State.reset.csr_array (CSR_PMPADDR_BASE + 0)
                ||| (wnot (wsub 0 (wshl 1 (Config.plain.PMP_GRANULARITY - PMP_SHIFT))) >>> 1)
             else
              State.reset.csr_array (CSR_PMPADDR_BASE + 0)
                &&& wsub 0 (wshl 1 (Config.plain.PMP_GRANULARITY - PMP_SHIFT)))
           else 0) State.reset :=
  ⟨⟨rfl, by decide⟩, C16_pmpaddr_read Config.plain State.reset 0 rfl (by decide)⟩

/-! ### C17: legal values of the PMP configuration bytes -/

set_option maxRecDepth 100000 in
theorem pmpcfg_legal_variant_props :
    ∀ (ext coarse : Bool) (b : Fin 256),
      (pmpcfg_legal (Config.pmp_variant ext coarse) b.val 0 &&& PMP_W ≠ 0 →
        pmpcfg_legal (Config.pmp_variant ext coarse) b.val 0 &&& PMP_R ≠ 0)
      ∧ (b.val &&& PMP_R = 0 →
        pmpcfg_legal (Config.pmp_variant ext coarse) b.val 0 &&& PMP_W = 0)
      ∧ (ext = false →
        pmpcfg_legal (Config.pmp_variant ext coarse) b.val 0
            &&& (PMP_R ||| PMP_W ||| PMP_X ||| PMP_A ||| PMP_L)
          = pmpcfg_legal (Config.pmp_variant ext coarse) b.val 0)
      ∧ (coarse = true →
        pmpcfg_legal (Config.pmp_variant ext coarse) b.val 0 &&& PMP_A ≠ PMP_NA4)
      ∧ (coarse = true → b.val &&& PMP_A = PMP_NA4 →
        pmpcfg_legal (Config.pmp_variant ext coarse) b.val 0 &&& PMP_A = PMP_NAPOT) := by
  decide

theorem pmpcfg_legal_congr (cfg : Config) (src i : Nat) :
    pmpcfg_legal cfg src i =
      pmpcfg_legal (Config.pmp_variant cfg.PMPTABLE_EXTENSION
        (decide (cfg.PMP_GRANULARITY ≠ PMP_SHIFT))) src i := by
  by_cases hg : cfg.PMP_GRANULARITY = PMP_SHIFT
  · cases he : cfg.PMPTABLE_EXTENSION <;>
    simp [pmpcfg_legal, Config.pmp_variant, Config.plain, hg, he]
  · have h12 : (12 : Nat) ≠ PMP_SHIFT := by decide
    cases he : cfg.PMPTABLE_EXTENSION <;>
    simp [pmpcfg_legal, Config.pmp_variant, Config.plain, hg, he, h12]

theorem pmpcfg_legal_byte (cfg : Config) (src i : Nat) :
    pmpcfg_legal cfg src i = pmpcfg_legal cfg ((src >>> (i * 8)) % 256) 0 := by
  have hff : ∀ x : Nat, x &&& 0xff = x % 256 := fun x => Nat.and_pow_two_sub_one_eq_mod x 8
  simp only [pmpcfg_legal, hff, Nat.zero_mul, Nat.shiftRight_zero, Nat.mod_mod]

theorem pmpcfg_legal_props (cfg : Config) (src i : Nat) :
    (pmpcfg_legal cfg src i &&& PMP_W ≠ 0 → pmpcfg_legal cfg src i &&& PMP_R ≠ 0)
    ∧ ((src >>> (i * 8)) % 256 &&& PMP_R = 0 → pmpcfg_legal cfg src i &&& PMP_W = 0)
    ∧ (cfg.PMPTABLE_EXTENSION = false →
        pmpcfg_legal cfg src i &&& (PMP_R ||| PMP_W ||| PMP_X ||| PMP_A ||| PMP_L)
          = pmpcfg_legal cfg src i)
    ∧ (cfg.PMP_GRANULARITY ≠ PMP_SHIFT → pmpcfg_legal cfg src i &&& PMP_A ≠ PMP_NA4)
    ∧ (cfg.PMP_GRANULARITY ≠ PMP_SHIFT → (src >>> (i * 8)) % 256 &&& PMP_A = PMP_NA4 →
        pmpcfg_legal cfg src i &&& PMP_A = PMP_NAPOT) := by
  have hb : (src >>> (i * 8)) % 256 < 256 := Nat.mod_lt _ (by decide)
  have key := pmpcfg_legal_variant_props cfg.PMPTABLE_EXTENSION
    (decide (cfg.PMP_GRANULARITY ≠ PMP_SHIFT)) ⟨(src >>> (i * 8)) % 256, hb⟩
  rw [pmpcfg_legal_byte cfg src i, pmpcfg_legal_congr cfg]
  obtain ⟨k1, k2, k3, k4, k5⟩ := key
  refine ⟨k1, k2, k3, ?_, ?_⟩
  · intro hg
    exact k4 (by simpa using hg)
  · intro hg
    exact k5 (by simpa using hg)

theorem pmpcfg_loop_lt (cfg : Config) (idx_base src : Nat) :
    ∀ (n i acc : Nat), acc < 2 ^ (8 * i) →
      ∀ j : Nat, i ≤ j → idx_base + j ≥ cfg.RV_PMP_ACTIVE_NUM →
      (pmpcfg_loop cfg idx_base src n i acc >>> (8 * j)) % 256 = 0 := by
  intro n
  induction n with
  | zero =>
    intro i acc hacc j hij _
    have : acc < 2 ^ (8 * j) :=
      Nat.lt_of_lt_of_le hacc (Nat.pow_le_pow_right (by decide) (by omega))
    simp [pmpcfg_loop, Nat.shiftRight_eq_div_pow, Nat.div_eq_of_lt this]
  | succ n ih =>
    intro i acc hacc j hij hj
    unfold pmpcfg_loop
    split
    · have : acc < 2 ^ (8 * j) :=
        Nat.lt_of_lt_of_le hacc (Nat.pow_le_pow_right (by decide) (by omega))
      simp [Nat.shiftRight_eq_div_pow, Nat.div_eq_of_lt this]
    · exact ih (i + 1) _ (or_wshl_lt acc _ i hacc (pmpcfg_legal_lt cfg src i)) j (by omega) hj

theorem pmpcfg_written_byte (cfg : Config) (s : State) (src idx : Nat) :
    pmpcfg_from_index
        ((s.set (CSR_PMPCFG_BASE + idx / 8 * 2)
          (pmpcfg_write_val cfg (CSR_PMPCFG_BASE + idx / 8 * 2) src)).call (.mmu_tlb_flush 0))
        idx =
      if idx < cfg.RV_PMP_ACTIVE_NUM then pmpcfg_legal cfg src (idx % 8) else 0 := by
  have hb : (CSR_PMPCFG_BASE + idx / 8 * 2 - CSR_PMPCFG_BASE) * 4 + idx % 8 = idx := by
    simp only [CSR_PMPCFG_BASE]; omega
  simp only [pmpcfg_from_index, State.call, State.set, if_true, pmpcfg_write_val]
  by_cases hact : idx < cfg.RV_PMP_ACTIVE_NUM
  · rw [if_pos hact]
    exact pmpcfg_loop_at cfg _ src (64 / 8) 0 0 (idx % 8) (by decide) (by decide) (by omega)
      (by omega) (by rw [hb]; exact hact)
  · rw [if_neg hact]
    exact pmpcfg_loop_lt cfg _ src (64 / 8) 0 0 (by decide) (idx % 8) (by omega)
      (by rw [hb]; omega)

/-- C17. In a build with the PMP registers, after a write of any value `src` to the `pmpcfg`
register that holds entry `idx` (`idx < 64`): the byte of an inactive entry is zero; the byte
`b` of an active entry never has W without R (and W is clear whenever the requested byte had
R clear), has no bit outside `R|W|X|A|L` in a build without the PMP-table extension, and,
when `CONFIG_PMP_GRANULARITY` differs from `PMP_SHIFT`, never has addressing mode NA4 (a
requested NA4 is stored as NAPOT). -/
theorem C17_pmpcfg_bytes_legal (cfg : Config) (s : State) (src idx : Nat)
    (hp : cfg.RV_PMP_CSR = true) (h64 : idx < 64) :
    ∃ s1 : State, csr_write cfg s (CSR_PMPCFG_BASE + idx / 8 * 2) src = .ok () s1
      ∧ (idx ≥ cfg.RV_PMP_ACTIVE_NUM → pmpcfg_from_index s1 idx = 0)
      ∧ (idx < cfg.RV_PMP_ACTIVE_NUM →
          (pmpcfg_from_index s1 idx &&& PMP_W ≠ 0 → pmpcfg_from_index s1 idx &&& PMP_R ≠ 0)
          ∧ ((src >>> (idx % 8 * 8)) % 256 &&& PMP_R = 0 →
              pmpcfg_from_index s1 idx &&& PMP_W = 0)
          ∧ (cfg.PMPTABLE_EXTENSION = false →
              pmpcfg_from_index s1 idx &&& (PMP_R ||| PMP_W ||| PMP_X ||| PMP_A ||| PMP_L)
                = pmpcfg_from_index s1 idx)
          ∧ (cfg.PMP_GRANULARITY ≠ PMP_SHIFT → pmpcfg_from_index s1 idx &&& PMP_A ≠ PMP_NA4)
          ∧ (cfg.PMP_GRANULARITY ≠ PMP_SHIFT →
              (src >>> (idx % 8 * 8)) % 256 &&& PMP_A = PMP_NA4 →
              pmpcfg_from_index s1 idx &&& PMP_A = PMP_NAPOT)) := by
  have hd : is_pmpcfg (CSR_PMPCFG_BASE + idx / 8 * 2) = true := by
    simp [is_pmpcfg, CSR_PMPCFG_BASE, CSR_PMPCFG_MAX_NUM]; omega
  refine ⟨_, csr_write_pmpcfg_eq cfg s _ src hp hd, ?_, ?_⟩
  · intro hin
    rw [pmpcfg_written_byte cfg s src idx, if_neg (by omega)]
  · intro hact
    rw [pmpcfg_written_byte cfg s src idx, if_pos hact]
    exact pmpcfg_legal_props cfg src (idx % 8)

/-- Witness of C17: on the sample build (16 active entries, 4 KiB granularity) the value
`0x12` (W without R, mode NA4) is written to `pmpcfg0`; entry 0 is active. -/
theorem C17_pmpcfg_bytes_legal_witness :
    (Config.plain.RV_PMP_CSR = true ∧ 0 < 64 ∧ 0 < Config.plain.RV_PMP_ACTIVE_NUM
      ∧ Config.plain.PMPTABLE_EXTENSION = false ∧ Config.plain.PMP_GRANULARITY ≠ PMP_SHIFT
      ∧ (0x12 >>> (0 % 8 * 8)) % 256 &&& PMP_R = 0
      ∧ (0x12 >>> (0 % 8 * 8)) % 256 &&& PMP_A = PMP_NA4)
    ∧ ∃ s1 : State, csr_write Config.plain State.reset (CSR_PMPCFG_BASE + 0 / 8 * 2) 0x12
          = .ok () s1
      ∧ (0 ≥ Config.plain.RV_PMP_ACTIVE_NUM → pmpcfg_from_index s1 0 = 0)
      ∧ (0 < Config.plain.RV_PMP_ACTIVE_NUM →
          (pmpcfg_from_index s1 0 &&& PMP_W ≠ 0 → pmpcfg_from_index s1 0 &&& PMP_R ≠ 0)
          ∧ ((0x12 >>> (0 % 8 * 8)) % 256 &&& PMP_R = 0 →
              pmpcfg_from_index s1 0 &&& PMP_W = 0)
          ∧ (Config.plain.PMPTABLE_EXTENSION = false →
              pmpcfg_from_index s1 0 &&& (PMP_R ||| PMP_W ||| PMP_X ||| PMP_A ||| PMP_L)
                = pmpcfg_from_index s1 0)
          ∧ (Config.plain.PMP_GRANULARITY ≠ PMP_SHIFT →
              pmpcfg_from_index s1 0 &&& PMP_A ≠ PMP_NA4)
          ∧ (Config.plain.PMP_GRANULARITY ≠ PMP_SHIFT →
              (0x12 >>> (0 % 8 * 8)) % 256 &&& PMP_A = PMP_NA4 →
              pmpcfg_from_index s1 0 &&& PMP_A = PMP_NAPOT)) :=
  ⟨⟨rfl, by decide, by decide, rfl, by decide, by decide, by decide⟩,
   C17_pmpcfg_bytes_legal Config.plain State.reset 0x12 0 rfl (by decide)⟩

/-! ### C18: consistency of fflags, frm and fcsr -/

theorem and_ff (x : Nat) : x &&& 0xff = x % 2 ^ 8 := Nat.and_pow_two_sub_one_eq_mod x 8

theorem and_1f (x : Nat) : x &&& 0x1f = x % 2 ^ 5 := Nat.and_pow_two_sub_one_eq_mod x 5

theorem and_07 (x : Nat) : x &&& 0x07 = x % 2 ^ 3 := Nat.and_pow_two_sub_one_eq_mod x 3

theorem wshl_five_small (x : Nat) (hx : x ≤ 0x7) : wshl x 5 = x <<< 5 := by
  unfold wshl
  rw [Nat.shiftLeft_eq]
  apply Nat.mod_eq_of_lt
  have : x * 2 ^ 5 ≤ 7 * 2 ^ 5 := Nat.mul_le_mul_right _ hx
  omega

theorem fcsr_split (v : Nat) :
    v % 2 ^ 8 = (((v >>> 5) % 2 ^ 3) <<< 5) ||| (v % 2 ^ 5) := by
  apply Nat.eq_of_testBit_eq
  intro i
  rw [Nat.testBit_or, Nat.testBit_shiftLeft, Nat.testBit_mod_two_pow, Nat.testBit_mod_two_pow,
    Nat.testBit_mod_two_pow, Nat.testBit_shiftRight]
  by_cases h5 : i < 5
  · have h8 : i < 8 := by omega
    have h : ¬ i ≥ 5 := by omega
    simp [h5, h8, h]
  · by_cases h8 : i < 8
    · have h : i ≥ 5 := by omega
      have h3 : i - 5 < 3 := by omega
      have e : 5 + (i - 5) = i := by omega
      simp [h5, h8, h, h3, e]
    · have h3 : ¬ i - 5 < 3 := by omega
      simp [h5, h8, h3]

theorem fcsr_low (v : Nat) : getf (v % 2 ^ 8) 0 5 % 2 ^ 5 = v % 2 ^ 5 := by
  apply Nat.eq_of_testBit_eq
  intro i
  rw [Nat.testBit_mod_two_pow, testBit_getf, Nat.testBit_mod_two_pow, Nat.testBit_mod_two_pow]
  by_cases h5 : i < 5
  · have h8 : i < 8 := by omega
    simp [h5, h8]
  · simp [h5]

theorem fcsr_high (v : Nat) : getf (v % 2 ^ 8) 5 3 % 2 ^ 3 = (v >>> 5) % 2 ^ 3 := by
  apply Nat.eq_of_testBit_eq
  intro i
  rw [Nat.testBit_mod_two_pow, testBit_getf, Nat.testBit_mod_two_pow, Nat.testBit_mod_two_pow,
    Nat.testBit_shiftRight]
  by_cases h3 : i < 3
  · have h8 : 5 + i < 8 := by omega
    simp [h3, h8]
  · simp [h3]

theorem csr_write_fflags_eq (cfg : Config) (s : State) (v : Nat) (hF : cfg.FPU_NONE = false) :
    csr_write cfg s fflags v =
      .ok () (update_mstatus_sd cfg
        ((((s.set fflags (v &&& FFLAGS_MASK)).set fcsr
            (wshl (s.csr_array frm) 5 ||| (v &&& FFLAGS_MASK))).call .fp_set_dirty).call
          (.fp_update_rm_cache
            (getf (wshl (s.csr_array frm) 5 ||| (v &&& FFLAGS_MASK)) 5 3)))) := by
  cases hh : cfg.RVH <;> cases hv : cfg.RVV <;> cases hm : cfg.MISA_UNCHANGEABLE <;>
    cases hi : cfg.RV_CSR_MCOUNTINHIBIT <;>
  simp [csr_write, csr_write_dispatch, csr_write_h, csr_write_chain, csr_write_post, Res.bind,
    hh, hv, hm, hi, hF, State.set, State.call,
    sstatus, sie, stvec, sscratch, sepc, scause, stval, sip, satp,
    mideleg, hideleg, hie, hip, hvip, hstatus, vsstatus, vsie, vsip, vstvec, vsscratch,
    vsepc, vscause, vstval, vsatp, mstatus, hcounteren, scounteren, mcounteren,
    mcountinhibit, mcycle, minstret, mie, mip, mtvec, medeleg, vcsr, vxrm, vxsat, misa, mepc,
    fflags, frm, fcsr, hgatp, vstart]

theorem csr_write_frm_eq (cfg : Config) (s : State) (v : Nat) (hF : cfg.FPU_NONE = false) :
    csr_write cfg s frm v =
      .ok () (update_mstatus_sd cfg
        ((((s.set frm (v &&& FRM_MASK)).set fcsr
            (wshl (v &&& FRM_MASK) 5 ||| s.csr_array fflags)).call .fp_set_dirty).call
          (.fp_update_rm_cache
            (getf (wshl (v &&& FRM_MASK) 5 ||| s.csr_array fflags) 5 3)))) := by
  cases hh : cfg.RVH <;> cases hv : cfg.RVV <;> cases hm : cfg.MISA_UNCHANGEABLE <;>
    cases hi : cfg.RV_CSR_MCOUNTINHIBIT <;>
  simp [csr_write, csr_write_dispatch, csr_write_h, csr_write_chain, csr_write_post, Res.bind,
    hh, hv, hm, hi, hF, State.set, State.call,
    sstatus, sie, stvec, sscratch, sepc, scause, stval, sip, satp,
    mideleg, hideleg, hie, hip, hvip, hstatus, vsstatus, vsie, vsip, vstvec, vsscratch,
    vsepc, vscause, vstval, vsatp, mstatus, hcounteren, scounteren, mcounteren,
    mcountinhibit, mcycle, minstret, mie, mip, mtvec, medeleg, vcsr, vxrm, vxsat, misa, mepc,
    fflags, frm, fcsr, hgatp, vstart]

theorem csr_write_fcsr_eq (cfg : Config) (s : State) (v : Nat) (hF : cfg.FPU_NONE = false) :
    csr_write cfg s fcsr v =
      .ok () (update_mstatus_sd cfg
        (((((s.set fcsr (v &&& FCSR_MASK)).set fflags (v &&& FFLAGS_MASK)).set frm
            ((v >>> 5) &&& FRM_MASK)).call .fp_set_dirty).call
          (.fp_update_rm_cache (getf (v &&& FCSR_MASK) 5 3)))) := by
  cases hh : cfg.RVH <;> cases hv : cfg.RVV <;> cases hm : cfg.MISA_UNCHANGEABLE <;>
    cases hi : cfg.RV_CSR_MCOUNTINHIBIT <;>
  simp [csr_write, csr_write_dispatch, csr_write_h, csr_write_chain, csr_write_post, Res.bind,
    hh, hv, hm, hi, hF, State.set, State.call,
    sstatus, sie, stvec, sscratch, sepc, scause, stval, sip, satp,
    mideleg, hideleg, hie, hip, hvip, hstatus, vsstatus, vsie, vsip, vstvec, vsscratch,
    vsepc, vscause, vstval, vsatp, mstatus, hcounteren, scounteren, mcounteren,
    mcountinhibit, mcycle, minstret, mie, mip, mtvec, medeleg, vcsr, vxrm, vxsat, misa, mepc,
    fflags, frm, fcsr, hgatp, vstart]

theorem csr_read_fcsr_eq (cfg : Config) (s : State) (hF : cfg.FPU_NONE = false) :
    csr_read cfg s fcsr = .ok (s.csr_array fcsr &&& FCSR_MASK) s
    ∧ csr_read cfg s fflags = .ok (getf (s.csr_array fcsr) 0 5 &&& FFLAGS_MASK) s
    ∧ csr_read cfg s frm = .ok (getf (s.csr_array fcsr) 5 3 &&& FRM_MASK) s := by
  refine ⟨?_, ?_, ?_⟩ <;> cases hh : cfg.RVH <;> cases hv : cfg.RVV <;>
  simp [csr_read, csr_read_virt, csr_read_h, csr_read_common, is_pmpaddr,
    hh, hv, hF, CSR_PMPADDR_BASE, CSR_PMPADDR_MAX_NUM,
    sstatus, sie, stvec, sscratch, sepc, scause, stval, sip, satp, mideleg,
    hideleg, hie, hip, hvip, hstatus, vsstatus, vsie, vsip, hgeip, hgeie, mstatus, mie, mip,
    mtvec, vcsr, vlenb, fflags, frm, fcsr]

/-- C18. In a build with the floating-point registers (`CONFIG_FPU_NONE` undefined), the
predicate `fflags <= 0x1f`, `frm <= 0x7` and `fcsr = (frm << 5) | fflags` on the three stored
registers is preserved by every write to `fflags` and to `frm`, and holds after every write
to `fcsr`; after writing `v` to `fcsr`, reads of `fcsr`, `fflags` and `frm` return
`v & 0xff`, `v & 0x1f` and `(v >> 5) & 0x7`. -/
theorem C18_fcsr_consistency (cfg : Config) (s : State) (v : Nat)
    (hF : cfg.FPU_NONE = false) :
    ((s.csr_array fflags ≤ 0x1f ∧ s.csr_array frm ≤ 0x7
        ∧ s.csr_array fcsr = (s.csr_array frm <<< 5) ||| s.csr_array fflags) →
      ∃ s1 : State, csr_write cfg s fflags v = .ok () s1
        ∧ s1.csr_array fflags ≤ 0x1f ∧ s1.csr_array frm ≤ 0x7
        ∧ s1.csr_array fcsr = (s1.csr_array frm <<< 5) ||| s1.csr_array fflags)
    ∧ ((s.csr_array fflags ≤ 0x1f ∧ s.csr_array frm ≤ 0x7
        ∧ s.csr_array fcsr = (s.csr_array frm <<< 5) ||| s.csr_array fflags) →
      ∃ s1 : State, csr_write cfg s frm v = .ok () s1
        ∧ s1.csr_array fflags ≤ 0x1f ∧ s1.csr_array frm ≤ 0x7
        ∧ s1.csr_array fcsr = (s1.csr_array frm <<< 5) ||| s1.csr_array fflags)
    ∧ (∃ s1 : State, csr_write cfg s fcsr v = .ok () s1
        ∧ s1.csr_array fflags ≤ 0x1f ∧ s1.csr_array frm ≤ 0x7
        ∧ s1.csr_array fcsr = (s1.csr_array frm <<< 5) ||| s1.csr_array fflags
        ∧ (csr_read cfg s1 fcsr).value = some (v &&& 0xff)
        ∧ (csr_read cfg s1 fflags).value = some (v &&& 0x1f)
        ∧ (csr_read cfg s1 frm).value = some ((v >>> 5) &&& 0x7)) := by
  have hle5 : ∀ x : Nat, x % 2 ^ 5 ≤ 0x1f := fun x => by
    have := Nat.mod_lt x (show 0 < 2 ^ 5 by decide); omega
  have hle3 : ∀ x : Nat, x % 2 ^ 3 ≤ 0x7 := fun x => by
    have := Nat.mod_lt x (show 0 < 2 ^ 3 by decide); omega
  have n1 : (fflags = mstatus) = False := by simp [fflags, mstatus]
  have n2 : (frm = mstatus) = False := by simp [frm, mstatus]
  have n3 : (fcsr = mstatus) = False := by simp [fcsr, mstatus]
  have n4 : (fflags = fcsr) = False := by simp [fflags, fcsr]
  have n5 : (frm = fcsr) = False := by simp [frm, fcsr]
  have n6 : (fflags = frm) = False := by simp [fflags, frm]
  have n7 : (frm = fflags) = False := by simp [fflags, frm]
  have n8 : (fcsr = fflags) = False := by simp [fflags, fcsr]
  have n9 : (fcsr = frm) = False := by simp [frm, fcsr]
  refine ⟨?_, ?_, ?_⟩
  · rintro ⟨_, hfrm, _⟩
    refine ⟨_, csr_write_fflags_eq cfg s v hF, ?_, ?_, ?_⟩
    · simp only [update_mstatus_sd, State.set, State.call, n1, n4, n6, if_true, if_false,
        FFLAGS_MASK, and_1f]
      exact hle5 v
    · simp only [update_mstatus_sd, State.set, State.call, n2, n5, n7, if_true, if_false]
      exact hfrm
    · simp only [update_mstatus_sd, State.set, State.call, n1, n2, n3, n4, n5, n6, n7, if_true,
        if_false, wshl_five_small _ hfrm]
  · rintro ⟨hff, _, _⟩
    refine ⟨_, csr_write_frm_eq cfg s v hF, ?_, ?_, ?_⟩
    · simp only [update_mstatus_sd, State.set, State.call, n1, n4, n6, if_true, if_false]
      exact hff
    · simp only [update_mstatus_sd, State.set, State.call, n2, n5, n7, if_true, if_false,
        FRM_MASK, and_07]
      exact hle3 v
    · simp only [update_mstatus_sd, State.set, State.call, n1, n2, n3, n4, n5, n6, n7, if_true,
        if_false, FRM_MASK, and_07, wshl_five_small _ (hle3 v)]
  · obtain ⟨r1, r2, r3⟩ := csr_read_fcsr_eq cfg (update_mstatus_sd cfg
        (((((s.set fcsr (v &&& FCSR_MASK)).set fflags (v &&& FFLAGS_MASK)).set frm
            ((v >>> 5) &&& FRM_MASK)).call .fp_set_dirty).call
          (.fp_update_rm_cache (getf (v &&& FCSR_MASK) 5 3)))) hF
    refine ⟨_, csr_write_fcsr_eq cfg s v hF, ?_, ?_, ?_, ?_, ?_, ?_⟩
    · simp only [update_mstatus_sd, State.set, State.call, n1, n6, if_true, if_false,
        FFLAGS_MASK, and_1f]
      exact hle5 v
    · simp only [update_mstatus_sd, State.set, State.call, n2, if_true, if_false,
        FRM_MASK, and_07]
      exact hle3 _
    · simp only [update_mstatus_sd, State.set, State.call, n1, n2, n3, n6, n8, n9, if_true,
        if_false, FCSR_MASK, FFLAGS_MASK, FRM_MASK, and_ff, and_1f, and_07]
      exact fcsr_split v
    · rw [r1]
      simp only [Res.value, update_mstatus_sd, State.set, State.call, n3, n8, n9, if_true,
        if_false, FCSR_MASK, and_ff, Nat.mod_mod]
    · rw [r2]
      simp only [Res.value, update_mstatus_sd, State.set, State.call, n3, n8, n9, if_true,
        if_false, FCSR_MASK, FFLAGS_MASK, and_ff, and_1f, fcsr_low]
    · rw [r3]
      simp only [Res.value, update_mstatus_sd, State.set, State.call, n3, n8, n9, if_true,
        if_false, FCSR_MASK, FRM_MASK, and_ff, and_07, fcsr_high]

/-- Witness of C18: the sample machine (all three registers zero) and the value `0xabc`. -/
theorem C18_fcsr_consistency_witness :
    (Config.plain.FPU_NONE = false
      ∧ (State.reset.csr_array fflags ≤ 0x1f ∧ State.reset.csr_array frm ≤ 0x7
        ∧ State.reset.csr_array fcsr
          = (State.reset.csr_array frm <<< 5) ||| State.reset.csr_array fflags))
    ∧ (((State.reset.csr_array fflags ≤ 0x1f ∧ State.reset.csr_array frm ≤ 0x7
        ∧ State.reset.csr_array fcsr
          = (State.reset.csr_array frm <<< 5) ||| State.reset.csr_array fflags) →
      ∃ s1 : State, csr_write Config.plain State.reset fflags 0xabc = .ok () s1
        ∧ s1.csr_array fflags ≤ 0x1f ∧ s1.csr_array frm ≤ 0x7
        ∧ s1.csr_array fcsr = (s1.csr_array frm <<< 5) ||| s1.csr_array fflags)
    ∧ ((State.reset.csr_array fflags ≤ 0x1f ∧ State.reset.csr_array frm ≤ 0x7
        ∧ State.reset.csr_array fcsr
          = (State.reset.csr_array frm <<< 5) ||| State.reset.csr_array fflags) →
      ∃ s1 : State, csr_write Config.plain State.reset frm 0xabc = .ok () s1
        ∧ s1.csr_array fflags ≤ 0x1f ∧ s1.csr_array frm ≤ 0x7
        ∧ s1.csr_array fcsr = (s1.csr_array frm <<< 5) ||| s1.csr_array fflags)
    ∧ (∃ s1 : State, csr_write Config.plain State.reset fcsr 0xabc = .ok () s1
        ∧ s1.csr_array fflags ≤ 0x1f ∧ s1.csr_array frm ≤ 0x7
        ∧ s1.csr_array fcsr = (s1.csr_array frm <<< 5) ||| s1.csr_array fflags
        ∧ (csr_read Config.plain s1 fcsr).value = some (0xabc &&& 0xff)
        ∧ (csr_read Config.plain s1 fflags).value = some (0xabc &&& 0x1f)
        ∧ (csr_read Config.plain s1 frm).value = some ((0xabc >>> 5) &&& 0x7))) :=
  ⟨⟨rfl, by decide⟩, C18_fcsr_consistency Config.plain State.reset 0xabc rfl⟩

/-! ### C19: the machine performance-monitor counters and event selectors -/

theorem mhpm_range (a : Nat) (ha : is_mhpmcounter a = true ∨ is_mhpmevent a = true) :
    (0xb03 ≤ a ∧ a < 0xb20) ∨ (0x323 ≤ a ∧ a < 0x340) := by
  rcases ha with h | h
  · left
    simpa [is_mhpmcounter, CSR_MHPMCOUNTER_BASE, CSR_MHPMCOUNTER_NUM] using h
  · right
    simpa [is_mhpmevent, CSR_MHPMEVENT_BASE, CSR_MHPMEVENT_NUM] using h

theorem csr_write_mhpm_eq (cfg : Config) (s : State) (a v : Nat)
    (ha : is_mhpmcounter a = true ∨ is_mhpmevent a = true) :
    csr_write cfg s a v = .ok () s := by
  have hne : ∀ k : Nat, ((k < 0x323 ∨ (0x340 ≤ k ∧ k < 0xb03)) ∨ 0xb20 ≤ k) →
      (a = k) = False := by
    intro k hk
    have := mhpm_range a ha
    simp; omega
  have hpa : is_pmpaddr a = false := by
    have := mhpm_range a ha
    simp [is_pmpaddr, CSR_PMPADDR_BASE, CSR_PMPADDR_MAX_NUM]; omega
  have hpc : is_pmpcfg a = false := by
    have := mhpm_range a ha
    simp [is_pmpcfg, CSR_PMPCFG_BASE, CSR_PMPCFG_MAX_NUM]; omega
  simp [csr_write, csr_write_dispatch, csr_write_h, csr_write_chain, Res.bind,
    ha, hpa, hpc, hne, sstatus, sie, stvec, sscratch, sepc, scause, stval, sip, satp, mideleg,
    hideleg, hie, hip, hvip, hstatus, vsstatus, vsie, vsip, vstvec, vsscratch, vsepc, vscause,
    vstval, vsatp, mstatus, hcounteren, scounteren, mcounteren, mcountinhibit, mcycle,
    minstret, mie, mip, mtvec, medeleg, vcsr, vxrm, vxsat, misa, mepc, fflags, frm, fcsr,
    tselect, tdata1, tdata2, hgatp, vstart]

theorem csr_read_mhpm_eq (cfg : Config) (s : State) (a : Nat)
    (ha : is_mhpmcounter a = true ∨ is_mhpmevent a = true) :
    csr_read cfg s a = .ok (s.csr_array a) s := by
  have hne : ∀ k : Nat, ((k < 0x323 ∨ (0x340 ≤ k ∧ k < 0xb03)) ∨ 0xb20 ≤ k) →
      (a = k) = False := by
    intro k hk
    have := mhpm_range a ha
    simp; omega
  have hpa : is_pmpaddr a = false := by
    have := mhpm_range a ha
    simp [is_pmpaddr, CSR_PMPADDR_BASE, CSR_PMPADDR_MAX_NUM]; omega
  cases hh : cfg.RVH <;>
  simp [csr_read, csr_read_virt, csr_read_h, csr_read_common, csr_read_tail, hpa, hne, hh,
    sstatus, sie, stvec, sscratch, sepc, scause, stval, sip, satp, mideleg,
    hideleg, hie, hip, hvip, hstatus, vsstatus, vsie, vsip, hgeip, hgeie, mstatus, mie, mip,
    mtvec, vcsr, vlenb, fflags, frm, fcsr, mcycle, minstret, cycle, csr_time, instret,
    tdata1, tdata2, tdata3]

theorem frame_set (x : State) (X v a r : Nat) (hX : X ≠ a) (hx : x.csr_array a = r) :
    (x.set X v).csr_array a = r := by
  have : ¬ a = X := fun h => hX h.symm
  simp [State.set, this, hx]

theorem frame_ite (c : Prop) [Decidable c] (x y : State) (a r : Nat)
    (hx : x.csr_array a = r) (hy : y.csr_array a = r) :
    (if c then x else y).csr_array a = r := by
  split_ifs
  · exact hx
  · exact hy

theorem frame_res_ite {α : Type} (c : Prop) [Decidable c] (x y : Res α) (a r : Nat)
    (hx : x.state.csr_array a = r) (hy : y.state.csr_array a = r) :
    (if c then x else y).state.csr_array a = r := by
  split_ifs
  · exact hx
  · exact hy

theorem frame_res_ok {α : Type} (b : α) (x : State) (a r : Nat) (hx : x.csr_array a = r) :
    (Res.ok b x).state.csr_array a = r := hx

theorem frame_res_trap {α : Type} (c : Exc) (x : State) (a r : Nat) (hx : x.csr_array a = r) :
    (Res.trap c x : Res α).state.csr_array a = r := hx

theorem frame_update_mstatus_sd (cfg : Config) (x : State) (a r : Nat) (hm : mstatus ≠ a)
    (hx : x.csr_array a = r) : (update_mstatus_sd cfg x).csr_array a = r :=
  frame_set x mstatus _ a r hm hx

theorem frame_update_vsstatus_sd (x : State) (a r : Nat) (hm : vsstatus ≠ a)
    (hx : x.csr_array a = r) : (update_vsstatus_sd x).csr_array a = r := by
  unfold update_vsstatus_sd
  dsimp only
  split_ifs
  · exact frame_set x vsstatus _ a r hm hx
  · exact frame_set x vsstatus _ a r hm hx

theorem frame_call (x : State) (c : ExtCall) (a r : Nat) (hx : x.csr_array a = r) :
    (x.call c).csr_array a = r := hx

theorem frame_flag (x : State) (f : SysFlag) (a r : Nat) (hx : x.csr_array a = r) :
    (set_sys_state_flag x f).csr_array a = r := hx

theorem mhpm_not_named (a : Nat) (ha : is_mhpmcounter a = true ∨ is_mhpmevent a = true) :
    ∀ k : Nat, ((k < 0x323 ∨ (0x340 ≤ k ∧ k < 0xb03)) ∨ 0xb20 ≤ k) → k ≠ a := by
  intro k hk
  have := mhpm_range a ha
  omega

theorem csr_write_post_frame_mhpm (cfg : Config) (s : State) (dest a : Nat)
    (ha : is_mhpmcounter a = true ∨ is_mhpmevent a = true) :
    (csr_write_post cfg s dest).csr_array a = s.csr_array a := by
  have hN := mhpm_not_named a ha
  unfold csr_write_post
  dsimp only
  repeat' first
    | with_reducible rfl
    | (with_reducible apply hN; decide)
    | with_reducible apply frame_update_mstatus_sd
    | with_reducible apply frame_update_vsstatus_sd
    | with_reducible apply frame_flag
    | with_reducible apply frame_call
    | with_reducible apply frame_set
    | with_reducible apply frame_ite

theorem csr_write_mstatus_frame_mhpm (cfg : Config) (s : State) (v a : Nat)
    (ha : is_mhpmcounter a = true ∨ is_mhpmevent a = true) :
    (csr_write_mstatus cfg s v).csr_array a = s.csr_array a := by
  have hN := mhpm_not_named a ha
  unfold csr_write_mstatus
  dsimp only
  repeat' first
    | with_reducible rfl
    | (with_reducible apply hN; decide)
    | with_reducible apply frame_set
    | with_reducible apply frame_ite

theorem csr_write_mcountinhibit_frame_mhpm (cfg : Config) (s : State) (v a : Nat)
    (ha : is_mhpmcounter a = true ∨ is_mhpmevent a = true) :
    (csr_write_mcountinhibit cfg s v).csr_array a = s.csr_array a := by
  have hN := mhpm_not_named a ha
  unfold csr_write_mcountinhibit update_counter_mcountinhibit
  dsimp only
  repeat' first
    | with_reducible rfl
    | (with_reducible apply hN; decide)
    | with_reducible apply frame_set
    | with_reducible apply frame_ite

theorem csr_write_pmpaddr_frame (cfg : Config) (s : State) (dest v idx a : Nat)
    (hd : dest ≠ a) : (csr_write_pmpaddr cfg s dest v idx).csr_array a = s.csr_array a := by
  unfold csr_write_pmpaddr
  dsimp only
  repeat' first
    | with_reducible rfl
    | with_reducible exact hd
    | with_reducible apply frame_call
    | with_reducible apply frame_set
    | with_reducible apply frame_ite

theorem csr_write_tdata1_csr_array (cfg : Config) (s : State) (v : Nat) :
    (csr_write_tdata1 cfg s v).csr_array = s.csr_array := by
  simp only [csr_write_tdata1]
  split_ifs <;> rfl

theorem csr_write_chain_frame_mhpm (cfg : Config) (s : State) (dest v a : Nat)
    (ha : is_mhpmcounter a = true ∨ is_mhpmevent a = true) (hd : dest ≠ a) :
    (csr_write_chain cfg s dest v).state.csr_array a = s.csr_array a := by
  have hN := mhpm_not_named a ha
  unfold csr_write_chain
  dsimp only
  repeat' first
    | with_reducible rfl
    | with_reducible exact hd
    | (with_reducible apply hN; decide)
    | with_reducible exact csr_write_mcountinhibit_frame_mhpm cfg s v a ha
    | with_reducible exact csr_write_pmpaddr_frame cfg s dest v _ a hd
    | with_reducible exact congrFun (csr_write_tdata1_csr_array cfg s v) a
    | with_reducible apply frame_res_ok
    | with_reducible apply frame_res_trap
    | with_reducible apply frame_call
    | with_reducible apply frame_set
    | with_reducible apply frame_res_ite

theorem csr_write_virt_frame_mhpm (cfg : Config) (s : State) (dest v a : Nat)
    (ha : is_mhpmcounter a = true ∨ is_mhpmevent a = true) :
    (csr_write_virt cfg s dest v).state.csr_array a = s.csr_array a := by
  have hN := mhpm_not_named a ha
  unfold csr_write_virt
  repeat' first
    | with_reducible rfl
    | (with_reducible apply hN; decide)
    | with_reducible apply frame_res_ok
    | with_reducible apply frame_res_trap
    | with_reducible apply frame_update_vsstatus_sd
    | with_reducible apply frame_set
    | with_reducible apply frame_res_ite

theorem frame_opt_ite (c : Prop) [Decidable c] (x y : Option (Res Unit)) (a r : Nat)
    (hx : ∀ q : Res Unit, x = some q → q.state.csr_array a = r)
    (hy : ∀ q : Res Unit, y = some q → q.state.csr_array a = r) :
    ∀ q : Res Unit, (if c then x else y) = some q → q.state.csr_array a = r := by
  split_ifs
  · exact hx
  · exact hy

theorem frame_opt_ok_set (s : State) (X val a : Nat) (hX : X ≠ a) :
    ∀ q : Res Unit, some (Res.ok () (s.set X val)) = some q →
      q.state.csr_array a = s.csr_array a := by
  intro q h
  cases h
  exact frame_set s X val a _ hX rfl

theorem frame_opt_ok_same (s : State) (a : Nat) :
    ∀ q : Res Unit, some (Res.ok () s) = some q → q.state.csr_array a = s.csr_array a := by
  intro q h
  cases h
  rfl

theorem frame_opt_trap (s : State) (c : Exc) (a : Nat) :
    ∀ q : Res Unit, some (Res.trap c s) = some q → q.state.csr_array a = s.csr_array a := by
  intro q h
  cases h
  rfl

theorem frame_opt_none (s : State) (a : Nat) :
    ∀ q : Res Unit, (none : Option (Res Unit)) = some q →
      q.state.csr_array a = s.csr_array a := by
  intro q h
  cases h

theorem csr_write_h_frame_mhpm (cfg : Config) (s : State) (dest v a : Nat)
    (ha : is_mhpmcounter a = true ∨ is_mhpmevent a = true) (hd : dest ≠ a) :
    ∀ q : Res Unit, csr_write_h cfg s dest v = some q → q.state.csr_array a = s.csr_array a := by
  have hN := mhpm_not_named a ha
  unfold csr_write_h
  dsimp only
  repeat' first
    | exact frame_opt_none s a
    | exact frame_opt_ok_same s a
    | exact frame_opt_trap s _ a
    | exact frame_opt_ok_set s _ _ a hd
    | exact frame_opt_ok_set s _ _ a (hN _ (by decide))
    | apply frame_opt_ite

theorem frame_res_bind_ok {α β : Type} (x : Res α) (b : β) (a r : Nat)
    (hx : x.state.csr_array a = r) :
    (x.bind fun _ s1 => Res.ok b s1).state.csr_array a = r := by
  cases x <;> exact hx

theorem csr_write_dispatch_frame_mhpm (cfg : Config) (s : State) (dest v a : Nat)
    (ha : is_mhpmcounter a = true ∨ is_mhpmevent a = true) (hd : dest ≠ a) :
    (csr_write_dispatch cfg s dest v).state.csr_array a = s.csr_array a := by
  have hrest : (if dest = mstatus then Res.ok true (csr_write_mstatus cfg s v)
      else csr_write_chain cfg s dest v).state.csr_array a = s.csr_array a :=
    frame_res_ite _ _ _ a _ (csr_write_mstatus_frame_mhpm cfg s v a ha)
      (csr_write_chain_frame_mhpm cfg s dest v a ha hd)
  unfold csr_write_dispatch
  by_cases hc : cfg.RVH = true ∧ s.v = 1 ∧ (dest = sstatus ∨ dest = sie ∨ dest = stvec
      ∨ dest = sscratch ∨ dest = sepc ∨ dest = scause ∨ dest = stval ∨ dest = sip
      ∨ dest = satp ∨ dest = stvec)
  · rw [if_pos hc]
    exact frame_res_bind_ok _ _ a _ (csr_write_virt_frame_mhpm cfg s dest v a ha)
  · rw [if_neg hc]
    cases hh : cfg.RVH with
    | false =>
      simp only [Bool.false_eq_true, if_false]
      exact hrest
    | true =>
      simp only [if_true]
      cases hq : csr_write_h cfg s dest v with
      | some q =>
        simp only
        exact frame_res_bind_ok _ _ a _ (csr_write_h_frame_mhpm cfg s dest v a ha hd q hq)
      | none =>
        simp only
        exact hrest

theorem csr_write_frame_mhpm (cfg : Config) (s : State) (dest v a : Nat)
    (ha : is_mhpmcounter a = true ∨ is_mhpmevent a = true) :
    (csr_write cfg s dest v).state.csr_array a = s.csr_array a := by
  by_cases hdm : is_mhpmcounter dest = true ∨ is_mhpmevent dest = true
  · rw [csr_write_mhpm_eq cfg s dest v hdm]
    rfl
  · have hd : dest ≠ a := fun h => hdm (h ▸ ha)
    have hdisp := csr_write_dispatch_frame_mhpm cfg s dest v a ha hd
    unfold csr_write
    cases hr : csr_write_dispatch cfg s dest v with
    | ok cont s1 =>
      rw [hr] at hdisp
      simp only [Res.bind]
      split_ifs
      · exact (csr_write_post_frame_mhpm cfg s1 dest a ha).trans hdisp
      · exact hdisp
    | trap c s1 => rw [hr] at hdisp; exact hdisp
    | panic s1 => rw [hr] at hdisp; exact hdisp

theorem csr_is_legal_state (cfg : Config) (s : State) (a : Nat) (w : Bool) :
    (csr_is_legal cfg s a w).state = s := by
  have hc : (csr_counter_enable_check cfg s a).state = s := by
    unfold csr_counter_enable_check
    split_ifs <;> rfl
  have hb : ((csr_counter_enable_check cfg s a).bind fun _ s1 => Res.ok true s1).state = s := by
    cases hr : csr_counter_enable_check cfg s a <;> rw [hr] at hc <;> exact hc
  unfold csr_is_legal
  dsimp only
  split_ifs <;> first | rfl | exact hb

theorem frame_optn_ite (c : Prop) [Decidable c] (x y : Option (Res Nat)) (a r : Nat)
    (hx : ∀ q : Res Nat, x = some q → q.state.csr_array a = r)
    (hy : ∀ q : Res Nat, y = some q → q.state.csr_array a = r) :
    ∀ q : Res Nat, (if c then x else y) = some q → q.state.csr_array a = r := by
  split_ifs
  · exact hx
  · exact hy

theorem frame_optn_some (x : Res Nat) (a r : Nat) (hx : x.state.csr_array a = r) :
    ∀ q : Res Nat, some x = some q → q.state.csr_array a = r := by
  intro q h
  cases h
  exact hx

theorem frame_optn_none (a r : Nat) :
    ∀ q : Res Nat, (none : Option (Res Nat)) = some q → q.state.csr_array a = r := by
  intro q h
  cases h

theorem csr_read_virt_frame_mhpm (cfg : Config) (s : State) (src a : Nat)
    (ha : is_mhpmcounter a = true ∨ is_mhpmevent a = true) :
    ∀ q : Res Nat, csr_read_virt cfg s src = some q → q.state.csr_array a = s.csr_array a := by
  have hN := mhpm_not_named a ha
  have hu : (update_vsstatus_sd s).csr_array a = s.csr_array a :=
    frame_update_vsstatus_sd s a _ (hN _ (by decide)) rfl
  unfold csr_read_virt
  dsimp only
  repeat' first
    | exact frame_optn_none a _
    | exact frame_optn_some _ a _ hu
    | exact frame_optn_some _ a _ rfl
    | apply frame_optn_ite

theorem csr_read_common_frame_mhpm (cfg : Config) (s : State) (src a : Nat)
    (ha : is_mhpmcounter a = true ∨ is_mhpmevent a = true) :
    (csr_read_common cfg s src).state.csr_array a = s.csr_array a := by
  have hN := mhpm_not_named a ha
  have h0 : ∀ s0 : State,
      s0 = (if src = mstatus ∨ src = sstatus then update_mstatus_sd cfg s else s) →
      s0.csr_array a = s.csr_array a := by
    intro s0 hs0
    rw [hs0]
    exact frame_ite _ _ _ a _ (frame_update_mstatus_sd cfg s a _ (hN _ (by decide)) rfl) rfl
  unfold csr_read_common
  generalize (if src = mstatus ∨ src = sstatus then update_mstatus_sd cfg s else s) = s0 at h0
  replace h0 := h0 s0 rfl
  unfold csr_read_tail
  dsimp only
  repeat' first
    | with_reducible exact h0
    | with_reducible apply frame_res_ok
    | with_reducible apply frame_res_trap
    | with_reducible apply frame_call
    | with_reducible apply frame_res_ite
    | with_reducible apply frame_ite

theorem csr_read_frame_mhpm (cfg : Config) (s : State) (src a : Nat)
    (ha : is_mhpmcounter a = true ∨ is_mhpmevent a = true) :
    (csr_read cfg s src).state.csr_array a = s.csr_array a := by
  unfold csr_read
  by_cases hp : cfg.RV_PMP_CSR = true ∧ is_pmpaddr src = true
  · rw [if_pos hp]; rfl
  · rw [if_neg hp]
    cases hq : (if cfg.RVH = true ∧ s.v = 1 then csr_read_virt cfg s src else none) with
    | some q =>
      simp only
      have hc : cfg.RVH = true ∧ s.v = 1 := by
        by_contra hc
        rw [if_neg hc] at hq
        cases hq
      rw [if_pos hc] at hq
      exact csr_read_virt_frame_mhpm cfg s src a ha q hq
    | none =>
      simp only
      cases hx : (if cfg.RVH = true then csr_read_h cfg s src else none) with
      | some x => rfl
      | none => exact csr_read_common_frame_mhpm cfg s src a ha

theorem csrrw_frame_mhpm (cfg : Config) (s : State) (dest : Bool) (src : Option Nat)
    (csrid a : Nat) (ha : is_mhpmcounter a = true ∨ is_mhpmevent a = true) :
    (csrrw cfg s dest src csrid).state.csr_array a = s.csr_array a := by
  have hl := csr_is_legal_state cfg s csrid src.isSome
  unfold csrrw
  cases hr : csr_is_legal cfg s csrid src.isSome with
  | panic s1 => rw [hr] at hl; simp only [Res.state] at hl; subst hl; rfl
  | trap c s1 => rw [hr] at hl; simp only [Res.state] at hl; subst hl; rfl
  | ok legal s1 =>
    rw [hr] at hl
    simp only [Res.state] at hl
    subst hl
    simp only [Res.bind, csr_decode]
    by_cases hleg : legal = false
    · rw [if_pos hleg]; rfl
    · rw [if_neg hleg]
      have key : ∀ (out : Option Nat) (s2 : State), s2.csr_array a = s1.csr_array a →
          (match src with
            | some tmp => (csr_write cfg s2 csrid tmp).bind fun _ s3 => Res.ok out s3
            | none => Res.ok out s2).state.csr_array a = s1.csr_array a := by
        intro out s2 h2
        cases src with
        | none => exact h2
        | some tmp =>
          exact frame_res_bind_ok _ _ a _ ((csr_write_frame_mhpm cfg s2 csrid tmp a ha).trans h2)
      cases dest with
      | false =>
        simp only [Bool.false_eq_true, if_false]
        exact key none s1 rfl
      | true =>
        simp only [if_true]
        have hrd := csr_read_frame_mhpm cfg s1 csrid a ha
        cases hrr : csr_read cfg s1 csrid with
        | panic s2 => rw [hrr] at hrd; exact hrd
        | trap c s2 => rw [hrr] at hrd; exact hrd
        | ok x s2 =>
          rw [hrr] at hrd
          exact key (some x) s2 hrd

theorem priv_sret_common_frame_mhpm (cfg : Config) (s : State) (a : Nat)
    (ha : is_mhpmcounter a = true ∨ is_mhpmevent a = true) :
    (priv_sret_common cfg s).state.csr_array a = s.csr_array a := by
  have h1 : mstatus ≠ a := mhpm_not_named a ha mstatus (by decide)
  unfold priv_sret_common
  dsimp only
  split_ifs <;> simp [Res.state, State.set, State.call, h1.symm]

theorem priv_sret_frame_mhpm (cfg : Config) (s : State) (a : Nat)
    (ha : is_mhpmcounter a = true ∨ is_mhpmevent a = true) :
    (priv_sret cfg s).state.csr_array a = s.csr_array a := by
  have h2 : hstatus ≠ a := mhpm_not_named a ha hstatus (by decide)
  have h3 : vsstatus ≠ a := mhpm_not_named a ha vsstatus (by decide)
  unfold priv_sret
  dsimp only
  split_ifs
  · rw [priv_sret_common_frame_mhpm cfg _ a ha]
    simp [set_sys_state_flag, State.set, h2.symm]
  · unfold priv_sret_virt
    dsimp only
    split_ifs <;> simp [Res.state, State.set, h3.symm]
  · exact priv_sret_common_frame_mhpm cfg s a ha
  · exact priv_sret_common_frame_mhpm cfg s a ha

theorem priv_mret_frame_mhpm (cfg : Config) (s : State) (a : Nat)
    (ha : is_mhpmcounter a = true ∨ is_mhpmevent a = true) :
    (priv_mret cfg s).state.csr_array a = s.csr_array a := by
  have h1 : mstatus ≠ a := mhpm_not_named a ha mstatus (by decide)
  unfold priv_mret
  dsimp only
  split_ifs <;> simp [Res.state, State.set, State.call, set_sys_state_flag, h1.symm]

theorem priv_fence_frame_mhpm (cfg : Config) (s : State) (f7 src a : Nat) :
    (priv_fence cfg s f7 src).state.csr_array a = s.csr_array a := by
  unfold priv_fence
  dsimp only
  repeat' with_reducible apply frame_res_ite
  all_goals rfl

theorem priv_instr_frame_mhpm (cfg : Config) (s : State) (op src a : Nat)
    (ha : is_mhpmcounter a = true ∨ is_mhpmevent a = true) :
    (priv_instr cfg s op src).state.csr_array a = s.csr_array a := by
  unfold priv_instr
  split_ifs
  · exact priv_sret_frame_mhpm cfg s a ha
  · exact priv_mret_frame_mhpm cfg s a ha
  · rfl
  · rfl
  · unfold priv_wfi
    dsimp only
    split_ifs <;> rfl
  · rfl
  · exact priv_fence_frame_mhpm cfg s _ src a

theorem csrid_read_frame_mhpm (cfg : Config) (s : State) (csrid a : Nat)
    (ha : is_mhpmcounter a = true ∨ is_mhpmevent a = true) :
    (csrid_read cfg s csrid).state.csr_array a = s.csr_array a := by
  unfold csrid_read
  split_ifs
  · exact csr_read_frame_mhpm cfg s _ a ha
  · rfl

/-- Counterexample to C19 as stated. When the slot of `mhpmcounter3` physically holds 5, a
read of `mhpmcounter3` returns 5, not 0. -/
theorem C19_mhpm_read_returns_slot :
    is_mhpmcounter CSR_MHPMCOUNTER_BASE = true
    ∧ State.hpm_dirty.csr_array CSR_MHPMCOUNTER_BASE = 5
    ∧ (csr_read Config.plain State.hpm_dirty CSR_MHPMCOUNTER_BASE).value = some 5 := by
  rw [csr_read_mhpm_eq _ _ _ (Or.inl (by decide))]
  exact ⟨by decide, by decide, by decide⟩

/-- C19, amended. For every address `a` in the `mhpmcounter` or `mhpmevent` range: a
`csr_write` of any value to `a` leaves the whole state, the slot included, exactly as it was;
a `csr_read` of `a` returns the value stored in the slot and changes nothing, so it returns
zero whenever the slot holds zero. The slot of `a` is left unchanged by a `csr_write` of any
value to any CSR address, by every access through `csrrw`, by every `csr_read` and
`csrid_read`, and by every privileged instruction (`priv_instr`, any opcode). The raw
accessor `vcsr_write` of the vector build leaves the slot unchanged when called with another
address; called with `a` it stores the value in the slot, and `csr_read` and `vcsr_read` of
`a` then return that value. -/
theorem C19_mhpm_write_ignored (cfg : Config) (s : State) (a v : Nat)
    (ha : is_mhpmcounter a = true ∨ is_mhpmevent a = true) :
    csr_write cfg s a v = .ok () s
    ∧ csr_read cfg s a = .ok (s.csr_array a) s
    ∧ (s.csr_array a = 0 → csr_read cfg s a = .ok 0 s)
    ∧ (∀ dest x : Nat, (csr_write cfg s dest x).state.csr_array a = s.csr_array a)
    ∧ (∀ (dest : Bool) (src : Option Nat) (csrid : Nat),
        (csrrw cfg s dest src csrid).state.csr_array a = s.csr_array a)
    ∧ (∀ addr x : Nat, addr ≠ a → (vcsr_write s addr x).state.csr_array a = s.csr_array a)
    ∧ vcsr_write s a v = .ok () (s.set a v)
    ∧ csr_read cfg (s.set a v) a = .ok v (s.set a v)
    ∧ vcsr_read (s.set a v) a = .ok v (s.set a v)
    ∧ (∀ src : Nat, (csr_read cfg s src).state.csr_array a = s.csr_array a)
    ∧ (∀ csrid : Nat, (csrid_read cfg s csrid).state.csr_array a = s.csr_array a)
    ∧ (∀ op src : Nat, (priv_instr cfg s op src).state.csr_array a = s.csr_array a) := by
  have hlt : a < 4096 := by
    have := mhpm_range a ha
    omega
  have hset : (s.set a v).csr_array a = v := by simp [State.set]
  refine ⟨csr_write_mhpm_eq cfg s a v ha, csr_read_mhpm_eq cfg s a ha, ?_,
    fun dest x => csr_write_frame_mhpm cfg s dest x a ha,
    fun dest src csrid => csrrw_frame_mhpm cfg s dest src csrid a ha, ?_, ?_, ?_, ?_,
    fun src => csr_read_frame_mhpm cfg s src a ha,
    fun csrid => csrid_read_frame_mhpm cfg s csrid a ha,
    fun op src => priv_instr_frame_mhpm cfg s op src a ha⟩
  · intro h0
    rw [csr_read_mhpm_eq cfg s a ha, h0]
  · intro addr x hne
    unfold vcsr_write
    split_ifs
    · exact frame_set s (csr_decode addr) x a _ hne rfl
    · rfl
  · simp [vcsr_write, hlt, csr_decode]
  · rw [csr_read_mhpm_eq cfg _ a ha, hset]
  · simp [vcsr_read, hlt, csr_decode, hset]

/-- Witness of the amended C19: `mhpmcounter3` on the sample machine, whose slots are zero. -/
theorem C19_mhpm_write_ignored_witness :
    ((is_mhpmcounter CSR_MHPMCOUNTER_BASE = true ∨ is_mhpmevent CSR_MHPMCOUNTER_BASE = true)
      ∧ State.reset.csr_array CSR_MHPMCOUNTER_BASE = 0)
    ∧ (csr_write Config.plain State.reset CSR_MHPMCOUNTER_BASE 7 = .ok () State.reset
      ∧ csr_read Config.plain State.reset CSR_MHPMCOUNTER_BASE
          = .ok (State.reset.csr_array CSR_MHPMCOUNTER_BASE) State.reset
      ∧ (State.reset.csr_array CSR_MHPMCOUNTER_BASE = 0 →
          csr_read Config.plain State.reset CSR_MHPMCOUNTER_BASE = .ok 0 State.reset)
      ∧ (∀ dest x : Nat,
          (csr_write Config.plain State.reset dest x).state.csr_array CSR_MHPMCOUNTER_BASE
            = State.reset.csr_array CSR_MHPMCOUNTER_BASE)
      ∧ (∀ (dest : Bool) (src : Option Nat) (csrid : Nat),
          (csrrw Config.plain State.reset dest src csrid).state.csr_array CSR_MHPMCOUNTER_BASE
            = State.reset.csr_array CSR_MHPMCOUNTER_BASE)
      ∧ (∀ addr x : Nat, addr ≠ CSR_MHPMCOUNTER_BASE →
          (vcsr_write State.reset addr x).state.csr_array CSR_MHPMCOUNTER_BASE
            = State.reset.csr_array CSR_MHPMCOUNTER_BASE)
      ∧ vcsr_write State.reset CSR_MHPMCOUNTER_BASE 7
          = .ok () (State.reset.set CSR_MHPMCOUNTER_BASE 7)
      ∧ csr_read Config.plain (State.reset.set CSR_MHPMCOUNTER_BASE 7) CSR_MHPMCOUNTER_BASE
          = .ok 7 (State.reset.set CSR_MHPMCOUNTER_BASE 7)
      ∧ vcsr_read (State.reset.set CSR_MHPMCOUNTER_BASE 7) CSR_MHPMCOUNTER_BASE
          = .ok 7 (State.reset.set CSR_MHPMCOUNTER_BASE 7)
      ∧ (∀ src : Nat,
          (csr_read Config.plain State.reset src).state.csr_array CSR_MHPMCOUNTER_BASE
            = State.reset.csr_array CSR_MHPMCOUNTER_BASE)
      ∧ (∀ csrid : Nat,
          (csrid_read Config.plain State.reset csrid).state.csr_array CSR_MHPMCOUNTER_BASE
            = State.reset.csr_array CSR_MHPMCOUNTER_BASE)
      ∧ (∀ op src : Nat,
          (priv_instr Config.plain State.reset op src).state.csr_array CSR_MHPMCOUNTER_BASE
            = State.reset.csr_array CSR_MHPMCOUNTER_BASE)) :=
  ⟨⟨Or.inl (by decide), rfl⟩,
   C19_mhpm_write_ignored Config.plain State.reset CSR_MHPMCOUNTER_BASE 7
     (Or.inl (by decide))⟩

/-! ### C20: writes to `tdata1` and the initial trigger table -/

theorem csr_write_tdata1_eq (cfg : Config) (s : State) (v : Nat) (hT : cfg.RVSDTRIG = true) :
    csr_write cfg s tdata1 v = .ok () (csr_write_tdata1 cfg s v) := by
  cases hh : cfg.RVH <;>
  simp [csr_write, csr_write_dispatch, csr_write_h, csr_write_chain, csr_write_post, Res.bind,
    hh, hT, is_pmpaddr, is_pmpcfg, is_mhpmcounter, is_mhpmevent, CSR_PMPADDR_BASE,
    CSR_PMPADDR_MAX_NUM, CSR_PMPCFG_BASE, CSR_PMPCFG_MAX_NUM, CSR_MHPMCOUNTER_BASE,
    CSR_MHPMCOUNTER_NUM, CSR_MHPMEVENT_BASE, CSR_MHPMEVENT_NUM,
    sstatus, sie, stvec, sscratch, sepc, scause, stval, sip, satp, mideleg,
    hideleg, hie, hip, hvip, hstatus, vsstatus, vsie, vsip, vstvec, vsscratch, vsepc, vscause,
    vstval, vsatp, mstatus, hcounteren, scounteren, mcounteren, mcountinhibit, mcycle,
    minstret, mie, mip, mtvec, medeleg, vcsr, vxrm, vxsat, misa, mepc, fflags, frm, fcsr,
    tselect, tdata1, tdata2, hgatp, vstart]

theorem csr_write_tdata1_disable (cfg : Config) (s : State) (v : Nat)
    (hty : getf v 60 4 = TRIG_TYPE_NONE ∨ getf v 60 4 = TRIG_TYPE_DISABLE) :
    getf ((csr_write_tdata1 cfg s v).triggers (s.csr_array tselect)).tdata1 60 4
        = TRIG_TYPE_DISABLE
    ∧ getf ((csr_write_tdata1 cfg s v).triggers (s.csr_array tselect)).tdata1 0 59 = 0
    ∧ ((csr_write_tdata1 cfg s v).triggers (s.csr_array tselect)).tdata2
        = (s.triggers (s.csr_array tselect)).tdata2 := by
  simp only [csr_write_tdata1, if_pos hty, if_true]
  refine ⟨?_, ?_, trivial⟩
  · rw [getf_setf_disjoint _ _ _ _ _ _ (Or.inr (by omega)) (by omega), getf_setf_same]
    simp [TRIG_TYPE_DISABLE]
  · rw [getf_setf_same]
    simp

theorem csr_write_tdata1_frame (cfg : Config) (s : State) (v : Nat) :
    (∀ i, i ≠ s.csr_array tselect → (csr_write_tdata1 cfg s v).triggers i = s.triggers i)
    ∧ (csr_write_tdata1 cfg s v).csr_array = s.csr_array := by
  simp only [csr_write_tdata1]
  split_ifs <;> simp [State.call] <;> intro i hi <;> simp [hi]

theorem csr_write_tdata1_unsupported (cfg : Config) (s : State) (v : Nat)
    (h0 : getf v 60 4 ≠ TRIG_TYPE_NONE) (h15 : getf v 60 4 ≠ TRIG_TYPE_DISABLE)
    (h2 : getf v 60 4 ≠ TRIG_TYPE_MCONTROL) :
    csr_write_tdata1 cfg s v = s := by
  simp [csr_write_tdata1, h0, h15, h2]

/-- C20. In a build with the trigger extension, with a valid trigger selected
(`tselect < CONFIG_TRIGGER_NUM`), a write to `tdata1` returns normally and: when the written
type field (bits 63..60) is none (0) or disabled (15), the selected trigger ends with type
disabled and data bits 58..0 zero; when the written type is neither none, disabled nor
match-control, the trigger table is unchanged; in every case the triggers other than the
selected one and the whole CSR array, the raw `tdata1` slot included, are unchanged. After
`init_trigger` every one of the `CONFIG_TRIGGER_NUM` entries has type disabled. -/
theorem C20_tdata1_write (cfg : Config) (s : State) (v : Nat) (hT : cfg.RVSDTRIG = true)
    (_hsel : s.csr_array tselect < cfg.TRIGGER_NUM) :
    (∃ s1, csr_write cfg s tdata1 v = .ok () s1
      ∧ ((getf v 60 4 = TRIG_TYPE_NONE ∨ getf v 60 4 = TRIG_TYPE_DISABLE) →
          getf (s1.triggers (s.csr_array tselect)).tdata1 60 4 = TRIG_TYPE_DISABLE
          ∧ getf (s1.triggers (s.csr_array tselect)).tdata1 0 59 = 0)
      ∧ ((getf v 60 4 ≠ TRIG_TYPE_NONE ∧ getf v 60 4 ≠ TRIG_TYPE_DISABLE
            ∧ getf v 60 4 ≠ TRIG_TYPE_MCONTROL) → s1.triggers = s.triggers)
      ∧ (∀ i, i ≠ s.csr_array tselect → s1.triggers i = s.triggers i)
      ∧ s1.csr_array = s.csr_array)
    ∧ (∀ (fresh : Nat → Trigger) (s0 : State) (i : Nat), i < cfg.TRIGGER_NUM →
        getf ((init_trigger cfg fresh s0).triggers i).tdata1 60 4 = TRIG_TYPE_DISABLE) := by
  refine ⟨⟨csr_write_tdata1 cfg s v, csr_write_tdata1_eq cfg s v hT, ?_, ?_, ?_, ?_⟩, ?_⟩
  · intro hty
    exact ⟨(csr_write_tdata1_disable cfg s v hty).1, (csr_write_tdata1_disable cfg s v hty).2.1⟩
  · rintro ⟨h0, h15, h2⟩
    rw [csr_write_tdata1_unsupported cfg s v h0 h15 h2]
  · exact (csr_write_tdata1_frame cfg s v).1
  · exact (csr_write_tdata1_frame cfg s v).2
  · intro fresh s0 i hi
    simp only [init_trigger, if_pos hi]
    rw [getf_setf_same]
    simp [TRIG_TYPE_DISABLE]

/-- Witness of C20: trigger 1 of 4 is selected on a machine whose table holds match-control
entries, and the written word `0x55` has type none. -/
theorem C20_tdata1_write_witness :
    (Config.trig.RVSDTRIG = true
      ∧ State.trig_armed.csr_array tselect < Config.trig.TRIGGER_NUM
      ∧ getf 0x55 60 4 = TRIG_TYPE_NONE)
    ∧ ((∃ s1, csr_write Config.trig State.trig_armed tdata1 0x55 = .ok () s1
      ∧ ((getf 0x55 60 4 = TRIG_TYPE_NONE ∨ getf 0x55 60 4 = TRIG_TYPE_DISABLE) →
          getf (s1.triggers (State.trig_armed.csr_array tselect)).tdata1 60 4
            = TRIG_TYPE_DISABLE
          ∧ getf (s1.triggers (State.trig_armed.csr_array tselect)).tdata1 0 59 = 0)
      ∧ ((getf 0x55 60 4 ≠ TRIG_TYPE_NONE ∧ getf 0x55 60 4 ≠ TRIG_TYPE_DISABLE
            ∧ getf 0x55 60 4 ≠ TRIG_TYPE_MCONTROL) →
          s1.triggers = State.trig_armed.triggers)
      ∧ (∀ i, i ≠ State.trig_armed.csr_array tselect →
          s1.triggers i = State.trig_armed.triggers i)
      ∧ s1.csr_array = State.trig_armed.csr_array)
    ∧ (∀ (fresh : Nat → Trigger) (s0 : State) (i : Nat), i < Config.trig.TRIGGER_NUM →
        getf ((init_trigger Config.trig fresh s0).triggers i).tdata1 60 4
          = TRIG_TYPE_DISABLE)) :=
  ⟨⟨rfl, by decide, by decide⟩, C20_tdata1_write Config.trig State.trig_armed 0x55 rfl (by decide)⟩

/-! ### C21: the summary bit `mstatus.SD` after writes -/

theorem update_mstatus_sd_val_sd (cfg : Config) (w : Nat) :
    mstatus_sd (update_mstatus_sd_val cfg w) = 1 ↔
      (mstatus_fs (update_mstatus_sd_val cfg w) = 3
        ∨ mstatus_vs (update_mstatus_sd_val cfg w) = 3) := by
  have key : ∀ x : Nat,
      mstatus_sd (setf x 63 1 (b2n (decide (mstatus_fs x = 3) || decide (mstatus_vs x = 3)))) = 1
      ↔ (mstatus_fs (setf x 63 1 (b2n (decide (mstatus_fs x = 3) || decide (mstatus_vs x = 3))))
          = 3
        ∨ mstatus_vs (setf x 63 1 (b2n (decide (mstatus_fs x = 3) || decide (mstatus_vs x = 3))))
          = 3) := by
    intro x
    have hfs : ∀ b : Nat, mstatus_fs (setf x 63 1 b) = mstatus_fs x := fun b =>
      getf_setf_disjoint x 63 1 b 13 2 (Or.inl (by decide)) (by decide)
    have hvs : ∀ b : Nat, mstatus_vs (setf x 63 1 b) = mstatus_vs x := fun b =>
      getf_setf_disjoint x 63 1 b 9 2 (Or.inl (by decide)) (by decide)
    rw [hfs, hvs]
    unfold mstatus_sd
    rw [getf_setf_same]
    by_cases h1 : mstatus_fs x = 3 <;> by_cases h2 : mstatus_vs x = 3 <;> simp [h1, h2, b2n]
  by_cases hpin : ((cfg.DIFFTEST_REF_QEMU || !cfg.FS_CLEAN_STATE)
      && decide (mstatus_fs w ≠ 0)) = true
  · rw [update_mstatus_sd_val_pin cfg w hpin]
    exact key _
  · rw [update_mstatus_sd_val_nopin cfg w hpin]
    exact key _

theorem csr_write_post_mstatus (cfg : Config) (s : State) (dest : Nat)
    (hd : dest = mstatus ∨ dest = sstatus
      ∨ (cfg.FPU_NONE = false ∧ (dest = fflags ∨ dest = frm ∨ dest = fcsr))
      ∨ (cfg.RVV = true ∧ (dest = vcsr ∨ dest = vstart ∨ dest = vxsat ∨ dest = vxrm))) :
    (csr_write_post cfg s dest).csr_array mstatus
      = update_mstatus_sd_val cfg (s.csr_array mstatus) := by
  rcases hd with h | h | ⟨hf, h | h | h⟩ | ⟨hr, h | h | h | h⟩ <;> subst h <;>
  cases hh : cfg.RVH <;> cases hf2 : cfg.FPU_NONE <;> cases hr2 : cfg.RVV <;>
  simp_all [csr_write_post, update_mstatus_sd, update_vsstatus_sd, State.set, State.call,
    set_sys_state_flag, sstatus, satp, hstatus, vsstatus, vsatp, mstatus, mie, mip, sie, sip,
    vcsr, vxrm, vxsat, fflags, frm, fcsr, hgatp, vstart]

theorem csr_write_dispatch_sd_dest (cfg : Config) (s : State) (dest v : Nat)
    (hd : dest = mstatus ∨ dest = sstatus
      ∨ (cfg.FPU_NONE = false ∧ (dest = fflags ∨ dest = frm ∨ dest = fcsr))
      ∨ (cfg.RVV = true ∧ (dest = vcsr ∨ dest = vstart ∨ dest = vxsat ∨ dest = vxrm))) :
    ∃ s1 : State, csr_write_dispatch cfg s dest v = .ok true s1 := by
  rcases hd with h | h | ⟨hf, h | h | h⟩ | ⟨hr, h | h | h | h⟩ <;> subst h <;>
  cases hh : cfg.RVH <;> by_cases hv : s.v = 1 <;>
  simp_all [csr_write_dispatch, csr_write_virt, csr_write_h, csr_write_chain, Res.bind,
    is_pmpaddr, is_pmpcfg, is_mhpmcounter, is_mhpmevent, CSR_PMPADDR_BASE,
    CSR_PMPADDR_MAX_NUM, CSR_PMPCFG_BASE, CSR_PMPCFG_MAX_NUM, CSR_MHPMCOUNTER_BASE,
    CSR_MHPMCOUNTER_NUM, CSR_MHPMEVENT_BASE, CSR_MHPMEVENT_NUM,
    sstatus, sie, stvec, sscratch, sepc, scause, stval, sip, satp, mideleg,
    hideleg, hie, hip, hvip, hstatus, vsstatus, vsie, vsip, vstvec, vsscratch, vsepc, vscause,
    vstval, vsatp, mstatus, hcounteren, scounteren, mcounteren, mcountinhibit, mcycle,
    minstret, mie, mip, mtvec, medeleg, vcsr, vxrm, vxsat, misa, mepc, fflags, frm, fcsr,
    tselect, tdata1, tdata2, hgatp, vstart]

theorem getf_congr_off63 (w w2 lo len : Nat) (hb : lo + len ≤ 63)
    (h : ∀ i : Nat, i ≠ 63 → w.testBit i = w2.testBit i) : getf w lo len = getf w2 lo len := by
  apply Nat.eq_of_testBit_eq
  intro i
  rw [testBit_getf, testBit_getf]
  by_cases hi : i < len
  · rw [h (lo + i) (by omega)]
  · simp [hi]

theorem setf_congr_off63 (w w2 lo len x : Nat)
    (h : ∀ i : Nat, i ≠ 63 → w.testBit i = w2.testBit i) :
    ∀ i : Nat, i ≠ 63 → (setf w lo len x).testBit i = (setf w2 lo len x).testBit i := by
  intro i hi
  rw [testBit_setf, testBit_setf, h i hi]

theorem setf_sd_congr (w w2 b : Nat) (h : ∀ i : Nat, i ≠ 63 → w.testBit i = w2.testBit i) :
    setf w 63 1 b = setf w2 63 1 b := by
  apply Nat.eq_of_testBit_eq
  intro i
  rw [testBit_setf, testBit_setf]
  by_cases hi : i = 63
  · subst hi; simp
  · have h1 : ¬ (63 ≤ i ∧ i < 63 + 1) := by omega
    rw [if_neg h1, if_neg h1, h i hi]

theorem update_mstatus_sd_val_congr (cfg : Config) (w w2 : Nat)
    (h : ∀ i : Nat, i ≠ 63 → w.testBit i = w2.testBit i) :
    update_mstatus_sd_val cfg w = update_mstatus_sd_val cfg w2 := by
  have hfs : mstatus_fs w = mstatus_fs w2 := getf_congr_off63 w w2 13 2 (by decide) h
  have hcond : ((cfg.DIFFTEST_REF_QEMU || !cfg.FS_CLEAN_STATE) && decide (mstatus_fs w ≠ 0))
      = ((cfg.DIFFTEST_REF_QEMU || !cfg.FS_CLEAN_STATE) && decide (mstatus_fs w2 ≠ 0)) := by
    rw [hfs]
  have step : ∀ x x2 : Nat, (∀ i : Nat, i ≠ 63 → x.testBit i = x2.testBit i) →
      setf x 63 1 (b2n (decide (mstatus_fs x = 3) || decide (mstatus_vs x = 3)))
        = setf x2 63 1 (b2n (decide (mstatus_fs x2 = 3) || decide (mstatus_vs x2 = 3))) := by
    intro x x2 hx
    have e1 : mstatus_fs x = mstatus_fs x2 := getf_congr_off63 x x2 13 2 (by decide) hx
    have e2 : mstatus_vs x = mstatus_vs x2 := getf_congr_off63 x x2 9 2 (by decide) hx
    rw [e1, e2]
    exact setf_sd_congr x x2 _ hx
  by_cases hpin : ((cfg.DIFFTEST_REF_QEMU || !cfg.FS_CLEAN_STATE)
      && decide (mstatus_fs w ≠ 0)) = true
  · rw [update_mstatus_sd_val_pin cfg w hpin, update_mstatus_sd_val_pin cfg w2 (hcond ▸ hpin)]
    exact step _ _ (setf_congr_off63 w w2 13 2 3 h)
  · rw [update_mstatus_sd_val_nopin cfg w hpin,
      update_mstatus_sd_val_nopin cfg w2 (hcond ▸ hpin)]
    exact step _ _ h

theorem mask_bitset_flip63 (old m v : Nat) :
    ∀ i : Nat, i ≠ 63 →
      (mask_bitset old m (v ^^^ 2 ^ 63)).testBit i = (mask_bitset old m v).testBit i := by
  intro i hi
  rw [testBit_mask_bitset, testBit_mask_bitset, Nat.testBit_xor, Nat.testBit_two_pow]
  have : decide (63 = i) = false := by simp; omega
  simp [this]

theorem update_mstatus_sd_set (cfg : Config) (s : State) (w : Nat) :
    update_mstatus_sd cfg (s.set mstatus w) = s.set mstatus (update_mstatus_sd_val cfg w) := by
  simp only [update_mstatus_sd, State.set, if_true]
  congr
  funext a
  by_cases ha : a = mstatus <;> simp [ha]

theorem csr_write_mstatus_flip63 (cfg : Config) (s : State) (v : Nat) :
    update_mstatus_sd cfg (csr_write_mstatus cfg s (v ^^^ 2 ^ 63))
      = update_mstatus_sd cfg (csr_write_mstatus cfg s v) := by
  have hm := mask_bitset_flip63 (s.csr_array mstatus) (MSTATUS_WMASK cfg) v
  have hpp : mstatus_mpp (mask_bitset (s.csr_array mstatus) (MSTATUS_WMASK cfg) (v ^^^ 2 ^ 63))
      = mstatus_mpp (mask_bitset (s.csr_array mstatus) (MSTATUS_WMASK cfg) v) :=
    getf_congr_off63 _ _ 11 2 (by decide) hm
  unfold csr_write_mstatus
  simp only [hpp]
  split_ifs
  · rw [update_mstatus_sd_set, update_mstatus_sd_set, update_mstatus_sd_val_congr cfg _ _ hm]
  · rw [update_mstatus_sd_set, update_mstatus_sd_set,
      update_mstatus_sd_val_congr cfg _ _ (setf_congr_off63 _ _ 11 2 _ hm)]
  · rw [update_mstatus_sd_set, update_mstatus_sd_set, update_mstatus_sd_val_congr cfg _ _ hm]

theorem csr_write_sstatus_eq (cfg : Config) (s : State) (v : Nat)
    (hnv : cfg.RVH = false ∨ s.v ≠ 1) :
    csr_write cfg s sstatus v =
      .ok () (set_sys_state_flag
        (update_mstatus_sd cfg
          (s.set mstatus (mask_bitset (s.csr_array mstatus) (SSTATUS_WMASK cfg) v)))
        .SYS_STATE_UPDATE) := by
  rcases hnv with hh | hv
  · simp [csr_write, csr_write_dispatch, csr_write_chain, csr_write_post, Res.bind, hh,
      sstatus, sie, stvec, sscratch, sepc, scause, stval, sip, satp, mideleg,
      hideleg, hie, hip, hvip, hstatus, vsstatus, vsie, vsip, vstvec, vsscratch, vsepc, vscause,
      vstval, vsatp, mstatus, hcounteren, scounteren, mcounteren, mcountinhibit, mcycle,
      minstret, mie, mip, vcsr, vxrm, vxsat, fflags, frm, fcsr, hgatp, vstart]
  · cases hh : cfg.RVH <;>
    simp [csr_write, csr_write_dispatch, csr_write_h, csr_write_chain, csr_write_post, Res.bind,
      hh, hv, sstatus, sie, stvec, sscratch, sepc, scause, stval, sip, satp, mideleg,
      hideleg, hie, hip, hvip, hstatus, vsstatus, vsie, vsip, vstvec, vsscratch, vsepc, vscause,
      vstval, vsatp, mstatus, hcounteren, scounteren, mcounteren, mcountinhibit, mcycle,
      minstret, mie, mip, vcsr, vxrm, vxsat, fflags, frm, fcsr, hgatp, vstart]

/-- C21. After a write of any value to `mstatus` or `sstatus` (virtualized or not), to
`fflags`, `frm` or `fcsr` (build with a floating-point unit), or to `vcsr`, `vstart`, `vxsat`
or `vxrm` (build with the vector extension), `csr_write` returns normally and the stored
`mstatus.SD` is 1 exactly when the stored `mstatus.FS` is 3 or the stored `mstatus.VS` is 3.
For a non-virtualized write to `mstatus` or `sstatus`, flipping bit 63 of the written value
gives exactly the same resulting state. -/
theorem C21_mstatus_sd_summary (cfg : Config) (s : State) (dest v : Nat)
    (hd : dest = mstatus ∨ dest = sstatus
      ∨ (cfg.FPU_NONE = false ∧ (dest = fflags ∨ dest = frm ∨ dest = fcsr))
      ∨ (cfg.RVV = true ∧ (dest = vcsr ∨ dest = vstart ∨ dest = vxsat ∨ dest = vxrm))) :
    ∃ s1 : State, csr_write cfg s dest v = .ok () s1
      ∧ (mstatus_sd (s1.csr_array mstatus) = 1 ↔
          (mstatus_fs (s1.csr_array mstatus) = 3 ∨ mstatus_vs (s1.csr_array mstatus) = 3))
      ∧ ((dest = mstatus ∨ dest = sstatus) → (cfg.RVH = false ∨ s.v ≠ 1) →
          csr_write cfg s dest (v ^^^ 2 ^ 63) = .ok () s1) := by
  obtain ⟨s0, h0⟩ := csr_write_dispatch_sd_dest cfg s dest v hd
  have hw : csr_write cfg s dest v = .ok () (csr_write_post cfg s0 dest) := by
    simp [csr_write, h0, Res.bind]
  refine ⟨_, hw, ?_, ?_⟩
  · rw [csr_write_post_mstatus cfg s0 dest hd]
    exact update_mstatus_sd_val_sd cfg _
  · intro hms hnv
    rw [← hw]
    rcases hms with h | h
    · subst h
      rw [csr_write_mstatus_eq, csr_write_mstatus_eq, csr_write_mstatus_flip63]
    · subst h
      rw [csr_write_sstatus_eq cfg s _ hnv, csr_write_sstatus_eq cfg s _ hnv,
        update_mstatus_sd_set, update_mstatus_sd_set,
        update_mstatus_sd_val_congr cfg _ _
          (mask_bitset_flip63 (s.csr_array mstatus) (SSTATUS_WMASK cfg) v)]

/-- Witness of C21: a write of `0x6000` (FS dirty, bit 63 clear) to `mstatus` on the sample
machine. -/
theorem C21_mstatus_sd_summary_witness :
    (mstatus = mstatus ∨ mstatus = sstatus
      ∨ (Config.plain.FPU_NONE = false ∧ (mstatus = fflags ∨ mstatus = frm ∨ mstatus = fcsr))
      ∨ (Config.plain.RVV = true
          ∧ (mstatus = vcsr ∨ mstatus = vstart ∨ mstatus = vxsat ∨ mstatus = vxrm)))
    ∧ ∃ s1 : State, csr_write Config.plain State.reset mstatus 0x6000 = .ok () s1
      ∧ (mstatus_sd (s1.csr_array mstatus) = 1 ↔
          (mstatus_fs (s1.csr_array mstatus) = 3 ∨ mstatus_vs (s1.csr_array mstatus) = 3))
      ∧ ((mstatus = mstatus ∨ mstatus = sstatus) →
          (Config.plain.RVH = false ∨ State.reset.v ≠ 1) →
          csr_write Config.plain State.reset mstatus (0x6000 ^^^ 2 ^ 63) = .ok () s1) :=
  ⟨Or.inl rfl, C21_mstatus_sd_summary Config.plain State.reset mstatus 0x6000 (Or.inl rfl)⟩

/-! ### C22: writes to the PMP address registers -/

theorem csr_write_pmpaddr_eq (cfg : Config) (s : State) (dest src : Nat)
    (hp : cfg.RV_PMP_CSR = true) (hd : is_pmpaddr dest = true) :
    csr_write cfg s dest src =
      .ok () (if dest - CSR_PMPADDR_BASE ≥ cfg.RV_PMP_ACTIVE_NUM then s
        else csr_write_pmpaddr cfg s dest src (dest - CSR_PMPADDR_BASE)) := by
  have hr : 0x3b0 ≤ dest ∧ dest < 0x3f0 := by
    simpa [is_pmpaddr, CSR_PMPADDR_BASE, CSR_PMPADDR_MAX_NUM] using hd
  obtain ⟨h1, h2⟩ := hr
  have hne : ∀ a : Nat, (a < 0x3b0 ∨ 0x3f0 ≤ a) → (dest = a) = False := by
    intro a ha; simp; omega
  by_cases hact : dest - CSR_PMPADDR_BASE ≥ cfg.RV_PMP_ACTIVE_NUM
  · simp [csr_write, csr_write_dispatch, csr_write_h, csr_write_chain, csr_write_post,
      Res.bind, hp, hd, hne, hact, sstatus, sie, stvec, sscratch, sepc, scause, stval, sip,
      satp, mideleg, hideleg, hie, hip, hvip, hstatus, vsstatus, vsie, vsip, vstvec, vsscratch,
      vsepc, vscause, vstval, vsatp, mstatus, hcounteren, scounteren, mcounteren,
      mcountinhibit, mcycle, minstret, mie, mip, mtvec, medeleg, vcsr, vxrm, vxsat, misa, mepc,
      fflags, frm, fcsr, tselect, tdata1, tdata2, hgatp, vstart]
  · simp [csr_write, csr_write_dispatch, csr_write_h, csr_write_chain, csr_write_post,
      Res.bind, hp, hd, hne, hact, sstatus, sie, stvec, sscratch, sepc, scause, stval, sip,
      satp, mideleg, hideleg, hie, hip, hvip, hstatus, vsstatus, vsie, vsip, vstvec, vsscratch,
      vsepc, vscause, vstval, vsatp, mstatus, hcounteren, scounteren, mcounteren,
      mcountinhibit, mcycle, minstret, mie, mip, mtvec, medeleg, vcsr, vxrm, vxsat, misa, mepc,
      fflags, frm, fcsr, tselect, tdata1, tdata2, hgatp, vstart]

theorem pmpaddr_write_mask (k : Nat) (hk : k < 64) : wsub (wshl 1 k) 1 = 2 ^ k - 1 := by
  have h1 : (2 : Nat) ^ k < 2 ^ 64 := Nat.pow_lt_pow_right (by decide) hk
  have h2 : 0 < (2 : Nat) ^ k := Nat.two_pow_pos k
  unfold wsub wshl
  rw [Nat.one_shiftLeft]
  generalize (2 : Nat) ^ k = n at h1 h2
  omega

/-- C22. In a build with the PMP registers, a write of `v` to `pmpaddr[i]` returns normally.
For an active index the stored address and every other CSR are unchanged when entry `i` is
locked, or when `i` is not the last active entry and entry `i + 1` is locked with
top-of-range addressing; otherwise the stored address becomes
`v & (2^(CONFIG_PADDRBITS - PMP_SHIFT) - 1)` and the other CSRs are unchanged; either way the
translation cache is flushed. A write to an inactive index leaves the whole state as it is. -/
theorem C22_pmpaddr_write (cfg : Config) (s : State) (i v : Nat)
    (hp : cfg.RV_PMP_CSR = true) (hi : i < CSR_PMPADDR_MAX_NUM)
    (hb : cfg.PADDRBITS - PMP_SHIFT < 64) :
    ∃ s1 : State, csr_write cfg s (CSR_PMPADDR_BASE + i) v = .ok () s1
      ∧ (i < cfg.RV_PMP_ACTIVE_NUM →
          ((pmpcfg_from_index s i &&& PMP_L ≠ 0
              ∨ (i + 1 < cfg.RV_PMP_ACTIVE_NUM ∧ pmpcfg_from_index s (i + 1) &&& PMP_L ≠ 0
                  ∧ pmpcfg_from_index s (i + 1) &&& PMP_A = PMP_TOR)) →
            s1.csr_array = s.csr_array)
          ∧ (¬ (pmpcfg_from_index s i &&& PMP_L ≠ 0
              ∨ (i + 1 < cfg.RV_PMP_ACTIVE_NUM ∧ pmpcfg_from_index s (i + 1) &&& PMP_L ≠ 0
                  ∧ pmpcfg_from_index s (i + 1) &&& PMP_A = PMP_TOR)) →
            s1.csr_array (CSR_PMPADDR_BASE + i) = v &&& (2 ^ (cfg.PADDRBITS - PMP_SHIFT) - 1)
            ∧ ∀ a : Nat, a ≠ CSR_PMPADDR_BASE + i → s1.csr_array a = s.csr_array a)
          ∧ s1.calls = s.calls ++ [.mmu_tlb_flush 0])
      ∧ (cfg.RV_PMP_ACTIVE_NUM ≤ i → s1 = s) := by
  have hd : is_pmpaddr (CSR_PMPADDR_BASE + i) = true := by
    simp only [CSR_PMPADDR_MAX_NUM] at hi
    simp [is_pmpaddr, CSR_PMPADDR_BASE, CSR_PMPADDR_MAX_NUM]
    omega
  have hidx : CSR_PMPADDR_BASE + i - CSR_PMPADDR_BASE = i := by omega
  refine ⟨_, csr_write_pmpaddr_eq cfg s _ v hp hd, ?_, ?_⟩
  · intro hact
    have hge : ¬ cfg.RV_PMP_ACTIVE_NUM ≤ i := by omega
    have hlt : i < cfg.RV_PMP_ACTIVE_NUM - 1 ↔ i + 1 < cfg.RV_PMP_ACTIVE_NUM := by omega
    rw [hidx]
    simp only [ge_iff_le, hge, if_false]
    refine ⟨?_, ?_, ?_⟩
    · intro hblk
      rcases hblk with hl | ⟨h1, h2, h3⟩
      · simp [csr_write_pmpaddr, State.call, hact, hl]
      · simp [csr_write_pmpaddr, State.call, hact, hlt, h1, h2, h3]
    · intro hfree
      have hl : pmpcfg_from_index s i &&& PMP_L = 0 := by
        by_contra hc; exact hfree (Or.inl hc)
      have hn : ¬ (i + 1 < cfg.RV_PMP_ACTIVE_NUM ∧ pmpcfg_from_index s (i + 1) &&& PMP_L ≠ 0
                  ∧ pmpcfg_from_index s (i + 1) &&& PMP_A = PMP_TOR) :=
        fun hc => hfree (Or.inr hc)
      have hcond : (decide (i < cfg.RV_PMP_ACTIVE_NUM)
          && !decide (pmpcfg_from_index s i &&& PMP_L ≠ 0)
          && !((decide (i < cfg.RV_PMP_ACTIVE_NUM - 1)
                && decide (pmpcfg_from_index s (i + 1) &&& PMP_L ≠ 0))
              && (decide (i < cfg.RV_PMP_ACTIVE_NUM - 1)
                && decide (pmpcfg_from_index s (i + 1) &&& PMP_A = PMP_TOR)))) = true := by
        by_cases h1 : i + 1 < cfg.RV_PMP_ACTIVE_NUM
        · by_cases h2 : pmpcfg_from_index s (i + 1) &&& PMP_L ≠ 0
          · have h3 : ¬ pmpcfg_from_index s (i + 1) &&& PMP_A = PMP_TOR :=
              fun h => hn ⟨h1, h2, h⟩
            simp [hact, hl, hlt, h1, h2, h3]
          · simp [hact, hl, hlt, h1, h2]
        · simp [hact, hl, hlt, h1]
      simp only [csr_write_pmpaddr, hcond, if_true, State.call, State.set,
        pmpaddr_write_mask _ hb]
      refine ⟨by simp, ?_⟩
      intro a ha
      simp [ha]
    · simp only [csr_write_pmpaddr, State.call]
      split_ifs <;> rfl
  · intro hin
    rw [hidx]
    simp [hin]

/-- Witness of C22: `pmpaddr0` on a machine whose entry 0 is unlocked and whose entry 1 is
locked with top-of-range addressing. -/
theorem C22_pmpaddr_write_witness :
    (Config.plain.RV_PMP_CSR = true ∧ 0 < CSR_PMPADDR_MAX_NUM
      ∧ Config.plain.PADDRBITS - PMP_SHIFT < 64 ∧ 0 < Config.plain.RV_PMP_ACTIVE_NUM
      ∧ (0 + 1 < Config.plain.RV_PMP_ACTIVE_NUM
          ∧ pmpcfg_from_index State.pmp_locked_tor (0 + 1) &&& PMP_L ≠ 0
          ∧ pmpcfg_from_index State.pmp_locked_tor (0 + 1) &&& PMP_A = PMP_TOR))
    ∧ ∃ s1 : State,
      csr_write Config.plain State.pmp_locked_tor (CSR_PMPADDR_BASE + 0) 0x1234 = .ok () s1
      ∧ (0 < Config.plain.RV_PMP_ACTIVE_NUM →
          ((pmpcfg_from_index State.pmp_locked_tor 0 &&& PMP_L ≠ 0
              ∨ (0 + 1 < Config.plain.RV_PMP_ACTIVE_NUM
                  ∧ pmpcfg_from_index State.pmp_locked_tor (0 + 1) &&& PMP_L ≠ 0
                  ∧ pmpcfg_from_index State.pmp_locked_tor (0 + 1) &&& PMP_A = PMP_TOR)) →
            s1.csr_array = State.pmp_locked_tor.csr_array)
          ∧ (¬ (pmpcfg_from_index State.pmp_locked_tor 0 &&& PMP_L ≠ 0
              ∨ (0 + 1 < Config.plain.RV_PMP_ACTIVE_NUM
                  ∧ pmpcfg_from_index State.pmp_locked_tor (0 + 1) &&& PMP_L ≠ 0
                  ∧ pmpcfg_from_index State.pmp_locked_tor (0 + 1) &&& PMP_A = PMP_TOR)) →
            s1.csr_array (CSR_PMPADDR_BASE + 0)
              = 0x1234 &&& (2 ^ (Config.plain.PADDRBITS - PMP_SHIFT) - 1)
            ∧ ∀ a : Nat, a ≠ CSR_PMPADDR_BASE + 0 →
                s1.csr_array a = State.pmp_locked_tor.csr_array a)
          ∧ s1.calls = State.pmp_locked_tor.calls ++ [.mmu_tlb_flush 0])
      ∧ (Config.plain.RV_PMP_ACTIVE_NUM ≤ 0 → s1 = State.pmp_locked_tor) :=
  ⟨⟨rfl, by decide, by decide, by decide, by decide, by decide, by decide⟩,
   C22_pmpaddr_write Config.plain State.pmp_locked_tor 0 0x1234 rfl (by decide) (by decide)⟩

/-! ### C23: virtual-instruction traps while not virtualized -/

theorem Res.bind_ok_cause {α β : Type} (r : Res α) (b : β) :
    (r.bind fun _ s1 => .ok b s1).cause = r.cause
    ∧ (r.bind fun _ s1 => .ok b s1).state = r.state := by
  cases r <;> simp [Res.bind, Res.cause, Res.state]

theorem csr_counter_enable_check_not_virtual (cfg : Config) (s : State) (a : Nat)
    (hv : s.v = 0) :
    (csr_counter_enable_check cfg s a).cause ≠ some .EX_VI
    ∧ (csr_counter_enable_check cfg s a).state = s := by
  simp only [csr_counter_enable_check, hv, ne_eq, not_true_eq_false, false_and, and_false,
    if_false]
  split_ifs <;> simp [Res.cause, Res.state]

theorem csr_is_legal_not_virtual (cfg : Config) (s : State) (a : Nat) (w : Bool)
    (hv : s.v = 0) :
    (csr_is_legal cfg s a w).cause ≠ some .EX_VI ∧ (csr_is_legal cfg s a w).state = s := by
  have hc := csr_counter_enable_check_not_virtual cfg s a hv
  simp only [csr_is_legal, hv, ne_eq, not_true_eq_false, false_and, and_false, if_false]
  split_ifs <;>
  first
    | (simp [Res.cause, Res.state]; done)
    | (rw [(Res.bind_ok_cause _ _).1, (Res.bind_ok_cause _ _).2]; exact hc)

theorem res_ok_not_virtual {α : Type} (x : α) (s1 s : State)
    (h : s1.v = 0 ∧ s1.mode = s.mode ∧ s1.csr_array hstatus = s.csr_array hstatus) :
    (Res.ok x s1).cause ≠ some .EX_VI
    ∧ (Res.ok x s1).state.v = 0
    ∧ (Res.ok x s1).state.mode = s.mode
    ∧ (Res.ok x s1).state.csr_array hstatus = s.csr_array hstatus :=
  ⟨by simp [Res.cause], h⟩

theorem res_illegal_not_virtual {α : Type} (s1 s : State)
    (h : s1.v = 0 ∧ s1.mode = s.mode ∧ s1.csr_array hstatus = s.csr_array hstatus) :
    (Res.trap .EX_II s1 : Res α).cause ≠ some .EX_VI
    ∧ (Res.trap .EX_II s1 : Res α).state.v = 0
    ∧ (Res.trap .EX_II s1 : Res α).state.mode = s.mode
    ∧ (Res.trap .EX_II s1 : Res α).state.csr_array hstatus = s.csr_array hstatus :=
  ⟨by simp [Res.cause], h⟩

theorem call_not_virtual (s1 s : State) (c : ExtCall)
    (h : s1.v = 0 ∧ s1.mode = s.mode ∧ s1.csr_array hstatus = s.csr_array hstatus) :
    (s1.call c).v = 0 ∧ (s1.call c).mode = s.mode
    ∧ (s1.call c).csr_array hstatus = s.csr_array hstatus := h

theorem ite_not_virtual {α : Type} (c : Prop) [Decidable c] (x y : Res α) (s : State)
    (hx : x.cause ≠ some .EX_VI ∧ x.state.v = 0 ∧ x.state.mode = s.mode
      ∧ x.state.csr_array hstatus = s.csr_array hstatus)
    (hy : y.cause ≠ some .EX_VI ∧ y.state.v = 0 ∧ y.state.mode = s.mode
      ∧ y.state.csr_array hstatus = s.csr_array hstatus) :
    (if c then x else y).cause ≠ some .EX_VI
    ∧ (if c then x else y).state.v = 0
    ∧ (if c then x else y).state.mode = s.mode
    ∧ (if c then x else y).state.csr_array hstatus = s.csr_array hstatus := by
  split_ifs
  · exact hx
  · exact hy

theorem csr_read_not_virtual (cfg : Config) (s : State) (a : Nat) (hv : s.v = 0) :
    (csr_read cfg s a).cause ≠ some .EX_VI
    ∧ (csr_read cfg s a).state.v = 0
    ∧ (csr_read cfg s a).state.mode = s.mode
    ∧ (csr_read cfg s a).state.csr_array hstatus = s.csr_array hstatus := by
  have hv1 : ¬ s.v = 1 := by omega
  have hu : (update_mstatus_sd cfg s).v = 0 ∧ (update_mstatus_sd cfg s).mode = s.mode
      ∧ (update_mstatus_sd cfg s).csr_array hstatus = s.csr_array hstatus := by
    simp [update_mstatus_sd, State.set, hstatus, mstatus, hv]
  unfold csr_read
  by_cases hp : cfg.RV_PMP_CSR = true ∧ is_pmpaddr a = true
  · rw [if_pos hp]; exact res_ok_not_virtual _ s s ⟨hv, rfl, rfl⟩
  · simp only [hp, if_false, hv1, and_false]
    cases hh : (if cfg.RVH = true then csr_read_h cfg s a else none) with
    | some x => exact res_ok_not_virtual _ s s ⟨hv, rfl, rfl⟩
    | none =>
      have h0 : ∀ s0 : State,
          s0 = (if a = mstatus ∨ a = sstatus then update_mstatus_sd cfg s else s) →
          s0.v = 0 ∧ s0.mode = s.mode ∧ s0.csr_array hstatus = s.csr_array hstatus := by
        intro s0 hs0
        rw [hs0]; split_ifs
        · exact hu
        · exact ⟨hv, rfl, rfl⟩
      show (csr_read_common cfg s a).cause ≠ some .EX_VI
        ∧ (csr_read_common cfg s a).state.v = 0
        ∧ (csr_read_common cfg s a).state.mode = s.mode
        ∧ (csr_read_common cfg s a).state.csr_array hstatus = s.csr_array hstatus
      unfold csr_read_common
      generalize (if a = mstatus ∨ a = sstatus then update_mstatus_sd cfg s else s) = s0 at h0
      replace h0 := h0 s0 rfl
      unfold csr_read_tail
      dsimp only
      repeat' first
        | exact res_ok_not_virtual _ _ s h0
        | exact res_ok_not_virtual _ _ s (call_not_virtual _ s _ h0)
        | exact res_illegal_not_virtual _ s h0
        | exact res_illegal_not_virtual _ s (call_not_virtual _ s _ h0)
        | exact res_ok_not_virtual _ _ s (by split_ifs <;> exact h0)
        | exact res_illegal_not_virtual _ s (by split_ifs <;> exact h0)
        | apply ite_not_virtual

theorem cause_ite_not_virtual {α : Type} (c : Prop) [Decidable c] (x y : Res α)
    (hx : x.cause ≠ some .EX_VI) (hy : y.cause ≠ some .EX_VI) :
    (if c then x else y).cause ≠ some .EX_VI := by
  split_ifs
  · exact hx
  · exact hy

theorem cause_ok_not_virtual {α : Type} (x : α) (s : State) :
    (Res.ok x s).cause ≠ some .EX_VI := by
  simp [Res.cause]

theorem cause_illegal_not_virtual {α : Type} (s : State) :
    (Res.trap .EX_II s : Res α).cause ≠ some .EX_VI := by
  simp [Res.cause]

theorem csr_write_chain_not_virtual (cfg : Config) (s : State) (dest v : Nat) :
    (csr_write_chain cfg s dest v).cause ≠ some .EX_VI := by
  unfold csr_write_chain
  dsimp only
  repeat' first
    | exact cause_ok_not_virtual _ _
    | exact cause_illegal_not_virtual _
    | apply cause_ite_not_virtual

theorem csr_write_h_vsatp (cfg : Config) (s : State) (v : Nat) :
    csr_write_h cfg s vsatp v =
      some (if s.mode = MODE_S ∧ hstatus_vtvm (s.csr_array hstatus) = 1 then .trap .EX_VI s
        else if satp_mode_ok v = true then .ok () (s.set vsatp (cfg.MASKED_SATP v))
        else .ok () s) := by
  simp only [csr_write_h, vsatp, mideleg, hideleg, hie, hip, hvip, hstatus, vsstatus, vsie,
    vsip, vstvec, vsscratch, vsepc, vscause, vstval, Nat.reduceEqDiff, if_false, if_true]
  split_ifs <;> rfl

theorem opt_ite_not_virtual (c : Prop) [Decidable c] (x y : Option (Res Unit))
    (hx : ∀ r : Res Unit, x = some r → r.cause ≠ some .EX_VI)
    (hy : ∀ r : Res Unit, y = some r → r.cause ≠ some .EX_VI) :
    ∀ r : Res Unit, (if c then x else y) = some r → r.cause ≠ some .EX_VI := by
  split_ifs
  · exact hx
  · exact hy

theorem opt_ite_neg_not_virtual (c : Prop) [Decidable c] (x y : Option (Res Unit)) (hc : ¬ c)
    (hy : ∀ r : Res Unit, y = some r → r.cause ≠ some .EX_VI) :
    ∀ r : Res Unit, (if c then x else y) = some r → r.cause ≠ some .EX_VI := by
  rw [if_neg hc]
  exact hy

theorem opt_ok_not_virtual (s : State) :
    ∀ r : Res Unit, some (Res.ok () s) = some r → r.cause ≠ some .EX_VI := by
  intro r h
  cases h
  simp [Res.cause]

theorem opt_none_not_virtual :
    ∀ r : Res Unit, (none : Option (Res Unit)) = some r → r.cause ≠ some .EX_VI := by
  intro r h
  cases h

theorem csr_write_h_not_virtual (cfg : Config) (s : State) (dest v : Nat) (hd : dest ≠ vsatp) :
    ∀ r : Res Unit, csr_write_h cfg s dest v = some r → r.cause ≠ some .EX_VI := by
  unfold csr_write_h
  dsimp only
  repeat' first
    | exact opt_ok_not_virtual _
    | exact opt_none_not_virtual
    | apply opt_ite_neg_not_virtual _ _ _ hd
    | apply opt_ite_not_virtual

theorem Res.bind_cause_of_ok {α β : Type} (r : Res α) (f : α → State → Res β)
    (hf : ∀ (a : α) (s : State), (f a s).cause = none) :
    ((r.bind f).cause = some .EX_VI) ↔ (r.cause = some .EX_VI) := by
  cases r with
  | ok a s =>
    have h := hf a s
    simp only [Res.bind, h]
    simp [Res.cause]
  | trap c s => simp [Res.bind, Res.cause]
  | panic s => simp [Res.bind, Res.cause]

theorem csr_write_cause_virtual (cfg : Config) (s : State) (dest v : Nat) (hv : s.v = 0) :
    (csr_write cfg s dest v).cause = some .EX_VI ↔
      (cfg.RVH = true ∧ dest = vsatp ∧ s.mode = MODE_S
        ∧ hstatus_vtvm (s.csr_array hstatus) = 1) := by
  have hv1 : ¬ s.v = 1 := by omega
  unfold csr_write
  rw [Res.bind_cause_of_ok _ _ (by intro a s1; split_ifs <;> rfl)]
  unfold csr_write_dispatch
  simp only [hv1, false_and, and_false, if_false]
  have hrest : (if dest = mstatus then Res.ok true (csr_write_mstatus cfg s v)
      else csr_write_chain cfg s dest v).cause ≠ some .EX_VI :=
    cause_ite_not_virtual _ _ _ (cause_ok_not_virtual _ _)
      (csr_write_chain_not_virtual cfg s dest v)
  cases hh : cfg.RVH with
  | false =>
    simp only [Bool.false_eq_true, if_false, false_and, iff_false]
    exact hrest
  | true =>
    simp only [if_true, true_and]
    by_cases hd : dest = vsatp
    · subst hd
      rw [csr_write_h_vsatp]
      simp only [true_and]
      rw [Res.bind_cause_of_ok _ _ (by intro a s1; rfl)]
      split_ifs with hc <;> simp [Res.cause, hc]
    · cases hw : csr_write_h cfg s dest v with
      | none =>
        simp only [hd, false_and, iff_false]
        exact hrest
      | some r =>
        simp only [hd, false_and, iff_false]
        rw [Res.bind_cause_of_ok _ _ (by intro a s1; rfl)]
        exact csr_write_h_not_virtual cfg s dest v hd r hw

theorem cause_panic_not_virtual {α : Type} (s : State) :
    (Res.panic s : Res α).cause ≠ some .EX_VI := by
  simp [Res.cause]

theorem priv_sret_common_not_virtual (cfg : Config) (s : State) :
    (priv_sret_common cfg s).cause ≠ some .EX_VI := by
  unfold priv_sret_common
  dsimp only
  repeat' first
    | exact cause_ok_not_virtual _ _
    | exact cause_illegal_not_virtual _
    | apply cause_ite_not_virtual

theorem priv_instr_not_virtual (cfg : Config) (s : State) (op src : Nat) (hv : s.v = 0) :
    (priv_instr cfg s op src).cause ≠ some .EX_VI := by
  have hv1 : ¬ s.v = 1 := by omega
  have hv0 : ¬ s.v ≠ 0 := by omega
  unfold priv_instr
  apply cause_ite_not_virtual
  · unfold priv_sret
    simp only [hv, if_true]
    split_ifs
    · exact priv_sret_common_not_virtual cfg _
    · exact priv_sret_common_not_virtual cfg _
  apply cause_ite_not_virtual
  · unfold priv_mret
    dsimp only
    repeat' first
      | exact cause_ok_not_virtual _ _
      | exact cause_illegal_not_virtual _
      | apply cause_ite_not_virtual
  apply cause_ite_not_virtual
  · repeat' first
      | exact cause_ok_not_virtual _ _
      | exact cause_illegal_not_virtual _
      | apply cause_ite_not_virtual
  apply cause_ite_not_virtual
  · unfold priv_wfi
    simp only [hv0, false_and, or_self, and_false, if_false]
    repeat' first
      | exact cause_ok_not_virtual _ _
      | exact cause_illegal_not_virtual _
      | apply cause_ite_not_virtual
  apply cause_ite_not_virtual
  · exact cause_ok_not_virtual _ _
  · unfold priv_fence
    simp only [hv1, hv0, false_and, if_false]
    repeat' first
      | exact cause_ok_not_virtual _ _
      | exact cause_illegal_not_virtual _
      | exact cause_panic_not_virtual _
      | apply cause_ite_not_virtual

theorem csrrw_cause_virtual (cfg : Config) (s : State) (dest : Bool) (src : Option Nat)
    (csrid : Nat) (hv : s.v = 0)
    (h : (csrrw cfg s dest src csrid).cause = some .EX_VI) :
    cfg.RVH = true ∧ csrid = vsatp ∧ src.isSome = true ∧ s.mode = MODE_S
      ∧ hstatus_vtvm (s.csr_array hstatus) = 1 := by
  have hl := csr_is_legal_not_virtual cfg s csrid src.isSome hv
  unfold csrrw at h
  cases hr : csr_is_legal cfg s csrid src.isSome with
  | panic s1 => rw [hr] at h; simp [Res.bind, Res.cause] at h
  | trap c s1 =>
    rw [hr] at h hl
    simp only [Res.bind, Res.cause] at h hl
    exact absurd h hl.1
  | ok legal s1 =>
    rw [hr] at h hl
    have hs1 : s1 = s := hl.2
    subst hs1
    simp only [Res.bind] at h
    by_cases hleg : legal = false
    · simp [hleg, Res.cause] at h
    · simp only [hleg, if_false, csr_decode] at h
      have hrd := csr_read_not_virtual cfg s1 csrid hv
      -- the state after the optional read
      have key : ∀ (out : Option Nat) (s2 : State), s2.v = 0 → s2.mode = s1.mode →
          s2.csr_array hstatus = s1.csr_array hstatus →
          (match src with
            | some tmp => (csr_write cfg s2 csrid tmp).bind fun _ s3 => Res.ok out s3
            | none => Res.ok out s2).cause = some .EX_VI →
          cfg.RVH = true ∧ csrid = vsatp ∧ src.isSome = true ∧ s1.mode = MODE_S
            ∧ hstatus_vtvm (s1.csr_array hstatus) = 1 := by
        intro out s2 h2v h2m h2h hc
        cases src with
        | none => simp [Res.cause] at hc
        | some tmp =>
          simp only at hc
          rw [Res.bind_cause_of_ok _ _ (by intro a s3; rfl)] at hc
          have := (csr_write_cause_virtual cfg s2 csrid tmp h2v).1 hc
          rw [h2m, h2h] at this
          exact ⟨this.1, this.2.1, rfl, this.2.2.1, this.2.2.2⟩
      cases dest with
      | false =>
        simp only [Bool.false_eq_true, if_false, Res.bind] at h
        exact key none s1 hv rfl rfl h
      | true =>
        simp only [if_true] at h
        cases hrr : csr_read cfg s1 csrid with
        | panic s2 => rw [hrr] at h; simp [Res.bind, Res.cause] at h
        | trap c s2 =>
          rw [hrr] at h hrd
          simp only [Res.bind, Res.cause] at h hrd
          exact absurd h hrd.1
        | ok x s2 =>
          rw [hrr] at h hrd
          simp only [Res.bind, Res.state] at h hrd
          exact key (some x) s2 hrd.2.1 hrd.2.2.1 hrd.2.2.2 h

theorem csrrw_vsatp_write_hs (cfg : Config) (s : State) (x : Nat) (hh : cfg.RVH = true)
    (hv : s.v = 0) (hex : s.csr_exist vsatp = true) (hm : s.mode = MODE_S)
    (ht : hstatus_vtvm (s.csr_array hstatus) = 1) :
    csrrw cfg s false (some x) vsatp = .trap .EX_VI s := by
  have hw : csr_write cfg s vsatp x = .trap .EX_VI s := by
    simp [csr_write, csr_write_dispatch, hv, hh, csr_write_h_vsatp, hm, ht, Res.bind]
  have hl : csr_is_legal cfg s vsatp true = .ok true s := by
    have e : (640 &&& 768) >>> 8 = 2 := by decide
    simp only [vsatp] at hex
    simp [csr_is_legal, hex, hh, hm, vsatp, MODE_S, MODE_HS, e]
  simp [csrrw, hl, hw, Res.bind, csr_decode]

/-- C23, what the code does. While `cpu.v = 0`: a CSR access through `csrrw` leaves through
the virtual-instruction trap only when it writes `vsatp` in supervisor mode with
`hstatus.vtvm` set, in a build with the hypervisor extension; in every such state in which
`vsatp` exists the write does leave through the virtual-instruction trap; and no
privileged instruction (`priv_instr`, any opcode) leaves through it. -/
theorem C23_virtual_trap_while_not_virtualized (cfg : Config) (s : State) (hv : s.v = 0) :
    (∀ (dest : Bool) (src : Option Nat) (csrid : Nat),
      (csrrw cfg s dest src csrid).cause = some .EX_VI →
        cfg.RVH = true ∧ csrid = vsatp ∧ src.isSome = true ∧ s.mode = MODE_S
          ∧ hstatus_vtvm (s.csr_array hstatus) = 1)
    ∧ (cfg.RVH = true → s.csr_exist vsatp = true → s.mode = MODE_S →
        hstatus_vtvm (s.csr_array hstatus) = 1 →
        ∀ x : Nat, csrrw cfg s false (some x) vsatp = .trap .EX_VI s)
    ∧ (∀ op src : Nat, (priv_instr cfg s op src).cause ≠ some .EX_VI) :=
  ⟨fun dest src csrid h => csrrw_cause_virtual cfg s dest src csrid hv h,
   fun hh hex hm ht x => csrrw_vsatp_write_hs cfg s x hh hv hex hm ht,
   fun op src => priv_instr_not_virtual cfg s op src hv⟩

/-- Witness of C23: a machine in HS mode (`cpu.v = 0`, supervisor mode) with `hstatus.vtvm`
set. A write of 0 to `vsatp` leaves through the virtual-instruction trap, while a read of
`vsatp` in the same state succeeds. -/
theorem C23_virtual_trap_while_not_virtualized_witness :
    (State.hs_vtvm.v = 0 ∧ Config.hyp.RVH = true ∧ State.hs_vtvm.csr_exist vsatp = true
      ∧ State.hs_vtvm.mode = MODE_S ∧ hstatus_vtvm (State.hs_vtvm.csr_array hstatus) = 1)
    ∧ ((∀ (dest : Bool) (src : Option Nat) (csrid : Nat),
        (csrrw Config.hyp State.hs_vtvm dest src csrid).cause = some .EX_VI →
          Config.hyp.RVH = true ∧ csrid = vsatp ∧ src.isSome = true
            ∧ State.hs_vtvm.mode = MODE_S
            ∧ hstatus_vtvm (State.hs_vtvm.csr_array hstatus) = 1)
      ∧ (Config.hyp.RVH = true → State.hs_vtvm.csr_exist vsatp = true →
          State.hs_vtvm.mode = MODE_S →
          hstatus_vtvm (State.hs_vtvm.csr_array hstatus) = 1 →
          ∀ x : Nat, csrrw Config.hyp State.hs_vtvm false (some x) vsatp
            = .trap .EX_VI State.hs_vtvm)
      ∧ (∀ op src : Nat, (priv_instr Config.hyp State.hs_vtvm op src).cause ≠ some .EX_VI))
    ∧ csrrw Config.hyp State.hs_vtvm false (some 0) vsatp = .trap .EX_VI State.hs_vtvm
    ∧ (csrrw Config.hyp State.hs_vtvm true none vsatp).value = some (some 0) :=
  ⟨⟨rfl, rfl, by decide, rfl, by decide⟩,
   C23_virtual_trap_while_not_virtualized Config.hyp State.hs_vtvm rfl,
   (C23_virtual_trap_while_not_virtualized Config.hyp State.hs_vtvm rfl).2.1 rfl (by decide)
     rfl (by decide) 0,
   by decide⟩

/-! ### C24: the supervisor interrupt registers seen by a guest -/

theorem csr_write_sepc_virt (cfg : Config) (s : State) (v : Nat)
    (hh : cfg.RVH = true) (hv : s.v = 1) :
    csr_write cfg s sepc v = .ok () (s.set vsepc v)
    ∧ csr_write cfg s stvec v = .ok () (s.set vstvec v) := by
  constructor <;>
  simp [csr_write, csr_write_dispatch, csr_write_virt, csr_write_post, Res.bind, hh, hv,
    sstatus, sie, stvec, sscratch, sepc, scause, stval, sip, satp, mstatus, hstatus, vsstatus,
    vsatp, hgatp, mie, mip, vcsr, vxrm, vxsat, vstart, fflags, frm, fcsr]

theorem csr_write_sepc_plain (cfg : Config) (s : State) (v : Nat) (hv : s.v = 0) :
    csr_write cfg s sepc v = .ok () (s.set sepc (v &&& wnot 0x1))
    ∧ csr_write cfg s stvec v =
      .ok () (s.set stvec (if cfg.XTVEC_VECTORED_MODE = true then v &&& wnot 0x2
        else v &&& wnot 0x3)) := by
  constructor <;> cases hh : cfg.RVH <;>
  simp [csr_write, csr_write_dispatch, csr_write_h, csr_write_chain, csr_write_post, Res.bind,
    hh, hv, sstatus, sie, stvec, sscratch, sepc, scause, stval, sip, satp, mideleg,
    hideleg, hie, hip, hvip, hstatus, vsstatus, vsie, vsip, vstvec, vsscratch, vsepc, vscause,
    vstval, vsatp, mstatus, hcounteren, scounteren, mcounteren, mcountinhibit, mcycle,
    minstret, mie, mip, mtvec, medeleg, vcsr, vxrm, vxsat, misa, mepc, fflags, frm, fcsr,
    tselect, tdata1, tdata2, hgatp, vstart]

theorem csr_read_sepc_virt (cfg : Config) (s : State) (hh : cfg.RVH = true) (hv : s.v = 1) :
    csr_read cfg s sepc = .ok (s.csr_array vsepc) s := by
  simp [csr_read, csr_read_virt, hh, hv, is_pmpaddr, CSR_PMPADDR_BASE, CSR_PMPADDR_MAX_NUM,
    sstatus, sie, stvec, sscratch, sepc, scause, stval, sip]

/-- Failing input of C25. A guest (`cpu.v = 1`, supervisor mode) writes `0x1001` to `sepc`:
`vsepc` becomes `0x1001`, bit 0 included, and the following sret returns `0x1001`, whereas
the same write with `cpu.v = 0` stores `0x1000` in `sepc`. A guest write of 3 to `stvec`
stores 3 in `vstvec`, whereas the same write with `cpu.v = 0` stores 0 in `stvec`. -/
theorem C25_guest_sepc_keeps_bit0 :
    Config.hyp.RVH = true ∧ State.guest_sret.v = 1 ∧ State.guest_sret.mode = MODE_S
    ∧ (csr_write Config.hyp State.guest_sret sepc 0x1001).state.csr_array vsepc = 0x1001
    ∧ (priv_instr Config.hyp (csr_write Config.hyp State.guest_sret sepc 0x1001).state
        0x102 0).value = some 0x1001
    ∧ (csr_write Config.hyp State.supervisor sepc 0x1001).state.csr_array sepc = 0x1000
    ∧ (csr_write Config.hyp State.guest_sret stvec 3).state.csr_array vstvec = 3
    ∧ (csr_write Config.hyp State.supervisor stvec 3).state.csr_array stvec = 0 := by
  rw [(csr_write_sepc_virt _ _ _ rfl rfl).1, (csr_write_sepc_virt _ _ _ rfl rfl).2,
    (csr_write_sepc_plain _ _ _ rfl).1, (csr_write_sepc_plain _ _ _ rfl).2]
  simp only [Res.state]
  rw [priv_instr_sret_virt _ _ _ rfl rfl rfl]
  refine ⟨rfl, rfl, rfl, by decide, by decide, by decide, by decide, by decide⟩

/-- C25, what the code does. In a build with the hypervisor extension and with `cpu.v = 1`,
a write of `v` to `sepc` stores `v` itself in `vsepc`, bit 0 included, and changes no other
CSR; a following read of `sepc` returns `v`, and a following sret executed in supervisor mode
with `hstatus.vtsr` clear returns `v`, so the returned address has bit 0 set whenever `v` has.
A write of `v` to `stvec` stores `v` itself in `vstvec`. In every state with `cpu.v = 0` the
same writes store `v & ~1` in `sepc` and `v & ~2` (vectored mode supported) or `v & ~3`
(otherwise) in `stvec`: the redirected stores do not apply the legalisation of their
non-virtualized counterparts. -/
theorem C25_guest_sepc_write (cfg : Config) (s : State) (v src : Nat)
    (hh : cfg.RVH = true) (hv : s.v = 1) :
    (∃ s1 : State, csr_write cfg s sepc v = .ok () s1
      ∧ s1.csr_array vsepc = v
      ∧ (∀ a : Nat, a ≠ vsepc → s1.csr_array a = s.csr_array a)
      ∧ csr_read cfg s1 sepc = .ok v s1
      ∧ (cfg.MODE_USER = false → s.mode = MODE_S → hstatus_vtsr (s.csr_array hstatus) = 0 →
          (priv_instr cfg s1 0x102 src).value = some v))
    ∧ csr_write cfg s stvec v = .ok () (s.set vstvec v)
    ∧ (∀ s0 : State, s0.v = 0 →
        csr_write cfg s0 sepc v = .ok () (s0.set sepc (v &&& wnot 0x1))
        ∧ csr_write cfg s0 stvec v =
          .ok () (s0.set stvec (if cfg.XTVEC_VECTORED_MODE = true then v &&& wnot 0x2
            else v &&& wnot 0x3))) := by
  refine ⟨?_, (csr_write_sepc_virt cfg s v hh hv).2,
    fun s0 h0 => csr_write_sepc_plain cfg s0 v h0⟩
  refine ⟨_, (csr_write_sepc_virt cfg s v hh hv).1, ?_, ?_, ?_, ?_⟩
  · simp [State.set]
  · intro a ha
    simp [State.set, ha]
  · rw [csr_read_sepc_virt cfg _ hh (by simpa [State.set] using hv)]
    simp [State.set]
  · intro hu hm ht
    rw [priv_instr_sret_virt cfg _ src hh hu (by simpa [State.set] using hv)]
    have ht2 : hstatus_vtsr ((s.set vsepc v).csr_array hstatus) = 0 := by
      simpa [State.set, hstatus, vsepc] using ht
    have hm2 : (s.set vsepc v).mode = MODE_S := hm
    have hc : ¬ (((s.set vsepc v).mode = MODE_S
          ∧ hstatus_vtsr ((s.set vsepc v).csr_array hstatus) ≠ 0)
        ∨ (s.set vsepc v).mode < MODE_S) := by
      rw [hm2, ht2]; simp
    unfold priv_sret_virt
    rw [if_neg hc]
    simp [Res.value, State.set, vsepc, vsstatus]

/-- Witness of C25: the sample guest writes `0x1001` to `sepc` and to `stvec`. -/
theorem C25_guest_sepc_write_witness :
    (Config.hyp.RVH = true ∧ State.guest_sret.v = 1 ∧ Config.hyp.MODE_USER = false
      ∧ State.guest_sret.mode = MODE_S
      ∧ hstatus_vtsr (State.guest_sret.csr_array hstatus) = 0
      ∧ Nat.testBit 0x1001 0 = true)
    ∧ (∃ s1 : State, csr_write Config.hyp State.guest_sret sepc 0x1001 = .ok () s1
      ∧ s1.csr_array vsepc = 0x1001
      ∧ (∀ a : Nat, a ≠ vsepc → s1.csr_array a = State.guest_sret.csr_array a)
      ∧ csr_read Config.hyp s1 sepc = .ok 0x1001 s1
      ∧ (Config.hyp.MODE_USER = false → State.guest_sret.mode = MODE_S →
          hstatus_vtsr (State.guest_sret.csr_array hstatus) = 0 →
          (priv_instr Config.hyp s1 0x102 0).value = some 0x1001))
    ∧ csr_write Config.hyp State.guest_sret stvec 0x1001
        = .ok () (State.guest_sret.set vstvec 0x1001)
    ∧ (∀ s0 : State, s0.v = 0 →
        csr_write Config.hyp s0 sepc 0x1001 = .ok () (s0.set sepc (0x1001 &&& wnot 0x1))
        ∧ csr_write Config.hyp s0 stvec 0x1001 =
          .ok () (s0.set stvec (if Config.hyp.XTVEC_VECTORED_MODE = true
            then 0x1001 &&& wnot 0x2 else 0x1001 &&& wnot 0x3))) :=
  ⟨⟨rfl, rfl, rfl, rfl, by decide, by decide⟩,
   C25_guest_sepc_write Config.hyp State.guest_sret 0x1001 0 rfl rfl⟩

/-! ### C26: virtualization and machine mode across trap returns -/

theorem update_mstatus_sd_val_testBit (cfg : Config) (w i : Nat) (hi : i < 64)
    (h13 : i ≠ 13) (h14 : i ≠ 14) (h63 : i ≠ 63) :
    (update_mstatus_sd_val cfg w).testBit i = w.testBit i := by
  by_cases hpin : ((cfg.DIFFTEST_REF_QEMU || !cfg.FS_CLEAN_STATE)
      && decide (mstatus_fs w ≠ 0)) = true
  · rw [update_mstatus_sd_val_pin cfg w hpin, testBit_setf_other _ _ _ _ _ hi (by omega),
      testBit_setf_other _ _ _ _ _ hi (by omega)]
  · rw [update_mstatus_sd_val_nopin cfg w hpin, testBit_setf_other _ _ _ _ _ hi (by omega)]

theorem getf_one_ne_machine (w lo : Nat) : getf w lo 1 ≠ MODE_M := by
  have := getf_one_lt w lo
  unfold MODE_M
  omega

theorem priv_sret_common_mode (cfg : Config) (s : State) :
    (priv_sret_common cfg s).state.mode ≠ MODE_M := by
  unfold priv_sret_common
  dsimp only
  by_cases hc : (s.mode = MODE_S ∧ mstatus_tsr (s.csr_array mstatus) ≠ 0) ∨ s.mode < MODE_S
  · rw [if_pos hc]
    simp only [Res.state]
    rcases hc with ⟨h, _⟩ | h
    · rw [h]; decide
    · intro h2; rw [h2] at h; exact absurd h (by decide)
  · rw [if_neg hc]
    exact getf_one_ne_machine _ 8

theorem priv_sret_virt_mode (s : State) : (priv_sret_virt s).state.mode ≠ MODE_M := by
  unfold priv_sret_virt
  dsimp only
  by_cases hc : (s.mode = MODE_S ∧ hstatus_vtsr (s.csr_array hstatus) ≠ 0) ∨ s.mode < MODE_S
  · rw [if_pos hc]
    simp only [Res.state]
    rcases hc with ⟨h, _⟩ | h
    · rw [h]; decide
    · intro h2; rw [h2] at h; exact absurd h (by decide)
  · rw [if_neg hc]
    exact getf_one_ne_machine _ 8

theorem priv_instr_sret_mode (cfg : Config) (s : State) (src : Nat)
    (hu : cfg.MODE_USER = false) : (priv_instr cfg s 0x102 src).state.mode ≠ MODE_M := by
  have e : priv_instr cfg s 0x102 src = priv_sret cfg s := by simp [priv_instr, hu]
  rw [e]
  unfold priv_sret
  split_ifs
  · exact priv_sret_common_mode cfg _
  · exact priv_sret_virt_mode s
  · exact priv_sret_common_mode cfg s
  · exact priv_sret_common_mode cfg s

theorem priv_instr_mret_virt (cfg : Config) (s : State) (src : Nat) (hh : cfg.RVH = true)
    (hu : cfg.MODE_USER = false) (hm : ¬ s.mode < MODE_M) :
    (priv_instr cfg s 0x302 src).state.v = mstatus_mpv (s.csr_array mstatus)
    ∧ (priv_instr cfg s 0x302 src).state.mode = mstatus_mpp (s.csr_array mstatus) := by
  rw [priv_instr_mret cfg s src hu, priv_mret_eq cfg s hm]
  simp [Res.state, State.call, State.set, set_sys_state_flag, hh]

theorem mstatus_write_mpp_mpv (cfg : Config) (s : State) (v : Nat) (hh : cfg.RVH = true) :
    ∃ s1 : State, csr_write cfg s mstatus v = .ok () s1
      ∧ mstatus_mpp (s1.csr_array mstatus) = getf v 11 2
      ∧ mstatus_mpv (s1.csr_array mstatus) = getf v 39 1
      ∧ s1.mode = s.mode ∧ s1.v = s.v := by
  have hmask : ∀ i : Nat, i = 11 ∨ i = 12 ∨ i = 39 → (MSTATUS_WMASK cfg).testBit i = true := by
    intro i hi
    have e : MSTATUS_WMASK_RVH cfg = 3 <<< 38 := by simp [MSTATUS_WMASK_RVH, hh]
    have h39 : (MSTATUS_WMASK_RVH cfg).testBit 39 = true := by rw [e]; decide
    have h11 : MSTATUS_WMASK_BASE.testBit 11 = true := by decide
    have h12 : MSTATUS_WMASK_BASE.testBit 12 = true := by decide
    rcases hi with h | h | h <;> subst h
    · simp [MSTATUS_WMASK, Nat.testBit_or, h11]
    · simp [MSTATUS_WMASK, Nat.testBit_or, h12]
    · simp [MSTATUS_WMASK, Nat.testBit_or, h39]
  have hbit : ∀ i : Nat, i = 11 ∨ i = 12 ∨ i = 39 →
      (update_mstatus_sd_val cfg
        (mask_bitset (s.csr_array mstatus) (MSTATUS_WMASK cfg) v)).testBit i = v.testBit i := by
    intro i hi
    rw [update_mstatus_sd_val_testBit cfg _ i (by omega) (by omega) (by omega) (by omega),
      testBit_mask_bitset, hmask i hi]
    simp
  refine ⟨_, csr_write_mstatus_eq cfg s v, ?_, ?_, ?_, ?_⟩
  · simp only [set_sys_state_flag, State.call, update_mstatus_sd, csr_write_mstatus, hh,
      if_true, State.set, mstatus_mpp]
    apply Nat.eq_of_testBit_eq
    intro i
    rw [testBit_getf, testBit_getf]
    by_cases hi : i < 2
    · rw [hbit (11 + i) (by omega)]
    · simp [hi]
  · simp only [set_sys_state_flag, State.call, update_mstatus_sd, csr_write_mstatus, hh,
      if_true, State.set, mstatus_mpv]
    apply Nat.eq_of_testBit_eq
    intro i
    rw [testBit_getf, testBit_getf]
    by_cases hi : i < 1
    · rw [hbit (39 + i) (by omega)]
    · simp [hi]
  · simp [set_sys_state_flag, State.call, update_mstatus_sd, csr_write_mstatus, hh, State.set]
  · simp [set_sys_state_flag, State.call, update_mstatus_sd, csr_write_mstatus, hh, State.set]

/-- Failing input of C26. In the hypervisor build, machine-mode software writes
`mstatus` with MPP = machine and MPV = 1 (`0x8000001800`); the state still has `cpu.v = 0`, so
the predicate holds. The following mret returns normally and leaves `cpu.v = 1` with
`cpu.mode` = machine: the predicate no longer holds. -/
theorem C26_mret_into_virtualized_machine_mode :
    Config.hyp.RVH = true ∧ State.reset.mode = MODE_M ∧ State.reset.v = 0
    ∧ (csr_write Config.hyp State.reset mstatus 0x8000001800).state.v = 0
    ∧ (csr_write Config.hyp State.reset mstatus 0x8000001800).state.mode = MODE_M
    ∧ (priv_instr Config.hyp (csr_write Config.hyp State.reset mstatus 0x8000001800).state
        0x302 0).value = some 0
    ∧ (priv_instr Config.hyp (csr_write Config.hyp State.reset mstatus 0x8000001800).state
        0x302 0).state.v = 1
    ∧ (priv_instr Config.hyp (csr_write Config.hyp State.reset mstatus 0x8000001800).state
        0x302 0).state.mode = MODE_M := by
  rw [csr_write_mstatus_eq]
  simp only [Res.state]
  rw [priv_instr_mret _ _ _ rfl]
  refine ⟨rfl, rfl, rfl, rfl, rfl, by decide, by decide, by decide⟩

/-- C26, what the code does. In a build with the hypervisor extension and the privileged
instructions, from a state in which `cpu.v = 1` implies `cpu.mode` is not machine: sret
always ends with `cpu.mode` not machine, so the predicate holds after it; mret below machine
mode traps in the state it was called in; mret from machine mode ends with `cpu.v` = the old
`mstatus.MPV` and `cpu.mode` = the old `mstatus.MPP`, with no cross-check between the two, so
the predicate holds after it exactly when the old MPP and MPV are not machine and 1
together; and a write of `v` to `mstatus` stores bits 12..11 of `v` in MPP and bit 39 of `v`
in MPV, so that combination can be stored and mret then breaks the predicate. -/
theorem C26_trap_return_virtualization (cfg : Config) (s : State) (src : Nat)
    (hh : cfg.RVH = true) (hu : cfg.MODE_USER = false)
    (hinv : s.v = 1 → s.mode ≠ MODE_M) :
    ((priv_instr cfg s 0x102 src).state.v = 1 →
        (priv_instr cfg s 0x102 src).state.mode ≠ MODE_M)
    ∧ (s.mode < MODE_M → priv_instr cfg s 0x302 src = .trap .EX_II s)
    ∧ (¬ s.mode < MODE_M →
        (priv_instr cfg s 0x302 src).state.v = mstatus_mpv (s.csr_array mstatus)
        ∧ (priv_instr cfg s 0x302 src).state.mode = mstatus_mpp (s.csr_array mstatus))
    ∧ (((priv_instr cfg s 0x302 src).state.v = 1 →
          (priv_instr cfg s 0x302 src).state.mode ≠ MODE_M) ↔
        ¬ (¬ s.mode < MODE_M ∧ mstatus_mpp (s.csr_array mstatus) = MODE_M
            ∧ mstatus_mpv (s.csr_array mstatus) = 1))
    ∧ (∀ v : Nat, ∃ s1 : State, csr_write cfg s mstatus v = .ok () s1
        ∧ mstatus_mpp (s1.csr_array mstatus) = getf v 11 2
        ∧ mstatus_mpv (s1.csr_array mstatus) = getf v 39 1
        ∧ s1.mode = s.mode ∧ s1.v = s.v) := by
  have htrap : s.mode < MODE_M → priv_instr cfg s 0x302 src = .trap .EX_II s := by
    intro hm
    rw [priv_instr_mret cfg s src hu]
    simp [priv_mret, hm]
  refine ⟨fun _ => priv_instr_sret_mode cfg s src hu, htrap,
    fun hm => priv_instr_mret_virt cfg s src hh hu hm, ?_,
    fun v => mstatus_write_mpp_mpv cfg s v hh⟩
  by_cases hm : s.mode < MODE_M
  · rw [htrap hm]
    simp only [Res.state]
    constructor
    · intro _ hc
      exact hc.1 hm
    · intro _
      exact hinv
  · obtain ⟨e1, e2⟩ := priv_instr_mret_virt cfg s src hh hu hm
    rw [e1, e2]
    constructor
    · intro h hc
      exact h hc.2.2 hc.2.1
    · intro h h1 h2
      exact h ⟨hm, h2, h1⟩

/-- Witness of C26: the machine after reset (machine mode, `cpu.v = 0`). -/
theorem C26_trap_return_virtualization_witness :
    (Config.hyp.RVH = true ∧ Config.hyp.MODE_USER = false
      ∧ (State.reset.v = 1 → State.reset.mode ≠ MODE_M))
    ∧ (((priv_instr Config.hyp State.reset 0x102 0).state.v = 1 →
        (priv_instr Config.hyp State.reset 0x102 0).state.mode ≠ MODE_M)
      ∧ (State.reset.mode < MODE_M →
          priv_instr Config.hyp State.reset 0x302 0 = .trap .EX_II State.reset)
      ∧ (¬ State.reset.mode < MODE_M →
          (priv_instr Config.hyp State.reset 0x302 0).state.v
            = mstatus_mpv (State.reset.csr_array mstatus)
          ∧ (priv_instr Config.hyp State.reset 0x302 0).state.mode
            = mstatus_mpp (State.reset.csr_array mstatus))
      ∧ (((priv_instr Config.hyp State.reset 0x302 0).state.v = 1 →
            (priv_instr Config.hyp State.reset 0x302 0).state.mode ≠ MODE_M) ↔
          ¬ (¬ State.reset.mode < MODE_M
              ∧ mstatus_mpp (State.reset.csr_array mstatus) = MODE_M
              ∧ mstatus_mpv (State.reset.csr_array mstatus) = 1))
      ∧ (∀ v : Nat, ∃ s1 : State, csr_write Config.hyp State.reset mstatus v = .ok () s1
          ∧ mstatus_mpp (s1.csr_array mstatus) = getf v 11 2
          ∧ mstatus_mpv (s1.csr_array mstatus) = getf v 39 1
          ∧ s1.mode = State.reset.mode ∧ s1.v = State.reset.v)) :=
  ⟨⟨rfl, rfl, fun h => absurd h (by decide)⟩,
   C26_trap_return_virtualization Config.hyp State.reset 0 rfl rfl
     (fun h => absurd h (by decide))⟩

/-! ### C27: `sfence.vma` and `sinval.vma` -/

theorem priv_instr_fence (cfg : Config) (s : State) (op src : Nat)
    (hop : op >>> 5 = 0x09 ∨ op >>> 5 = 0x0b) :
    priv_instr cfg s op src = priv_fence cfg s (op >>> 5) src := by
  have hr : 288 ≤ op ∧ op < 384 := by
    rw [Nat.shiftRight_eq_div_pow] at hop
    omega
  have h1 : op ≠ 0x102 := by omega
  have h2 : op ≠ 0x302 := by omega
  have h3 : op ≠ 0x180 := by omega
  have h4 : op ≠ 0x181 := by omega
  have h5 : op ≠ 0x105 := by omega
  have h6 : op ≠ 0xFFFFFFFF := by omega
  simp [priv_instr, h1, h2, h3, h4, h5, h6]

theorem priv_fence_sfence_user (cfg : Config) (s : State) (src : Nat) (hm : s.mode = MODE_U) :
    priv_fence cfg s 0x09 src =
      if cfg.RVH = true ∧ s.v ≠ 0 then .ok 0 (s.call (.mmu_tlb_flush src))
      else .trap .EX_II s := by
  cases hh : cfg.RVH <;> by_cases hv : s.v = 0 <;>
  simp [priv_fence, hh, hv, hm, MODE_U, MODE_S]

theorem priv_fence_sinval_guest_user (cfg : Config) (s : State) (src : Nat)
    (hh : cfg.RVH = true) (hs : cfg.RV_SVINVAL = true) (hen : srnctl_svinval cfg s ≠ 0)
    (hv : s.v = 1) (hm : s.mode = MODE_U) :
    priv_fence cfg s 0x0b src = .trap .EX_VI s := by
  simp [priv_fence, hh, hs, hen, hv, hm, MODE_U, MODE_S]

theorem priv_fence_sfence_eq_sinval (cfg : Config) (s : State) (src : Nat)
    (hs : cfg.RV_SVINVAL = true) (hen : srnctl_svinval cfg s ≠ 0)
    (hne : ¬ (cfg.RVH = true ∧ s.v = 1 ∧ s.mode = MODE_U)) :
    priv_fence cfg s 0x09 src = priv_fence cfg s 0x0b src := by
  cases hh : cfg.RVH
  · by_cases hu : s.mode = MODE_U
    · simp [priv_fence, hh, hs, hen, hu]
    · by_cases ht : s.mode = MODE_S ∧ mstatus_tvm (s.csr_array mstatus) = 1
      · simp [priv_fence, hh, hs, hen, hu, ht]
      · simp [priv_fence, hh, hs, hen, hu, ht]
  · by_cases hv0 : s.v = 0
    · by_cases hu : s.mode = MODE_U
      · simp [priv_fence, hh, hs, hen, hu, hv0]
      · by_cases ht : s.mode = MODE_S ∧ mstatus_tvm (s.csr_array mstatus) = 1
        · simp [priv_fence, hh, hs, hen, hu, hv0, ht]
        · simp [priv_fence, hh, hs, hen, hu, hv0, ht]
    · by_cases hv1 : s.v = 1
      · have hu : ¬ s.mode = MODE_U := fun h => hne ⟨hh, hv1, h⟩
        by_cases ht : s.mode = MODE_S ∧ hstatus_vtvm (s.csr_array hstatus) = 1
        · simp [priv_fence, hh, hs, hen, hu, hv1, ht]
        · simp [priv_fence, hh, hs, hen, hu, hv1, ht]
      · simp [priv_fence, hh, hs, hen, hv0, hv1]

/-- C27, what the code does. For `sfence.vma` (`op >> 5 = 0x09`) and `sinval.vma`
(`op2 >> 5 = 0x0b`): in user mode without the hypervisor extension or with `cpu.v = 0`,
`sfence.vma` leaves through the illegal-instruction trap in the state it was called in; in
user mode with the hypervisor extension and `cpu.v = 1` it raises no trap and requests the
translation-cache flush, whereas `sinval.vma` (control bit enabled) leaves through the
virtual-instruction trap in that state; in every other state the two instructions have the
same result. -/
theorem C27_sfence_vma_user (cfg : Config) (s : State) (op op2 src : Nat)
    (hop : op >>> 5 = 0x09) (hop2 : op2 >>> 5 = 0x0b) :
    (s.mode = MODE_U → (cfg.RVH = false ∨ s.v = 0) →
        priv_instr cfg s op src = .trap .EX_II s)
    ∧ (s.mode = MODE_U → cfg.RVH = true → s.v = 1 →
        priv_instr cfg s op src = .ok 0 (s.call (.mmu_tlb_flush src)))
    ∧ (s.mode = MODE_U → cfg.RVH = true → s.v = 1 → cfg.RV_SVINVAL = true →
        srnctl_svinval cfg s ≠ 0 → priv_instr cfg s op2 src = .trap .EX_VI s)
    ∧ (cfg.RV_SVINVAL = true → srnctl_svinval cfg s ≠ 0 →
        ¬ (cfg.RVH = true ∧ s.v = 1 ∧ s.mode = MODE_U) →
        priv_instr cfg s op src = priv_instr cfg s op2 src) := by
  rw [priv_instr_fence cfg s op src (Or.inl hop), priv_instr_fence cfg s op2 src (Or.inr hop2),
    hop, hop2]
  refine ⟨?_, ?_, ?_, ?_⟩
  · intro hm hnv
    rw [priv_fence_sfence_user cfg s src hm]
    rcases hnv with h | h
    · simp [h]
    · simp [h]
  · intro hm hh hv
    rw [priv_fence_sfence_user cfg s src hm]
    simp [hh, hv]
  · intro hm hh hv hs hen
    exact priv_fence_sinval_guest_user cfg s src hh hs hen hv hm
  · intro hs hen hne
    exact priv_fence_sfence_eq_sinval cfg s src hs hen hne

/-- Witness of C27: a guest in user mode executes `sfence.vma` (`0x120`) and `sinval.vma`
(`0x160`). The first returns 0 with `mmu_tlb_flush(0x5000)` requested, the second leaves
through the virtual-instruction trap. -/
theorem C27_sfence_vma_user_witness :
    (0x120 >>> 5 = 0x09 ∧ 0x160 >>> 5 = 0x0b
      ∧ State.guest_user.mode = MODE_U ∧ Config.hyp_svinval.RVH = true
      ∧ State.guest_user.v = 1 ∧ Config.hyp_svinval.RV_SVINVAL = true
      ∧ srnctl_svinval Config.hyp_svinval State.guest_user ≠ 0)
    ∧ ((State.guest_user.mode = MODE_U →
          (Config.hyp_svinval.RVH = false ∨ State.guest_user.v = 0) →
          priv_instr Config.hyp_svinval State.guest_user 0x120 0x5000
            = .trap .EX_II State.guest_user)
      ∧ (State.guest_user.mode = MODE_U → Config.hyp_svinval.RVH = true →
          State.guest_user.v = 1 →
          priv_instr Config.hyp_svinval State.guest_user 0x120 0x5000
            = .ok 0 (State.guest_user.call (.mmu_tlb_flush 0x5000)))
      ∧ (State.guest_user.mode = MODE_U → Config.hyp_svinval.RVH = true →
          State.guest_user.v = 1 → Config.hyp_svinval.RV_SVINVAL = true →
          srnctl_svinval Config.hyp_svinval State.guest_user ≠ 0 →
          priv_instr Config.hyp_svinval State.guest_user 0x160 0x5000
            = .trap .EX_VI State.guest_user)
      ∧ (Config.hyp_svinval.RV_SVINVAL = true →
          srnctl_svinval Config.hyp_svinval State.guest_user ≠ 0 →
          ¬ (Config.hyp_svinval.RVH = true ∧ State.guest_user.v = 1
              ∧ State.guest_user.mode = MODE_U) →
          priv_instr Config.hyp_svinval State.guest_user 0x120 0x5000
            = priv_instr Config.hyp_svinval State.guest_user 0x160 0x5000))
    ∧ (priv_instr Config.hyp_svinval State.guest_user 0x120 0x5000).cause = none
    ∧ (priv_instr Config.hyp_svinval State.guest_user 0x120 0x5000).state.calls
        = [.mmu_tlb_flush 0x5000]
    ∧ (priv_instr Config.hyp_svinval State.guest_user 0x160 0x5000).cause = some .EX_VI :=
  ⟨⟨by decide, by decide, rfl, rfl, rfl, rfl, by decide⟩,
   C27_sfence_vma_user Config.hyp_svinval State.guest_user 0x120 0x160 0x5000
     (by decide) (by decide),
   by decide, by decide, by decide⟩

/-! ### C28: guest accesses to hypervisor-level registers -/

theorem csr_is_legal_guest_level2 (cfg : Config) (s : State) (a : Nat) (w : Bool)
    (hh : cfg.RVH = true) (hv : s.v = 1) (ha : a < 4096) (hex : s.csr_exist a = true)
    (hl : (a >>> 8) % 4 = 2) :
    (s.mode = MODE_U → csr_is_legal cfg s a w = .trap .EX_VI s)
    ∧ (s.mode = MODE_S → ¬ (w = true ∧ a >>> 10 = 0x3) → csr_is_legal cfg s a w = .ok true s) := by
  have hwin : ¬ (a ≥ 0xC00 ∧ a ≤ 0xC1F) := by
    rw [Nat.shiftRight_eq_div_pow] at hl
    omega
  unfold csr_is_legal
  simp only [ha, not_true_eq_false, if_false, hex, Bool.true_eq_false, csr_level_field, hl, hh,
    hv]
  constructor
  · intro hm
    simp [hm, MODE_U, MODE_S, MODE_HS]
  · intro hm hro
    simp [hm, MODE_S, MODE_HS, hro, hwin]

theorem csr_read_hstatus (cfg : Config) (s : State) (hh : cfg.RVH = true) :
    csr_read cfg s hstatus = .ok (s.csr_array hstatus) s := by
  by_cases hv : s.v = 1 <;>
  simp [csr_read, csr_read_virt, csr_read_h, csr_read_common, csr_read_tail, is_pmpaddr, hh, hv,
    CSR_PMPADDR_BASE, CSR_PMPADDR_MAX_NUM,
    sstatus, sie, stvec, sscratch, sepc, scause, stval, sip, satp, mideleg,
    hideleg, hie, hip, hvip, hstatus, vsstatus, vsie, vsip, hgeip, hgeie, mstatus, mie, mip,
    mtvec, vcsr, vlenb, fflags, frm, fcsr, mcycle, minstret, cycle, csr_time, instret,
    tdata1, tdata2, tdata3]

theorem csr_write_hstatus (cfg : Config) (s : State) (x : Nat) (hh : cfg.RVH = true) :
    csr_write cfg s hstatus x =
      .ok () (set_sys_state_flag
        (s.set hstatus (mask_bitset (s.csr_array hstatus) (HSTATUS_WMASK cfg) x))
        .SYS_STATE_FLUSH_TCACHE) := by
  by_cases hv : s.v = 1 <;>
  simp [csr_write, csr_write_dispatch, csr_write_h, csr_write_post, Res.bind, hh, hv,
    sstatus, sie, stvec, sscratch, sepc, scause, stval, sip, satp, mideleg,
    hideleg, hie, hip, hvip, hstatus, vsstatus, vsatp, mstatus, mie, mip, vcsr, vxrm, vxsat,
    fflags, frm, fcsr, hgatp, vstart]

theorem priv_instr_hfence_guest (cfg : Config) (s : State) (src : Nat)
    (hh : cfg.RVH = true) (hv : s.v = 1) :
    priv_instr cfg s 0x220 src = .trap .EX_VI s
    ∧ priv_instr cfg s 0x620 src = .trap .EX_VI s := by
  have e1 : (0x220 : Nat) >>> 5 = 0x11 := by decide
  have e2 : (0x620 : Nat) >>> 5 = 0x31 := by decide
  constructor
  · simp [priv_instr, priv_fence, hh, hv, e1]
  · simp [priv_instr, priv_fence, hh, hv, e2]

/-- Failing input of C28. In the hypervisor build a guest in supervisor mode
(`cpu.v = 1`) reads `vsepc` and writes `hstatus`, two existing registers whose level field is
2: the read returns the stored `0x1000` and the write stores `0x80`, with no trap. -/
theorem C28_guest_supervisor_reaches_level2 :
    Config.hyp.RVH = true ∧ State.guest_sret.v = 1 ∧ State.guest_sret.mode = MODE_S
    ∧ State.guest_sret.csr_exist vsepc = true ∧ (vsepc >>> 8) % 4 = 2
    ∧ State.guest_sret.csr_exist hstatus = true ∧ (hstatus >>> 8) % 4 = 2
    ∧ csrrw Config.hyp State.guest_sret true none vsepc = .ok (some 0x1000) State.guest_sret
    ∧ State.guest_sret.csr_array hstatus = 0
    ∧ (csrrw Config.hyp State.guest_sret false (some 0x80) hstatus).cause = none
    ∧ (csrrw Config.hyp State.guest_sret false (some 0x80) hstatus).state.csr_array hstatus
        = 0x80 := by
  have hl := (csr_is_legal_guest_level2 Config.hyp State.guest_sret hstatus true rfl rfl
    (by decide) (by decide) (by decide)).2 rfl (by decide)
  have hr := (csr_is_legal_guest_level2 Config.hyp State.guest_sret vsepc false rfl rfl
    (by decide) (by decide) (by decide)).2 rfl (by decide)
  have e1 : csrrw Config.hyp State.guest_sret true none vsepc
      = .ok (some 0x1000) State.guest_sret := by
    have hrd : csr_read Config.hyp State.guest_sret vsepc = .ok 0x1000 State.guest_sret := by
      simp [csr_read, csr_read_virt, csr_read_h, csr_read_common, csr_read_tail, is_pmpaddr,
        Config.hyp, Config.plain, State.guest_sret, State.reset,
        CSR_PMPADDR_BASE, CSR_PMPADDR_MAX_NUM,
        sstatus, sie, stvec, sscratch, sepc, scause, stval, sip, satp, mideleg,
        hideleg, hie, hip, hvip, hstatus, vsstatus, vsie, vsip, hgeip, hgeie, mstatus, mie,
        mip, mtvec, vcsr, vlenb, fflags, frm, fcsr, mcycle, minstret, cycle, csr_time,
        instret, tdata1, tdata2, tdata3, vsepc]
    simp [csrrw, hr, hrd, Res.bind, csr_decode]
  have e2 : csrrw Config.hyp State.guest_sret false (some 0x80) hstatus
      = .ok none (set_sys_state_flag
          (State.guest_sret.set hstatus
            (mask_bitset (State.guest_sret.csr_array hstatus) (HSTATUS_WMASK Config.hyp) 0x80))
          .SYS_STATE_FLUSH_TCACHE) := by
    simp [csrrw, hl, csr_write_hstatus Config.hyp State.guest_sret 0x80 rfl, Res.bind,
      csr_decode]
  rw [e1, e2]
  refine ⟨rfl, rfl, rfl, by decide, by decide, by decide, by decide, rfl, by decide, rfl,
    by decide⟩

/-- C28, what the code does. In a build with the hypervisor extension and with `cpu.v = 1`,
for every existing CSR whose level field `addr[9:8]` is 2: in user mode `csrrw` leaves through
the virtual-instruction trap in the state it was called in; in supervisor mode the level
check counts the guest as `MODE_HS`, so `csr_is_legal` accepts the access unless it is a
write to a read-only address, and the access is carried out: a read of `hstatus` returns the
stored value and a write of `x` to `hstatus` stores `x` under `HSTATUS_WMASK`. In the same
state the hypervisor fences `hfence.vvma` (`0x220`) and `hfence.gvma` (`0x620`) leave through
the virtual-instruction trap whatever the mode. -/
theorem C28_guest_level2_access (cfg : Config) (s : State) (a : Nat) (dest : Bool)
    (src : Option Nat) (hh : cfg.RVH = true) (hv : s.v = 1) (ha : a < 4096)
    (hex : s.csr_exist a = true) (hl : (a >>> 8) % 4 = 2) :
    (s.mode = MODE_U → csrrw cfg s dest src a = .trap .EX_VI s)
    ∧ (s.mode = MODE_S → ¬ (src.isSome = true ∧ a >>> 10 = 0x3) →
        csr_is_legal cfg s a src.isSome = .ok true s)
    ∧ (s.mode = MODE_S → a = hstatus →
        csrrw cfg s true none a = .ok (some (s.csr_array hstatus)) s
        ∧ ∀ x : Nat, csrrw cfg s false (some x) a =
            .ok none (set_sys_state_flag
              (s.set hstatus (mask_bitset (s.csr_array hstatus) (HSTATUS_WMASK cfg) x))
              .SYS_STATE_FLUSH_TCACHE))
    ∧ (∀ x : Nat, priv_instr cfg s 0x220 x = .trap .EX_VI s
        ∧ priv_instr cfg s 0x620 x = .trap .EX_VI s) := by
  refine ⟨?_, (csr_is_legal_guest_level2 cfg s a src.isSome hh hv ha hex hl).2, ?_,
    fun x => priv_instr_hfence_guest cfg s x hh hv⟩
  · intro hm
    simp [csrrw, (csr_is_legal_guest_level2 cfg s a src.isSome hh hv ha hex hl).1 hm, Res.bind]
  · intro hm hst
    subst hst
    have hr := (csr_is_legal_guest_level2 cfg s hstatus false hh hv ha hex hl).2 hm (by simp)
    have hw := (csr_is_legal_guest_level2 cfg s hstatus true hh hv ha hex hl).2 hm
      (by simp [hstatus])
    constructor
    · simp [csrrw, hr, csr_read_hstatus cfg s hh, Res.bind, csr_decode]
    · intro x
      simp [csrrw, hw, csr_write_hstatus cfg s x hh, Res.bind, csr_decode]

/-- Witness of C28: the sample guest in supervisor mode and `hstatus`. -/
theorem C28_guest_level2_access_witness :
    (Config.hyp.RVH = true ∧ State.guest_sret.v = 1 ∧ hstatus < 4096
      ∧ State.guest_sret.csr_exist hstatus = true ∧ (hstatus >>> 8) % 4 = 2
      ∧ State.guest_sret.mode = MODE_S)
    ∧ ((State.guest_sret.mode = MODE_U →
          csrrw Config.hyp State.guest_sret true none hstatus = .trap .EX_VI State.guest_sret)
      ∧ (State.guest_sret.mode = MODE_S →
          ¬ ((none : Option Nat).isSome = true ∧ hstatus >>> 10 = 0x3) →
          csr_is_legal Config.hyp State.guest_sret hstatus (none : Option Nat).isSome
            = .ok true State.guest_sret)
      ∧ (State.guest_sret.mode = MODE_S → hstatus = hstatus →
          csrrw Config.hyp State.guest_sret true none hstatus
            = .ok (some (State.guest_sret.csr_array hstatus)) State.guest_sret
          ∧ ∀ x : Nat, csrrw Config.hyp State.guest_sret false (some x) hstatus =
              .ok none (set_sys_state_flag
                (State.guest_sret.set hstatus
                  (mask_bitset (State.guest_sret.csr_array hstatus)
                    (HSTATUS_WMASK Config.hyp) x))
                .SYS_STATE_FLUSH_TCACHE))
      ∧ (∀ x : Nat, priv_instr Config.hyp State.guest_sret 0x220 x
            = .trap .EX_VI State.guest_sret
          ∧ priv_instr Config.hyp State.guest_sret 0x620 x
            = .trap .EX_VI State.guest_sret)) :=
  ⟨⟨rfl, rfl, by decide, by decide, by decide, rfl⟩,
   C28_guest_level2_access Config.hyp State.guest_sret hstatus true none rfl rfl (by decide)
     (by decide) (by decide)⟩

/-! ### C29: the trigger-select register -/

theorem csr_write_tselect_eq (cfg : Config) (s : State) (v : Nat) (hT : cfg.RVSDTRIG = true) :
    csr_write cfg s tselect v =
      .ok () (s.set tselect (if v < cfg.TRIGGER_NUM then v else cfg.TRIGGER_NUM)) := by
  cases hh : cfg.RVH <;>
  simp [csr_write, csr_write_dispatch, csr_write_h, csr_write_chain, csr_write_post, Res.bind,
    hh, hT, is_pmpaddr, is_pmpcfg, is_mhpmcounter, is_mhpmevent, CSR_PMPADDR_BASE,
    CSR_PMPADDR_MAX_NUM, CSR_PMPCFG_BASE, CSR_PMPCFG_MAX_NUM, CSR_MHPMCOUNTER_BASE,
    CSR_MHPMCOUNTER_NUM, CSR_MHPMEVENT_BASE, CSR_MHPMEVENT_NUM,
    sstatus, sie, stvec, sscratch, sepc, scause, stval, sip, satp, mideleg,
    hideleg, hie, hip, hvip, hstatus, vsstatus, vsie, vsip, vstvec, vsscratch, vsepc, vscause,
    vstval, vsatp, mstatus, hcounteren, scounteren, mcounteren, mcountinhibit, mcycle,
    minstret, mie, mip, mtvec, medeleg, vcsr, vxrm, vxsat, misa, mepc, fflags, frm, fcsr,
    tselect, tdata1, tdata2, hgatp, vstart]

theorem csr_read_tdata2_eq (cfg : Config) (s : State) (hT : cfg.RVSDTRIG = true) :
    csr_read cfg s tdata2 = .ok (s.triggers (s.csr_array tselect)).tdata2 s := by
  cases hh : cfg.RVH <;> by_cases hv : s.v = 1 <;>
  simp [csr_read, csr_read_virt, csr_read_h, csr_read_common, csr_read_tail, is_pmpaddr, hh, hv,
    hT, CSR_PMPADDR_BASE, CSR_PMPADDR_MAX_NUM,
    sstatus, sie, stvec, sscratch, sepc, scause, stval, sip, satp, mideleg,
    hideleg, hie, hip, hvip, hstatus, vsstatus, vsie, vsip, hgeip, hgeie, mstatus, mie, mip,
    mtvec, vcsr, vlenb, fflags, frm, fcsr, mcycle, minstret, cycle, csr_time, instret,
    tdata1, tdata2, tdata3]

/-- Counterexample to C29 as stated. In a build with 4 triggers, a write of 7 to `tselect`
stores 4, which is `CONFIG_TRIGGER_NUM` itself and not below it; the following read of
`tdata2` returns entry 4 of the trigger table, an entry that `init_trigger` leaves as
allocated. -/
theorem C29_tselect_reaches_trigger_num :
    Config.trig.RVSDTRIG = true ∧ Config.trig.TRIGGER_NUM = 4
    ∧ (csr_write Config.trig State.trig_armed tselect 7).state.csr_array tselect = 4
    ∧ ¬ (csr_write Config.trig State.trig_armed tselect 7).state.csr_array tselect
        < Config.trig.TRIGGER_NUM
    ∧ csr_read Config.trig (csr_write Config.trig State.trig_armed tselect 7).state tdata2
        = .ok (State.trig_armed.triggers 4).tdata2
            (csr_write Config.trig State.trig_armed tselect 7).state
    ∧ (∀ (fresh : Nat → Trigger) (s0 : State),
        (init_trigger Config.trig fresh s0).triggers 4 = fresh 4) := by
  rw [csr_read_tdata2_eq _ _ rfl, csr_write_tselect_eq _ _ _ rfl]
  refine ⟨rfl, rfl, by decide, by decide, rfl, ?_⟩
  intro fresh s0
  simp [init_trigger, Config.trig, Config.plain]

/-- C29, amended. In a build with the trigger extension, a write of `v` to `tselect` returns
normally and stores `v` when `v < CONFIG_TRIGGER_NUM` and `CONFIG_TRIGGER_NUM` otherwise: the
stored value is at most `CONFIG_TRIGGER_NUM`, and below it exactly when `v` is; no other CSR
and no trigger changes. After a write with `v >= CONFIG_TRIGGER_NUM` a read of `tdata2`
returns entry `CONFIG_TRIGGER_NUM` of the trigger table, which `init_trigger` does not
initialise. -/
theorem C29_tselect_write (cfg : Config) (s : State) (v : Nat) (hT : cfg.RVSDTRIG = true) :
    ∃ s1 : State, csr_write cfg s tselect v = .ok () s1
      ∧ s1.csr_array tselect = (if v < cfg.TRIGGER_NUM then v else cfg.TRIGGER_NUM)
      ∧ s1.csr_array tselect ≤ cfg.TRIGGER_NUM
      ∧ (s1.csr_array tselect < cfg.TRIGGER_NUM ↔ v < cfg.TRIGGER_NUM)
      ∧ (∀ a : Nat, a ≠ tselect → s1.csr_array a = s.csr_array a)
      ∧ s1.triggers = s.triggers
      ∧ (cfg.TRIGGER_NUM ≤ v →
          csr_read cfg s1 tdata2 = .ok (s.triggers cfg.TRIGGER_NUM).tdata2 s1)
      ∧ (∀ (fresh : Nat → Trigger) (s0 : State),
          (init_trigger cfg fresh s0).triggers cfg.TRIGGER_NUM = fresh cfg.TRIGGER_NUM) := by
  refine ⟨_, csr_write_tselect_eq cfg s v hT, ?_, ?_, ?_, ?_, rfl, ?_, ?_⟩
  · simp [State.set]
  · simp only [State.set, if_true]
    split_ifs <;> omega
  · simp only [State.set, if_true]
    split_ifs <;> omega
  · intro a ha
    simp [State.set, ha]
  · intro hv
    have hn : ¬ v < cfg.TRIGGER_NUM := by omega
    rw [csr_read_tdata2_eq cfg _ hT]
    simp [State.set, hn]
  · intro fresh s0
    simp [init_trigger]

/-- Witness of the amended C29: a write of 7 to `tselect` in the build with 4 triggers. -/
theorem C29_tselect_write_witness :
    (Config.trig.RVSDTRIG = true ∧ Config.trig.TRIGGER_NUM ≤ 7)
    ∧ ∃ s1 : State, csr_write Config.trig State.trig_armed tselect 7 = .ok () s1
      ∧ s1.csr_array tselect
          = (if 7 < Config.trig.TRIGGER_NUM then 7 else Config.trig.TRIGGER_NUM)
      ∧ s1.csr_array tselect ≤ Config.trig.TRIGGER_NUM
      ∧ (s1.csr_array tselect < Config.trig.TRIGGER_NUM ↔ 7 < Config.trig.TRIGGER_NUM)
      ∧ (∀ a : Nat, a ≠ tselect → s1.csr_array a = State.trig_armed.csr_array a)
      ∧ s1.triggers = State.trig_armed.triggers
      ∧ (Config.trig.TRIGGER_NUM ≤ 7 →
          csr_read Config.trig s1 tdata2
            = .ok (State.trig_armed.triggers Config.trig.TRIGGER_NUM).tdata2 s1)
      ∧ (∀ (fresh : Nat → Trigger) (s0 : State),
          (init_trigger Config.trig fresh s0).triggers Config.trig.TRIGGER_NUM
            = fresh Config.trig.TRIGGER_NUM) :=
  ⟨⟨rfl, by decide⟩, C29_tselect_write Config.trig State.trig_armed 7 rfl⟩

/-! ### C30: what a write to `sstatus` leaves alone in `mstatus` -/

/-- C30. For every non-virtualized write of any value to `sstatus`, `csr_write` returns
normally and every bit of `mstatus` (bits 0..63) that is outside `SSTATUS_WMASK` and is not
one of the FS bits 13, 14 or the SD bit 63 is unchanged; hence, `SSTATUS_RMASK` holding the
FS and SD bits, every bit of `mstatus` outside `SSTATUS_RMASK` is unchanged. No other CSR
changes. -/
theorem C30_sstatus_write_frame (cfg : Config) (s : State) (v : Nat)
    (hnv : cfg.RVH = false ∨ s.v ≠ 1) :
    ∃ s1 : State, csr_write cfg s sstatus v = .ok () s1
      ∧ (∀ i : Nat, i < 64 → (SSTATUS_WMASK cfg).testBit i = false →
          i ≠ 13 → i ≠ 14 → i ≠ 63 →
          (s1.csr_array mstatus).testBit i = (s.csr_array mstatus).testBit i)
      ∧ (cfg.SSTATUS_RMASK.testBit 13 = true → cfg.SSTATUS_RMASK.testBit 14 = true →
          cfg.SSTATUS_RMASK.testBit 63 = true →
          ∀ i : Nat, i < 64 → cfg.SSTATUS_RMASK.testBit i = false →
            (s1.csr_array mstatus).testBit i = (s.csr_array mstatus).testBit i)
      ∧ (∀ a : Nat, a ≠ mstatus → s1.csr_array a = s.csr_array a) := by
  have hval : (set_sys_state_flag
      (update_mstatus_sd cfg
        (s.set mstatus (mask_bitset (s.csr_array mstatus) (SSTATUS_WMASK cfg) v)))
      .SYS_STATE_UPDATE).csr_array mstatus
      = update_mstatus_sd_val cfg (mask_bitset (s.csr_array mstatus) (SSTATUS_WMASK cfg) v) := by
    simp [set_sys_state_flag, update_mstatus_sd, State.set]
  have hbits : ∀ i : Nat, i < 64 → (SSTATUS_WMASK cfg).testBit i = false →
      i ≠ 13 → i ≠ 14 → i ≠ 63 →
      (update_mstatus_sd_val cfg
        (mask_bitset (s.csr_array mstatus) (SSTATUS_WMASK cfg) v)).testBit i
        = (s.csr_array mstatus).testBit i := by
    intro i hi hm h13 h14 h63
    rw [update_mstatus_sd_val_testBit cfg _ i hi h13 h14 h63, testBit_mask_bitset, hm]
    simp [hi]
  refine ⟨_, csr_write_sstatus_eq cfg s v hnv, ?_, ?_, ?_⟩
  · intro i hi hm h13 h14 h63
    rw [hval]
    exact hbits i hi hm h13 h14 h63
  · intro r13 r14 r63 i hi hr
    rw [hval]
    have hm : (SSTATUS_WMASK cfg).testBit i = false := by
      simp [SSTATUS_WMASK, Nat.testBit_and, hr]
    have h13 : i ≠ 13 := by
      intro h; subst h; rw [r13] at hr; exact absurd hr (by decide)
    have h14 : i ≠ 14 := by
      intro h; subst h; rw [r14] at hr; exact absurd hr (by decide)
    have h63 : i ≠ 63 := by
      intro h; subst h; rw [r63] at hr; exact absurd hr (by decide)
    exact hbits i hi hm h13 h14 h63
  · intro a ha
    simp [set_sys_state_flag, update_mstatus_sd, State.set, ha]

/-- Witness of C30: a write of all ones to `sstatus` in supervisor mode on a machine whose
`mstatus` has MIE, MPIE, MPP and MPRV set. -/
theorem C30_sstatus_write_frame_witness :
    ((Config.plain.RVH = false ∨ State.supervisor_mprv.v ≠ 1)
      ∧ Config.plain.SSTATUS_RMASK.testBit 13 = true
      ∧ Config.plain.SSTATUS_RMASK.testBit 14 = true
      ∧ Config.plain.SSTATUS_RMASK.testBit 63 = true
      ∧ Config.plain.SSTATUS_RMASK.testBit 17 = false)
    ∧ ∃ s1 : State, csr_write Config.plain State.supervisor_mprv sstatus (2 ^ 64 - 1) = .ok () s1
      ∧ (∀ i : Nat, i < 64 → (SSTATUS_WMASK Config.plain).testBit i = false →
          i ≠ 13 → i ≠ 14 → i ≠ 63 →
          (s1.csr_array mstatus).testBit i
            = (State.supervisor_mprv.csr_array mstatus).testBit i)
      ∧ (Config.plain.SSTATUS_RMASK.testBit 13 = true →
          Config.plain.SSTATUS_RMASK.testBit 14 = true →
          Config.plain.SSTATUS_RMASK.testBit 63 = true →
          ∀ i : Nat, i < 64 → Config.plain.SSTATUS_RMASK.testBit i = false →
            (s1.csr_array mstatus).testBit i
              = (State.supervisor_mprv.csr_array mstatus).testBit i)
      ∧ (∀ a : Nat, a ≠ mstatus → s1.csr_array a = State.supervisor_mprv.csr_array a) :=
  ⟨⟨Or.inl rfl, by decide, by decide, by decide, by decide⟩,
   C30_sstatus_write_frame Config.plain State.supervisor_mprv (2 ^ 64 - 1) (Or.inl rfl)⟩

end NEMU
